import Mathlib

/-!
# Inventory ledger

A shallow embedding of the three entity files of the inventory service
(`inventory.go`, `inventory_movement.go`, `inventory_reservation.go`) and a
verification of the stock-ledger properties against it.

Conventions of the embedding:

* a Go method with a pointer receiver that returns `error` becomes a function
  returning the receiver after the call together with the error
  (`none` is Go's `nil` error), so that a mutation made before an error is
  returned stays visible;
* Go `int` is read in two ways. The definitions named as in the source compute
  over unbounded integers (`Int`); they carry the invariants that the
  specification states for unbounded integers and the statements whose
  arithmetic stays inside the machine range. The definitions with the suffix
  `64` (`AddStock64`, `AdjustStock64`, `abs64`, `call64`, ...) are the same
  methods with every `int` addition, subtraction and negation reduced to the
  64-bit two's complement range by `wrapInt`, as the compiled code computes
  them; they carry the statements about the values a call produces when the
  range can be left;
* Go `float64` is `Rat`;
* two goroutines that call `ReserveStock` on one entry are two calls that each
  take two steps on the shared entry, the guards and then the writes; a
  schedule says whose step is next (the source takes no lock in the method or
  around it);
* `uuid.UUID` is a string in canonical text form, so `String()` is the
  identity; the value produced by `uuid.New()` is an argument of the operation;
* `time.Time` is an integer instant whose zero value is `0`; the value read by
  `time.Now().UTC()` is an argument of the operation, read once per call;
* the string-typed enumerations (`InventoryStatus`, `StockStatus`,
  `ReservationStatus`, `MovementType`) stay strings, as in the source;
* pointer fields are `Option`, slices are `List`, a `map[string]interface{}` is
  an optional association list.
-/

namespace Entities

/-! ## Basic types -/

abbrev UUID := String

abbrev Time := Int

/-- Go's `error`: `none` is `nil`, `some msg` is `errors.New(msg)`. -/
abbrev Error := Option String

/-- A dynamically typed metadata value (`interface{}`), restricted to the
shapes the ledger stores. -/
inductive MetaValue where
  | str (s : String)
  | num (n : Rat)
  | bool (b : Bool)
  deriving DecidableEq, Repr

abbrev Metadata := Option (List (String × MetaValue))

/-- Map assignment `m[key] = value`, allocating the map when it is `nil`. -/
def Metadata.insert (m : Metadata) (key : String) (value : MetaValue) : Metadata :=
  match m with
  | none => some [(key, value)]
  | some kvs => some ((key, value) :: kvs.filter (fun kv => kv.1 ≠ key))

/-! ## inventory_movement.go -/

abbrev MovementType := String

def MovementTypeInbound : MovementType := "inbound"
def MovementTypeOutbound : MovementType := "outbound"
def MovementTypeAdjustment : MovementType := "adjustment"
def MovementTypeTransfer : MovementType := "transfer"
def MovementTypeReturn : MovementType := "return"
def MovementTypeDamage : MovementType := "damage"
def MovementTypeExpiry : MovementType := "expiry"
def MovementTypePromotion : MovementType := "promotion"

/-- The movement record; the Go field `Type` is spelled `Type_` (a reserved word here) and
the back-reference field `Inventory` is left out. -/
structure InventoryMovement where
  ID : UUID := ""
  InventoryID : UUID := ""
  Type_ : MovementType := ""
  Quantity : Int := 0
  PreviousQty : Int := 0
  NewQty : Int := 0
  Reason : String := ""
  Reference : Option String := none
  OrderID : Option UUID := none
  SupplierID : Option UUID := none
  FromLocation : Option String := none
  ToLocation : Option String := none
  UnitCost : Option Rat := none
  TotalCost : Option Rat := none
  CreatedBy : Option String := none
  Notes : Option String := none
  Metadata : Metadata := none
  CreatedAt : Time := 0
  deriving DecidableEq, Repr

def NewInventoryMovement (inventoryID : UUID) (movementType : MovementType)
    (quantity previousQty newQty : Int) (reason : String) (now : Time) (newID : UUID) :
    InventoryMovement :=
  { ID := newID
    InventoryID := inventoryID
    Type_ := movementType
    Quantity := quantity
    PreviousQty := previousQty
    NewQty := newQty
    Reason := reason
    Metadata := some []
    CreatedAt := now }

def InventoryMovement.IsInbound (m : InventoryMovement) : Bool :=
  decide (m.Type_ = MovementTypeInbound ∨ m.Type_ = MovementTypeReturn)

def InventoryMovement.IsOutbound (m : InventoryMovement) : Bool :=
  decide (m.Type_ = MovementTypeOutbound ∨ m.Type_ = MovementTypeDamage ∨
    m.Type_ = MovementTypeExpiry ∨ m.Type_ = MovementTypePromotion)

def InventoryMovement.IsAdjustment (m : InventoryMovement) : Bool :=
  decide (m.Type_ = MovementTypeAdjustment)

def InventoryMovement.IsTransfer (m : InventoryMovement) : Bool :=
  decide (m.Type_ = MovementTypeTransfer)

def InventoryMovement.QuantityChange (m : InventoryMovement) : Int :=
  m.NewQty - m.PreviousQty

def InventoryMovement.IsPositiveChange (m : InventoryMovement) : Bool :=
  decide (m.QuantityChange > 0)

def InventoryMovement.IsNegativeChange (m : InventoryMovement) : Bool :=
  decide (m.QuantityChange < 0)

/-! ## inventory_reservation.go -/

abbrev ReservationStatus := String

def ReservationStatusActive : ReservationStatus := "active"
def ReservationStatusFulfilled : ReservationStatus := "fulfilled"
def ReservationStatusReleased : ReservationStatus := "released"
def ReservationStatusExpired : ReservationStatus := "expired"
def ReservationStatusCancelled : ReservationStatus := "cancelled"

/-- The reservation record; the back-reference field `Inventory` is left out. -/
structure InventoryReservation where
  ID : UUID := ""
  InventoryID : UUID := ""
  OrderID : UUID := ""
  Quantity : Int := 0
  Status : ReservationStatus := ""
  ExpiresAt : Option Time := none
  FulfilledAt : Option Time := none
  ReleasedAt : Option Time := none
  Reason : Option String := none
  Notes : Option String := none
  CreatedBy : Option String := none
  UpdatedBy : Option String := none
  Metadata : Metadata := none
  CreatedAt : Time := 0
  UpdatedAt : Time := 0
  deriving DecidableEq, Repr

def NewInventoryReservation (inventoryID orderID : UUID) (quantity : Int)
    (expiresAt : Option Time) (now : Time) (newID : UUID) : Except String InventoryReservation :=
  if quantity ≤ 0 then
    .error "reservation quantity must be positive"
  else
    .ok { ID := newID
          InventoryID := inventoryID
          OrderID := orderID
          Quantity := quantity
          Status := ReservationStatusActive
          ExpiresAt := expiresAt
          Metadata := some []
          CreatedAt := now
          UpdatedAt := now }

/-- The source reads `r.ExpiresAt != nil && time.Now().UTC().After(*r.ExpiresAt)`. -/
def InventoryReservation.IsExpired (r : InventoryReservation) (now : Time) : Bool :=
  match r.ExpiresAt with
  | none => false
  | some e => decide (now > e)

def InventoryReservation.Fulfill (r : InventoryReservation) (fulfilledBy : Option String)
    (now : Time) : InventoryReservation × Error :=
  if r.Status ≠ ReservationStatusActive then
    (r, some "can only fulfill active reservations")
  else if r.IsExpired now then
    (r, some "cannot fulfill expired reservation")
  else
    let r := { r with Status := ReservationStatusFulfilled }
    let r := { r with FulfilledAt := some now, UpdatedAt := now }
    let r := match fulfilledBy with
      | some b => { r with UpdatedBy := some b }
      | none => r
    (r, none)

def InventoryReservation.Release (r : InventoryReservation) (reason : String)
    (releasedBy : Option String) (now : Time) : InventoryReservation × Error :=
  if r.Status ≠ ReservationStatusActive then
    (r, some "can only release active reservations")
  else
    let r := { r with Status := ReservationStatusReleased }
    let r := { r with ReleasedAt := some now, UpdatedAt := now }
    let r := if reason ≠ "" then { r with Reason := some reason } else r
    let r := match releasedBy with
      | some b => { r with UpdatedBy := some b }
      | none => r
    (r, none)

def InventoryReservation.Cancel (r : InventoryReservation) (reason : String)
    (cancelledBy : Option String) (now : Time) : InventoryReservation × Error :=
  if r.Status = ReservationStatusFulfilled then
    (r, some "cannot cancel fulfilled reservation")
  else
    let r := { r with Status := ReservationStatusCancelled }
    let r := { r with UpdatedAt := now }
    let r := if reason ≠ "" then { r with Reason := some reason } else r
    let r := match cancelledBy with
      | some b => { r with UpdatedBy := some b }
      | none => r
    (r, none)

def InventoryReservation.Expire (r : InventoryReservation) (now : Time) :
    InventoryReservation × Error :=
  if r.Status ≠ ReservationStatusActive then
    (r, some "can only expire active reservations")
  else if ¬ r.IsExpired now then
    (r, some "reservation has not yet expired")
  else
    let r := { r with Status := ReservationStatusExpired }
    let r := { r with UpdatedAt := now }
    (r, none)

def InventoryReservation.ExtendExpiry (r : InventoryReservation) (newExpiresAt : Time)
    (now : Time) : InventoryReservation × Error :=
  if r.Status ≠ ReservationStatusActive then
    (r, some "can only extend active reservations")
  else if newExpiresAt < now then
    (r, some "new expiry time cannot be in the past")
  else
    let r := { r with ExpiresAt := some newExpiresAt }
    let r := { r with UpdatedAt := now }
    (r, none)

def InventoryReservation.SetNotes (r : InventoryReservation) (notes : String) (now : Time) :
    InventoryReservation :=
  { r with Notes := some notes, UpdatedAt := now }

def InventoryReservation.SetCreatedBy (r : InventoryReservation) (createdBy : String) :
    InventoryReservation :=
  { r with CreatedBy := some createdBy }

def InventoryReservation.AddMetadata (r : InventoryReservation) (key : String)
    (value : MetaValue) (now : Time) : InventoryReservation :=
  { r with Metadata := r.Metadata.insert key value, UpdatedAt := now }

def InventoryReservation.IsActive (r : InventoryReservation) (now : Time) : Bool :=
  decide (r.Status = ReservationStatusActive) && !r.IsExpired now

def InventoryReservation.IsFulfilled (r : InventoryReservation) : Bool :=
  decide (r.Status = ReservationStatusFulfilled)

def InventoryReservation.IsReleased (r : InventoryReservation) : Bool :=
  decide (r.Status = ReservationStatusReleased)

def InventoryReservation.IsCancelled (r : InventoryReservation) : Bool :=
  decide (r.Status = ReservationStatusCancelled)

def InventoryReservation.HasExpiry (r : InventoryReservation) : Bool :=
  r.ExpiresAt.isSome

/-! ## inventory.go -/

abbrev InventoryStatus := String

def InventoryStatusActive : InventoryStatus := "active"
def InventoryStatusInactive : InventoryStatus := "inactive"
def InventoryStatusDiscontinued : InventoryStatus := "discontinued"
def InventoryStatusBackorder : InventoryStatus := "backorder"

abbrev StockStatus := String

def StockStatusInStock : StockStatus := "in_stock"
def StockStatusLowStock : StockStatus := "low_stock"
def StockStatusOutOfStock : StockStatus := "out_of_stock"
def StockStatusBackorder : StockStatus := "backorder"

structure Inventory where
  ID : UUID := ""
  ProductID : UUID := ""
  VariantID : Option UUID := none
  SKU : String := ""
  Quantity : Int := 0
  ReservedQuantity : Int := 0
  AvailableQuantity : Int := 0
  LowStockThreshold : Int := 0
  ReorderPoint : Int := 0
  MaxStockLevel : Int := 0
  Status : InventoryStatus := ""
  StockStatus : StockStatus := ""
  WarehouseID : Option UUID := none
  Location : Option String := none
  Bin : Option String := none
  LastRestockedAt : Option Time := none
  LastSoldAt : Option Time := none
  LastCountedAt : Option Time := none
  UnitCost : Option Rat := none
  TotalValue : Rat := 0
  SupplierID : Option UUID := none
  SupplierSKU : Option String := none
  LeadTimeDays : Option Int := none
  Notes : Option String := none
  Metadata : Metadata := none
  CreatedAt : Time := 0
  UpdatedAt : Time := 0
  Movements : List InventoryMovement := []
  Reservations : List InventoryReservation := []
  deriving DecidableEq, Repr

def Inventory.updateStockStatus (i : Inventory) : Inventory :=
  if i.Status ≠ InventoryStatusActive then
    { i with StockStatus := StockStatusOutOfStock }
  else if i.AvailableQuantity ≤ 0 then
    { i with StockStatus := StockStatusOutOfStock }
  else if i.AvailableQuantity ≤ i.LowStockThreshold then
    { i with StockStatus := StockStatusLowStock }
  else
    { i with StockStatus := StockStatusInStock }

def Inventory.calculateTotalValue (i : Inventory) : Inventory :=
  match i.UnitCost with
  | some c => { i with TotalValue := (i.Quantity : Rat) * c }
  | none => { i with TotalValue := 0 }

def NewInventory (productID : UUID) (sku : String) (initialQuantity : Int)
    (now : Time) (newID : UUID) : Except String Inventory :=
  if sku = "" then
    .error "SKU is required"
  else if initialQuantity < 0 then
    .error "initial quantity cannot be negative"
  else
    let inventory : Inventory :=
      { ID := newID
        ProductID := productID
        SKU := sku
        Quantity := initialQuantity
        ReservedQuantity := 0
        AvailableQuantity := initialQuantity
        LowStockThreshold := 10
        ReorderPoint := 5
        MaxStockLevel := 1000
        Status := InventoryStatusActive
        Metadata := some []
        CreatedAt := now
        UpdatedAt := now }
    let inventory := inventory.updateStockStatus
    let inventory := inventory.calculateTotalValue
    .ok inventory

def Inventory.AddStock (i : Inventory) (quantity : Int) (reason : String)
    (reference : Option String) (now : Time) (newID : UUID) : Inventory × Error :=
  if quantity ≤ 0 then
    (i, some "quantity must be positive")
  else if i.Status ≠ InventoryStatusActive then
    (i, some "cannot add stock to inactive inventory")
  else
    let oldQuantity := i.Quantity
    let i := { i with Quantity := i.Quantity + quantity }
    let i := { i with AvailableQuantity := i.Quantity - i.ReservedQuantity }
    let i := { i with LastRestockedAt := some now }
    let i := { i with UpdatedAt := now }
    let movement : InventoryMovement :=
      { ID := newID
        InventoryID := i.ID
        Type_ := MovementTypeInbound
        Quantity := quantity
        PreviousQty := oldQuantity
        NewQty := i.Quantity
        Reason := reason
        Reference := reference
        CreatedAt := now }
    let i := { i with Movements := i.Movements ++ [movement] }
    let i := i.updateStockStatus
    let i := i.calculateTotalValue
    (i, none)

def Inventory.RemoveStock (i : Inventory) (quantity : Int) (reason : String)
    (reference : Option String) (now : Time) (newID : UUID) : Inventory × Error :=
  if quantity ≤ 0 then
    (i, some "quantity must be positive")
  else if quantity > i.AvailableQuantity then
    (i, some "insufficient available stock")
  else
    let oldQuantity := i.Quantity
    let i := { i with Quantity := i.Quantity - quantity }
    let i := { i with AvailableQuantity := i.Quantity - i.ReservedQuantity }
    let i := { i with LastSoldAt := some now }
    let i := { i with UpdatedAt := now }
    let movement : InventoryMovement :=
      { ID := newID
        InventoryID := i.ID
        Type_ := MovementTypeOutbound
        Quantity := quantity
        PreviousQty := oldQuantity
        NewQty := i.Quantity
        Reason := reason
        Reference := reference
        CreatedAt := now }
    let i := { i with Movements := i.Movements ++ [movement] }
    let i := i.updateStockStatus
    let i := i.calculateTotalValue
    (i, none)

def Inventory.ReserveStock (i : Inventory) (quantity : Int) (orderID : UUID)
    (expiresAt : Option Time) (now : Time) (newID : UUID) : Inventory × Error :=
  if quantity ≤ 0 then
    (i, some "quantity must be positive")
  else if quantity > i.AvailableQuantity then
    (i, some "insufficient available stock for reservation")
  else
    let reservation : InventoryReservation :=
      { ID := newID
        InventoryID := i.ID
        OrderID := orderID
        Quantity := quantity
        Status := ReservationStatusActive
        ExpiresAt := expiresAt
        CreatedAt := now }
    let i := { i with Reservations := i.Reservations ++ [reservation] }
    let i := { i with ReservedQuantity := i.ReservedQuantity + quantity }
    let i := { i with AvailableQuantity := i.Quantity - i.ReservedQuantity }
    let i := { i with UpdatedAt := now }
    let i := i.updateStockStatus
    (i, none)

/-- The loop `for idx, reservation := range i.Reservations` up to its first
`reservation.ID == reservationID`: the index and the copy of the element the
loop body then works with, or `none` when the loop runs to its end. -/
def findReservation : List InventoryReservation → UUID → Option (Nat × InventoryReservation)
  | [], _ => none
  | r :: rs, reservationID =>
    if r.ID = reservationID then some (0, r)
    else (findReservation rs reservationID).map (fun p => (p.1 + 1, p.2))

/-- In-place update of the element `rs[idx]` of the slice. -/
def updateAt : List InventoryReservation → Nat → (InventoryReservation → InventoryReservation) →
    List InventoryReservation
  | [], _, _ => []
  | r :: rs, 0, f => f r :: rs
  | r :: rs, n + 1, f => r :: updateAt rs n f

def Inventory.ReleaseReservation (i : Inventory) (reservationID : UUID) (now : Time) :
    Inventory × Error :=
  match findReservation i.Reservations reservationID with
  | some (idx, reservation) =>
    if reservation.Status ≠ ReservationStatusActive then
      (i, some "reservation is not active")
    else
      let i := { i with
        Reservations := updateAt i.Reservations idx (fun r => { r with Status := ReservationStatusReleased }) }
      let i := { i with
        Reservations := updateAt i.Reservations idx (fun r => { r with UpdatedAt := now }) }
      let i := { i with ReservedQuantity := i.ReservedQuantity - reservation.Quantity }
      let i := { i with AvailableQuantity := i.Quantity - i.ReservedQuantity }
      let i := { i with UpdatedAt := now }
      let i := i.updateStockStatus
      (i, none)
  | none => (i, some "reservation not found")

def Inventory.FulfillReservation (i : Inventory) (reservationID : UUID) (now : Time)
    (newID : UUID) : Inventory × Error :=
  match findReservation i.Reservations reservationID with
  | some (idx, reservation) =>
    if reservation.Status ≠ ReservationStatusActive then
      (i, some "reservation is not active")
    else
      match i.RemoveStock reservation.Quantity "Order fulfillment" (some reservation.OrderID)
          now newID with
      | (i, some err) => (i, some err)
      | (i, none) =>
        let i := { i with
          Reservations := updateAt i.Reservations idx (fun r => { r with Status := ReservationStatusFulfilled }) }
        let i := { i with
          Reservations := updateAt i.Reservations idx (fun r => { r with UpdatedAt := now }) }
        let i := { i with ReservedQuantity := i.ReservedQuantity - reservation.Quantity }
        let i := { i with AvailableQuantity := i.Quantity - i.ReservedQuantity }
        (i, none)
  | none => (i, some "reservation not found")

/-- Go's helper `abs` on `int`. -/
def abs (x : Int) : Int :=
  if x < 0 then -x else x

def Inventory.AdjustStock (i : Inventory) (newQuantity : Int) (reason : String)
    (now : Time) (newID : UUID) : Inventory × Error :=
  if newQuantity < 0 then
    (i, some "quantity cannot be negative")
  else if newQuantity < i.ReservedQuantity then
    (i, some "new quantity cannot be less than reserved quantity")
  else
    let oldQuantity := i.Quantity
    let difference := newQuantity - oldQuantity
    let i := { i with Quantity := newQuantity }
    let i := { i with AvailableQuantity := i.Quantity - i.ReservedQuantity }
    let i := { i with LastCountedAt := some now }
    let i := { i with UpdatedAt := now }
    let movementType := MovementTypeAdjustment
    let movement : InventoryMovement :=
      { ID := newID
        InventoryID := i.ID
        Type_ := movementType
        Quantity := abs difference
        PreviousQty := oldQuantity
        NewQty := i.Quantity
        Reason := reason
        CreatedAt := now }
    let i := { i with Movements := i.Movements ++ [movement] }
    let i := i.updateStockStatus
    let i := i.calculateTotalValue
    (i, none)

def Inventory.SetThresholds (i : Inventory) (lowStock reorderPoint maxStock : Int)
    (now : Time) : Inventory × Error :=
  if lowStock < 0 ∨ reorderPoint < 0 ∨ maxStock < 0 then
    (i, some "thresholds cannot be negative")
  else if reorderPoint > lowStock then
    (i, some "reorder point cannot be greater than low stock threshold")
  else if maxStock < lowStock then
    (i, some "max stock level cannot be less than low stock threshold")
  else
    let i := { i with LowStockThreshold := lowStock }
    let i := { i with ReorderPoint := reorderPoint }
    let i := { i with MaxStockLevel := maxStock }
    let i := { i with UpdatedAt := now }
    let i := i.updateStockStatus
    (i, none)

def Inventory.SetLocation (i : Inventory) (warehouseID : Option UUID)
    (location bin : Option String) (now : Time) : Inventory :=
  { i with WarehouseID := warehouseID, Location := location, Bin := bin, UpdatedAt := now }

def Inventory.SetSupplierInfo (i : Inventory) (supplierID : Option UUID)
    (supplierSKU : Option String) (leadTimeDays : Option Int) (now : Time) : Inventory :=
  { i with SupplierID := supplierID, SupplierSKU := supplierSKU,
           LeadTimeDays := leadTimeDays, UpdatedAt := now }

def Inventory.SetUnitCost (i : Inventory) (cost : Rat) (now : Time) : Inventory × Error :=
  if cost < 0 then
    (i, some "unit cost cannot be negative")
  else
    let i := { i with UnitCost := some cost }
    let i := { i with UpdatedAt := now }
    let i := i.calculateTotalValue
    (i, none)

def Inventory.SetStatus (i : Inventory) (status : InventoryStatus) (now : Time) : Inventory :=
  let i := { i with Status := status }
  let i := { i with UpdatedAt := now }
  if status ≠ InventoryStatusActive then i.updateStockStatus else i

def Inventory.SetNotes (i : Inventory) (notes : String) (now : Time) : Inventory :=
  { i with Notes := some notes, UpdatedAt := now }

def Inventory.AddMetadata (i : Inventory) (key : String) (value : MetaValue) (now : Time) :
    Inventory :=
  { i with Metadata := i.Metadata.insert key value, UpdatedAt := now }

def Inventory.IsInStock (i : Inventory) : Bool :=
  decide (i.StockStatus = StockStatusInStock)

def Inventory.IsLowStock (i : Inventory) : Bool :=
  decide (i.StockStatus = StockStatusLowStock)

def Inventory.IsOutOfStock (i : Inventory) : Bool :=
  decide (i.StockStatus = StockStatusOutOfStock)

def Inventory.NeedsReorder (i : Inventory) : Bool :=
  decide (i.AvailableQuantity ≤ i.ReorderPoint)

def Inventory.IsOverstocked (i : Inventory) : Bool :=
  decide (i.Quantity > i.MaxStockLevel)

def Inventory.CanFulfillQuantity (i : Inventory) (quantity : Int) : Bool :=
  decide (i.AvailableQuantity ≥ quantity) && decide (i.Status = InventoryStatusActive)

/-! ## Calls and reachable states -/

/-- One call of a mutating method of `Inventory`: its arguments, the instant the
clock shows and, where the method draws one, the fresh identifier. -/
inductive Op where
  | AddStock (quantity : Int) (reason : String) (reference : Option String)
      (now : Time) (newID : UUID)
  | RemoveStock (quantity : Int) (reason : String) (reference : Option String)
      (now : Time) (newID : UUID)
  | ReserveStock (quantity : Int) (orderID : UUID) (expiresAt : Option Time)
      (now : Time) (newID : UUID)
  | ReleaseReservation (reservationID : UUID) (now : Time)
  | FulfillReservation (reservationID : UUID) (now : Time) (newID : UUID)
  | AdjustStock (newQuantity : Int) (reason : String) (now : Time) (newID : UUID)
  | SetThresholds (lowStock reorderPoint maxStock : Int) (now : Time)
  | SetLocation (warehouseID : Option UUID) (location bin : Option String) (now : Time)
  | SetSupplierInfo (supplierID : Option UUID) (supplierSKU : Option String)
      (leadTimeDays : Option Int) (now : Time)
  | SetUnitCost (cost : Rat) (now : Time)
  | SetStatus (status : InventoryStatus) (now : Time)
  | SetNotes (notes : String) (now : Time)
  | AddMetadata (key : String) (value : MetaValue) (now : Time)
  deriving DecidableEq, Repr

/-- The entry after the call and the error the call returns; a method without
an error result returns `none`. -/
def Inventory.call (i : Inventory) : Op → Inventory × Error
  | .AddStock quantity reason reference now newID =>
    i.AddStock quantity reason reference now newID
  | .RemoveStock quantity reason reference now newID =>
    i.RemoveStock quantity reason reference now newID
  | .ReserveStock quantity orderID expiresAt now newID =>
    i.ReserveStock quantity orderID expiresAt now newID
  | .ReleaseReservation reservationID now => i.ReleaseReservation reservationID now
  | .FulfillReservation reservationID now newID => i.FulfillReservation reservationID now newID
  | .AdjustStock newQuantity reason now newID => i.AdjustStock newQuantity reason now newID
  | .SetThresholds lowStock reorderPoint maxStock now =>
    i.SetThresholds lowStock reorderPoint maxStock now
  | .SetLocation warehouseID location bin now => (i.SetLocation warehouseID location bin now, none)
  | .SetSupplierInfo supplierID supplierSKU leadTimeDays now =>
    (i.SetSupplierInfo supplierID supplierSKU leadTimeDays now, none)
  | .SetUnitCost cost now => i.SetUnitCost cost now
  | .SetStatus status now => (i.SetStatus status now, none)
  | .SetNotes notes now => (i.SetNotes notes now, none)
  | .AddMetadata key value now => (i.AddMetadata key value now, none)

/-- The entry after a sequence of calls, errors ignored: each call acts on the
entry the previous one left. -/
def Inventory.run (i : Inventory) : List Op → Inventory
  | [] => i
  | op :: ops => Inventory.run (i.call op).1 ops

/-- States reachable from a successful `NewInventory` through calls that
satisfy `allowed`, whether they succeed or fail. -/
inductive ReachableBy (allowed : Op → Prop) : Inventory → Prop where
  | new (productID : UUID) (sku : String) (initialQuantity : Int) (now : Time) (newID : UUID)
      (i : Inventory) (h : NewInventory productID sku initialQuantity now newID = .ok i) :
      ReachableBy allowed i
  | call (i : Inventory) (op : Op) (hi : ReachableBy allowed i) (hop : allowed op) :
      ReachableBy allowed (i.call op).1

/-- States reachable from a successful `NewInventory` through any calls. -/
def Reachable (i : Inventory) : Prop := ReachableBy (fun _ => True) i

/-- Whether the call is a `FulfillReservation`. -/
def Op.isFulfill : Op → Bool
  | .FulfillReservation _ _ _ => true
  | _ => false

/-! ## Notions of the specification -/

/-- The derived-field rule as the specification words it: `out_of_stock` if
the lifecycle status is not active or available is at most 0, else `low_stock`
if available is at most the low-stock threshold, else `in_stock`. -/
def derivedStockStatus (status : InventoryStatus) (available lowStockThreshold : Int) :
    StockStatus :=
  if status ≠ InventoryStatusActive ∨ available ≤ 0 then StockStatusOutOfStock
  else if available ≤ lowStockThreshold then StockStatusLowStock
  else StockStatusInStock

/-- The valuation rule: quantity times unit cost, and 0 when no cost is set. -/
def totalValueOf (quantity : Int) (unitCost : Option Rat) : Rat :=
  match unitCost with
  | some c => (quantity : Rat) * c
  | none => 0

/-- The sum of `Quantity` over the reservations whose `Status` is active. -/
def activeReserved (rs : List InventoryReservation) : Int :=
  ((rs.filter (fun r => r.Status = ReservationStatusActive)).map (fun r => r.Quantity)).sum

/-- A reservation status from which the state machine has no way out. -/
def terminalStatus (s : ReservationStatus) : Prop :=
  s = ReservationStatusFulfilled ∨ s = ReservationStatusReleased ∨
    s = ReservationStatusExpired ∨ s = ReservationStatusCancelled

/-- The counters are coherent with each other and with the reservation list. -/
def LedgerInv (i : Inventory) : Prop :=
  i.ReservedQuantity ≤ i.Quantity ∧
  i.AvailableQuantity = i.Quantity - i.ReservedQuantity ∧
  i.ReservedQuantity = activeReserved i.Reservations ∧
  ∀ r ∈ i.Reservations, 0 < r.Quantity

/-- Calls other than `FulfillReservation`. -/
def Op.notFulfill (op : Op) : Prop := op.isFulfill = false

/-- Calls that, when they succeed, end by recomputing `StockStatus`:
the stock and reservation calls other than `FulfillReservation`,
`SetThresholds`, and `SetStatus` with a status other than active. -/
def Op.recomputesStockStatus : Op → Prop
  | .AddStock _ _ _ _ _ => True
  | .RemoveStock _ _ _ _ _ => True
  | .ReserveStock _ _ _ _ _ => True
  | .ReleaseReservation _ _ => True
  | .AdjustStock _ _ _ _ => True
  | .SetThresholds _ _ _ _ => True
  | .SetStatus status _ => status ≠ InventoryStatusActive
  | _ => False

/-! ## Scenario states -/

/-- The entry `NewInventory` builds for the given initial quantity; every
scenario below starts from it. -/
def scenarioEntry (initialQuantity : Int) : Inventory :=
  match NewInventory "product-1" "SKU-1" initialQuantity 100 "inv-1" with
  | .ok i => i
  | .error _ => {}

/-- Scenario 2 of the specification: 50 on hand, then 45 reserved for order A. -/
def scenarioReserved : Inventory :=
  (scenarioEntry 50).run [.ReserveStock 45 "order-A" none 101 "res-A"]

/-- An entry with one released and one active reservation and some stock removed. -/
def scenarioMixed : Inventory :=
  (scenarioEntry 50).run
    [.ReserveStock 20 "order-A" none 101 "res-A",
     .ReserveStock 5 "order-B" (some 500) 102 "res-B",
     .ReleaseReservation "res-A" 103,
     .RemoveStock 10 "sale" none 104 "mov-1"]

/-- An entry taken out of service and put back: 50 on hand throughout. -/
def scenarioReactivated : Inventory :=
  (scenarioEntry 50).run
    [.SetStatus InventoryStatusInactive 101, .SetStatus InventoryStatusActive 102]

/-- The reservation of order A in `scenarioMixed`, which has been released. -/
def scenarioReleased : InventoryReservation :=
  { ID := "res-A", InventoryID := "inv-1", OrderID := "order-A", Quantity := 20,
    Status := ReservationStatusReleased, CreatedAt := 101, UpdatedAt := 103 }

/-- The entry of 50 taken out of service. -/
def scenarioInactive : Inventory :=
  (scenarioEntry 50).run [.SetStatus InventoryStatusInactive 101]

/-- The reservation of order B in `scenarioMixed`: active, 5 units, expiring at 500. -/
def scenarioExpiring : InventoryReservation :=
  { ID := "res-B", InventoryID := "inv-1", OrderID := "order-B", Quantity := 5,
    Status := ReservationStatusActive, ExpiresAt := some 500, CreatedAt := 102 }

/-! ## Further notions used by the statements -/

/-- The element the loops of `ReleaseReservation` and `FulfillReservation` stop
at: `r` sits at index `idx`, carries the id, and no earlier element carries it. -/
def firstWithID (rs : List InventoryReservation) (reservationID : UUID) (idx : Nat)
    (r : InventoryReservation) : Prop :=
  rs[idx]? = some r ∧ r.ID = reservationID ∧
    ∀ k, k < idx → ∀ x, rs[k]? = some x → x.ID ≠ reservationID

/-- The entry after a caller invokes a reservation-level method on the element
`i.Reservations[k]` in place, as in `i.Reservations[k].Expire()`: that element
of the slice is written and nothing else of the entry is. -/
def Inventory.onReservation (i : Inventory) (k : Nat)
    (method : InventoryReservation → InventoryReservation × Error) : Inventory :=
  { i with Reservations := updateAt i.Reservations k (fun r => (method r).1) }

/-- The entry `scenarioMixed` after the sweep has expired the reservation of
order B in place at the instant 600. -/
def scenarioSwept : Inventory :=
  scenarioMixed.onReservation 1 (fun r => r.Expire 600)

/-- The thresholds are ordered: `0 ≤ ReorderPoint ≤ LowStockThreshold ≤ MaxStockLevel`. -/
def ThresholdInv (i : Inventory) : Prop :=
  0 ≤ i.ReorderPoint ∧ i.ReorderPoint ≤ i.LowStockThreshold ∧
    i.LowStockThreshold ≤ i.MaxStockLevel

/-- The entry of 50 after 20 were reserved for order A and that reservation
was fulfilled. -/
def scenarioFulfilled : Inventory :=
  (scenarioEntry 50).run
    [.ReserveStock 20 "order-A" none 101 "res-A", .FulfillReservation "res-A" 102 "mov-1"]

/-- The movement log leads from the quantity `q0` to the quantity `q`: the first
movement starts at `q0`, each later one starts where the one before it ended,
and the last one ends at `q`; an empty log means `q = q0`. -/
def logChain (q0 : Int) : List InventoryMovement → Int → Prop
  | [], q => q = q0
  | m :: ms, q => m.PreviousQty = q0 ∧ logChain m.NewQty ms q

/-- The eight `MovementType` constants of the source. -/
def movementTypes : List MovementType :=
  [MovementTypeInbound, MovementTypeOutbound, MovementTypeAdjustment, MovementTypeTransfer,
   MovementTypeReturn, MovementTypeDamage, MovementTypeExpiry, MovementTypePromotion]

/-- How many of the four classification helpers hold of a movement. -/
def classCount (m : InventoryMovement) : Nat :=
  m.IsInbound.toNat + m.IsOutbound.toNat + m.IsAdjustment.toNat + m.IsTransfer.toNat

/-- The entry of 50 after 20 were reserved for order A and that reservation
was released. -/
def scenarioReleasedEntry : Inventory :=
  (scenarioEntry 50).run
    [.ReserveStock 20 "order-A" none 101 "res-A", .ReleaseReservation "res-A" 102]

/-- The entry of 50 with 20 reserved for order A, before the reservation is closed. -/
def scenarioHeld : Inventory :=
  (scenarioEntry 50).run [.ReserveStock 20 "order-A" none 101 "res-A"]

/-- The stock status claims no more than the entry has: it is one of the three
derived values, and `in_stock` only on an active entry whose available quantity
exceeds the low-stock threshold. -/
def Pessimistic (i : Inventory) : Prop :=
  (i.StockStatus = StockStatusInStock ∨ i.StockStatus = StockStatusLowStock ∨
    i.StockStatus = StockStatusOutOfStock) ∧
  (i.StockStatus = StockStatusInStock →
    i.Status = InventoryStatusActive ∧ i.AvailableQuantity > i.LowStockThreshold)

/-! ## The methods over 64-bit integers -/

/-- The largest value of Go's `int` on a 64-bit platform, `math.MaxInt64`. -/
def maxInt : Int := 9223372036854775807

/-- The smallest value of Go's `int` on a 64-bit platform, `math.MinInt64`. -/
def minInt : Int := -9223372036854775808

/-- The value is one a Go `int` can hold. -/
def IsInt64 (x : Int) : Prop := minInt ≤ x ∧ x ≤ maxInt

/-- The result Go stores for an `int` operation whose exact result is `x`:
`x` reduced modulo `2^64` into `[minInt, maxInt]`. -/
def wrapInt (x : Int) : Int := (x - minInt) % 18446744073709551616 + minInt

/-- Go's helper `abs` on 64-bit `int`: the negation wraps. -/
def abs64 (x : Int) : Int :=
  if x < 0 then wrapInt (-x) else x

def Inventory.AddStock64 (i : Inventory) (quantity : Int) (reason : String)
    (reference : Option String) (now : Time) (newID : UUID) : Inventory × Error :=
  if quantity ≤ 0 then
    (i, some "quantity must be positive")
  else if i.Status ≠ InventoryStatusActive then
    (i, some "cannot add stock to inactive inventory")
  else
    let oldQuantity := i.Quantity
    let i := { i with Quantity := wrapInt (i.Quantity + quantity) }
    let i := { i with AvailableQuantity := wrapInt (i.Quantity - i.ReservedQuantity) }
    let i := { i with LastRestockedAt := some now }
    let i := { i with UpdatedAt := now }
    let movement : InventoryMovement :=
      { ID := newID
        InventoryID := i.ID
        Type_ := MovementTypeInbound
        Quantity := quantity
        PreviousQty := oldQuantity
        NewQty := i.Quantity
        Reason := reason
        Reference := reference
        CreatedAt := now }
    let i := { i with Movements := i.Movements ++ [movement] }
    let i := i.updateStockStatus
    let i := i.calculateTotalValue
    (i, none)

def Inventory.RemoveStock64 (i : Inventory) (quantity : Int) (reason : String)
    (reference : Option String) (now : Time) (newID : UUID) : Inventory × Error :=
  if quantity ≤ 0 then
    (i, some "quantity must be positive")
  else if quantity > i.AvailableQuantity then
    (i, some "insufficient available stock")
  else
    let oldQuantity := i.Quantity
    let i := { i with Quantity := wrapInt (i.Quantity - quantity) }
    let i := { i with AvailableQuantity := wrapInt (i.Quantity - i.ReservedQuantity) }
    let i := { i with LastSoldAt := some now }
    let i := { i with UpdatedAt := now }
    let movement : InventoryMovement :=
      { ID := newID
        InventoryID := i.ID
        Type_ := MovementTypeOutbound
        Quantity := quantity
        PreviousQty := oldQuantity
        NewQty := i.Quantity
        Reason := reason
        Reference := reference
        CreatedAt := now }
    let i := { i with Movements := i.Movements ++ [movement] }
    let i := i.updateStockStatus
    let i := i.calculateTotalValue
    (i, none)

def Inventory.ReserveStock64 (i : Inventory) (quantity : Int) (orderID : UUID)
    (expiresAt : Option Time) (now : Time) (newID : UUID) : Inventory × Error :=
  if quantity ≤ 0 then
    (i, some "quantity must be positive")
  else if quantity > i.AvailableQuantity then
    (i, some "insufficient available stock for reservation")
  else
    let reservation : InventoryReservation :=
      { ID := newID
        InventoryID := i.ID
        OrderID := orderID
        Quantity := quantity
        Status := ReservationStatusActive
        ExpiresAt := expiresAt
        CreatedAt := now }
    let i := { i with Reservations := i.Reservations ++ [reservation] }
    let i := { i with ReservedQuantity := wrapInt (i.ReservedQuantity + quantity) }
    let i := { i with AvailableQuantity := wrapInt (i.Quantity - i.ReservedQuantity) }
    let i := { i with UpdatedAt := now }
    let i := i.updateStockStatus
    (i, none)

def Inventory.ReleaseReservation64 (i : Inventory) (reservationID : UUID) (now : Time) :
    Inventory × Error :=
  match findReservation i.Reservations reservationID with
  | some (idx, reservation) =>
    if reservation.Status ≠ ReservationStatusActive then
      (i, some "reservation is not active")
    else
      let i := { i with
        Reservations := updateAt i.Reservations idx (fun r => { r with Status := ReservationStatusReleased }) }
      let i := { i with
        Reservations := updateAt i.Reservations idx (fun r => { r with UpdatedAt := now }) }
      let i := { i with ReservedQuantity := wrapInt (i.ReservedQuantity - reservation.Quantity) }
      let i := { i with AvailableQuantity := wrapInt (i.Quantity - i.ReservedQuantity) }
      let i := { i with UpdatedAt := now }
      let i := i.updateStockStatus
      (i, none)
  | none => (i, some "reservation not found")

def Inventory.FulfillReservation64 (i : Inventory) (reservationID : UUID) (now : Time)
    (newID : UUID) : Inventory × Error :=
  match findReservation i.Reservations reservationID with
  | some (idx, reservation) =>
    if reservation.Status ≠ ReservationStatusActive then
      (i, some "reservation is not active")
    else
      match i.RemoveStock64 reservation.Quantity "Order fulfillment" (some reservation.OrderID)
          now newID with
      | (i, some err) => (i, some err)
      | (i, none) =>
        let i := { i with
          Reservations := updateAt i.Reservations idx (fun r => { r with Status := ReservationStatusFulfilled }) }
        let i := { i with
          Reservations := updateAt i.Reservations idx (fun r => { r with UpdatedAt := now }) }
        let i := { i with ReservedQuantity := wrapInt (i.ReservedQuantity - reservation.Quantity) }
        let i := { i with AvailableQuantity := wrapInt (i.Quantity - i.ReservedQuantity) }
        (i, none)
  | none => (i, some "reservation not found")

def Inventory.AdjustStock64 (i : Inventory) (newQuantity : Int) (reason : String)
    (now : Time) (newID : UUID) : Inventory × Error :=
  if newQuantity < 0 then
    (i, some "quantity cannot be negative")
  else if newQuantity < i.ReservedQuantity then
    (i, some "new quantity cannot be less than reserved quantity")
  else
    let oldQuantity := i.Quantity
    let difference := wrapInt (newQuantity - oldQuantity)
    let i := { i with Quantity := newQuantity }
    let i := { i with AvailableQuantity := wrapInt (i.Quantity - i.ReservedQuantity) }
    let i := { i with LastCountedAt := some now }
    let i := { i with UpdatedAt := now }
    let movementType := MovementTypeAdjustment
    let movement : InventoryMovement :=
      { ID := newID
        InventoryID := i.ID
        Type_ := movementType
        Quantity := abs64 difference
        PreviousQty := oldQuantity
        NewQty := i.Quantity
        Reason := reason
        CreatedAt := now }
    let i := { i with Movements := i.Movements ++ [movement] }
    let i := i.updateStockStatus
    let i := i.calculateTotalValue
    (i, none)

/-- The entry after the call and the error it returns, with 64-bit arithmetic;
the methods without `int` arithmetic are the ones of `Inventory.call`. -/
def Inventory.call64 (i : Inventory) : Op → Inventory × Error
  | .AddStock quantity reason reference now newID =>
    i.AddStock64 quantity reason reference now newID
  | .RemoveStock quantity reason reference now newID =>
    i.RemoveStock64 quantity reason reference now newID
  | .ReserveStock quantity orderID expiresAt now newID =>
    i.ReserveStock64 quantity orderID expiresAt now newID
  | .ReleaseReservation reservationID now => i.ReleaseReservation64 reservationID now
  | .FulfillReservation reservationID now newID =>
    i.FulfillReservation64 reservationID now newID
  | .AdjustStock newQuantity reason now newID => i.AdjustStock64 newQuantity reason now newID
  | .SetThresholds lowStock reorderPoint maxStock now =>
    i.SetThresholds lowStock reorderPoint maxStock now
  | .SetLocation warehouseID location bin now => (i.SetLocation warehouseID location bin now, none)
  | .SetSupplierInfo supplierID supplierSKU leadTimeDays now =>
    (i.SetSupplierInfo supplierID supplierSKU leadTimeDays now, none)
  | .SetUnitCost cost now => i.SetUnitCost cost now
  | .SetStatus status now => (i.SetStatus status now, none)
  | .SetNotes notes now => (i.SetNotes notes now, none)
  | .AddMetadata key value now => (i.AddMetadata key value now, none)

/-- The entry after a sequence of calls with 64-bit arithmetic, errors ignored. -/
def Inventory.run64 (i : Inventory) : List Op → Inventory
  | [] => i
  | op :: ops => Inventory.run64 (i.call64 op).1 ops

/-- The entry created with the largest `int` on hand, after one more unit is
added: `NewInventory(.., math.MaxInt64)` followed by `AddStock(1, ..)`. -/
def scenarioWrapped : Inventory :=
  (scenarioEntry maxInt).run64 [.AddStock 1 "restock" none 101 "mov-1"]

/-! ## `ReserveStock` as a check followed by writes -/

/-- The guards of `ReserveStock` (the two `if` statements it opens with): the
error it returns there, or `none` when it goes on to write. -/
def Inventory.reserveCheck (i : Inventory) (quantity : Int) : Error :=
  if quantity ≤ 0 then
    some "quantity must be positive"
  else if quantity > i.AvailableQuantity then
    some "insufficient available stock for reservation"
  else
    none

/-- The statements of `ReserveStock` after its guards, over 64-bit integers:
the reservation is appended and the counters and the stock status are
written. -/
def Inventory.reserveWrite64 (i : Inventory) (quantity : Int) (orderID : UUID)
    (expiresAt : Option Time) (now : Time) (newID : UUID) : Inventory :=
  let reservation : InventoryReservation :=
    { ID := newID
      InventoryID := i.ID
      OrderID := orderID
      Quantity := quantity
      Status := ReservationStatusActive
      ExpiresAt := expiresAt
      CreatedAt := now }
  let i := { i with Reservations := i.Reservations ++ [reservation] }
  let i := { i with ReservedQuantity := wrapInt (i.ReservedQuantity + quantity) }
  let i := { i with AvailableQuantity := wrapInt (i.Quantity - i.ReservedQuantity) }
  let i := { i with UpdatedAt := now }
  i.updateStockStatus

/-- The arguments of one `ReserveStock` call, with the clock value and the id
it draws. -/
structure ReserveCall where
  quantity : Int
  orderID : UUID
  expiresAt : Option Time
  now : Time
  newID : UUID
  deriving DecidableEq, Repr

/-- Where a running `ReserveStock` call stands: not yet started, past its
guards and about to write, or returned with its error result. -/
inductive ReservePhase where
  | ready
  | passed
  | returned (err : Error)
  deriving DecidableEq, Repr

/-- One step of a running `ReserveStock` call on the shared entry: the guards,
then the writes; a call that has returned does nothing more. -/
def ReserveCall.step (c : ReserveCall) (i : Inventory) : ReservePhase → Inventory × ReservePhase
  | .ready =>
    match i.reserveCheck c.quantity with
    | some err => (i, .returned (some err))
    | none => (i, .passed)
  | .passed => (i.reserveWrite64 c.quantity c.orderID c.expiresAt c.now c.newID, .returned none)
  | .returned err => (i, .returned err)

/-- Which of the two callers takes the next step. -/
inductive Turn where
  | A
  | B
  deriving DecidableEq, Repr

/-- Two `ReserveStock` calls in flight on one entry, which no lock guards. -/
structure TwoReserves where
  entry : Inventory
  phaseA : ReservePhase
  phaseB : ReservePhase
  deriving DecidableEq, Repr

/-- The caller whose turn it is takes one step on the shared entry. -/
def TwoReserves.step (a b : ReserveCall) (s : TwoReserves) : Turn → TwoReserves
  | .A => { s with entry := (a.step s.entry s.phaseA).1, phaseA := (a.step s.entry s.phaseA).2 }
  | .B => { s with entry := (b.step s.entry s.phaseB).1, phaseB := (b.step s.entry s.phaseB).2 }

/-- The two calls run under a schedule, from the entry `i` with neither started. -/
def TwoReserves.run (a b : ReserveCall) (i : Inventory) (schedule : List Turn) : TwoReserves :=
  schedule.foldl (TwoReserves.step a b) { entry := i, phaseA := .ready, phaseB := .ready }

/-- The call of order A for 8 units. -/
def scenarioCallA : ReserveCall :=
  { quantity := 8, orderID := "order-A", expiresAt := none, now := 101, newID := "res-A" }

/-- The call of order B for 8 units. -/
def scenarioCallB : ReserveCall :=
  { quantity := 8, orderID := "order-B", expiresAt := none, now := 101, newID := "res-B" }

/-! ## Auxiliary lemmas -/

theorem updateStockStatus_eq (i : Inventory) :
    i.updateStockStatus =
      { i with StockStatus :=
          derivedStockStatus i.Status i.AvailableQuantity i.LowStockThreshold } := by
  unfold Inventory.updateStockStatus derivedStockStatus
  by_cases h1 : i.Status ≠ InventoryStatusActive
  · simp [h1]
  · by_cases h2 : i.AvailableQuantity ≤ 0
    · simp [h1, h2]
    · by_cases h3 : i.AvailableQuantity ≤ i.LowStockThreshold <;> simp [h1, h2, h3]

theorem calculateTotalValue_eq (i : Inventory) :
    i.calculateTotalValue = { i with TotalValue := totalValueOf i.Quantity i.UnitCost } := by
  unfold Inventory.calculateTotalValue totalValueOf
  cases i.UnitCost <;> rfl

theorem activeReserved_nil : activeReserved [] = 0 := rfl

theorem activeReserved_cons (r : InventoryReservation) (rs : List InventoryReservation) :
    activeReserved (r :: rs) =
      (if r.Status = ReservationStatusActive then r.Quantity else 0) + activeReserved rs := by
  unfold activeReserved
  by_cases h : r.Status = ReservationStatusActive <;> simp [List.filter_cons, h]

theorem activeReserved_append (rs ss : List InventoryReservation) :
    activeReserved (rs ++ ss) = activeReserved rs + activeReserved ss := by
  unfold activeReserved
  simp [List.filter_append]

theorem activeReserved_nonneg (rs : List InventoryReservation)
    (h : ∀ r ∈ rs, 0 < r.Quantity) : 0 ≤ activeReserved rs := by
  induction rs with
  | nil => simp [activeReserved_nil]
  | cons r rs ih =>
    rw [activeReserved_cons]
    have hr : 0 < r.Quantity := h r (List.mem_cons_self r rs)
    have hrs := ih (fun x hx => h x (List.mem_cons_of_mem r hx))
    split_ifs <;> omega

theorem updateAt_updateAt (rs : List InventoryReservation) (idx : Nat)
    (f g : InventoryReservation → InventoryReservation) :
    updateAt (updateAt rs idx f) idx g = updateAt rs idx (fun r => g (f r)) := by
  induction rs generalizing idx with
  | nil => rfl
  | cons r rs ih =>
    cases idx with
    | zero => rfl
    | succ n => simp [updateAt, ih]

theorem updateAt_length (rs : List InventoryReservation) (idx : Nat)
    (f : InventoryReservation → InventoryReservation) :
    (updateAt rs idx f).length = rs.length := by
  induction rs generalizing idx with
  | nil => rfl
  | cons r rs ih =>
    cases idx with
    | zero => rfl
    | succ n => simp [updateAt, ih]

theorem updateAt_getElem? (rs : List InventoryReservation) (idx k : Nat)
    (f : InventoryReservation → InventoryReservation) :
    (updateAt rs idx f)[k]? = if k = idx then rs[k]?.map f else rs[k]? := by
  induction rs generalizing idx k with
  | nil => simp [updateAt]
  | cons r rs ih =>
    cases idx with
    | zero =>
      cases k with
      | zero => simp [updateAt]
      | succ k => simp [updateAt]
    | succ n =>
      cases k with
      | zero => simp [updateAt]
      | succ k => simp [updateAt, ih]

theorem findReservation_some (rs : List InventoryReservation) (reservationID : UUID)
    (idx : Nat) (r : InventoryReservation) (h : findReservation rs reservationID = some (idx, r)) :
    rs[idx]? = some r ∧ r.ID = reservationID ∧
      ∀ k, k < idx → ∀ x, rs[k]? = some x → x.ID ≠ reservationID := by
  induction rs generalizing idx with
  | nil => simp [findReservation] at h
  | cons a rs ih =>
    unfold findReservation at h
    by_cases ha : a.ID = reservationID
    · simp [ha] at h
      obtain ⟨h0, h1⟩ := h
      subst h0 h1
      simp [ha]
    · simp only [ha, if_false, Option.map_eq_some'] at h
      obtain ⟨⟨j, y⟩, hj, hjy⟩ := h
      simp only [Prod.mk.injEq] at hjy
      obtain ⟨h0, h1⟩ := hjy
      subst h0 h1
      obtain ⟨e1, e2, e3⟩ := ih j hj
      refine ⟨by simpa using e1, e2, ?_⟩
      intro k hk x hx
      cases k with
      | zero =>
        simp at hx
        subst hx
        exact ha
      | succ k =>
        simp at hx
        exact e3 k (by omega) x hx

theorem findReservation_none (rs : List InventoryReservation) (reservationID : UUID) :
    findReservation rs reservationID = none ↔ ∀ x ∈ rs, x.ID ≠ reservationID := by
  induction rs with
  | nil => simp [findReservation]
  | cons a rs ih =>
    unfold findReservation
    by_cases ha : a.ID = reservationID
    · simp [ha]
    · simp [ha, ih]

theorem findReservation_mem (rs : List InventoryReservation) (reservationID : UUID)
    (idx : Nat) (r : InventoryReservation) (h : findReservation rs reservationID = some (idx, r)) :
    r ∈ rs := by
  have h1 := (findReservation_some rs reservationID idx r h).1
  obtain ⟨hlt, heq⟩ := List.getElem?_eq_some.mp h1
  exact heq ▸ List.getElem_mem hlt

theorem activeReserved_updateAt (rs : List InventoryReservation) (idx : Nat)
    (r : InventoryReservation) (f : InventoryReservation → InventoryReservation)
    (hget : rs[idx]? = some r) (hr : r.Status = ReservationStatusActive)
    (hf : (f r).Status ≠ ReservationStatusActive) :
    activeReserved (updateAt rs idx f) = activeReserved rs - r.Quantity := by
  induction rs generalizing idx with
  | nil => simp at hget
  | cons a rs ih =>
    cases idx with
    | zero =>
      simp at hget
      subst hget
      simp [updateAt, activeReserved_cons, hr, hf]
    | succ n =>
      simp at hget
      simp only [updateAt, activeReserved_cons, ih n hget]
      ring

theorem activeReserved_close (rs : List InventoryReservation) (idx : Nat)
    (r : InventoryReservation) (s : ReservationStatus) (now : Time)
    (hget : rs[idx]? = some r) (hr : r.Status = ReservationStatusActive)
    (hs : s ≠ ReservationStatusActive) :
    activeReserved (updateAt (updateAt rs idx (fun x => { x with Status := s })) idx
      (fun x => { x with UpdatedAt := now })) = activeReserved rs - r.Quantity := by
  rw [updateAt_updateAt]
  exact activeReserved_updateAt _ _ _ _ hget hr hs

theorem updateAt_forall (rs : List InventoryReservation) (idx : Nat)
    (f : InventoryReservation → InventoryReservation) (P : InventoryReservation → Prop)
    (hf : ∀ r, P r → P (f r)) (h : ∀ r ∈ rs, P r) : ∀ r ∈ updateAt rs idx f, P r := by
  induction rs generalizing idx with
  | nil => simp [updateAt]
  | cons a rs ih =>
    have ha : P a := h a (List.mem_cons_self a rs)
    have hrs : ∀ r ∈ rs, P r := fun x hx => h x (List.mem_cons_of_mem a hx)
    cases idx with
    | zero =>
      intro r hr
      simp only [updateAt, List.mem_cons] at hr
      rcases hr with hr | hr
      · subst hr; exact hf a ha
      · exact hrs r hr
    | succ n =>
      intro r hr
      simp only [updateAt, List.mem_cons] at hr
      rcases hr with hr | hr
      · subst hr; exact ha
      · exact ih n hrs r hr

/-! Fields that the two private recomputation methods leave alone. -/

@[simp] theorem updateStockStatus_Quantity (i : Inventory) :
    i.updateStockStatus.Quantity = i.Quantity := by
  rw [updateStockStatus_eq]

@[simp] theorem updateStockStatus_ReservedQuantity (i : Inventory) :
    i.updateStockStatus.ReservedQuantity = i.ReservedQuantity := by
  rw [updateStockStatus_eq]

@[simp] theorem updateStockStatus_AvailableQuantity (i : Inventory) :
    i.updateStockStatus.AvailableQuantity = i.AvailableQuantity := by
  rw [updateStockStatus_eq]

@[simp] theorem updateStockStatus_LowStockThreshold (i : Inventory) :
    i.updateStockStatus.LowStockThreshold = i.LowStockThreshold := by
  rw [updateStockStatus_eq]

@[simp] theorem updateStockStatus_ReorderPoint (i : Inventory) :
    i.updateStockStatus.ReorderPoint = i.ReorderPoint := by
  rw [updateStockStatus_eq]

@[simp] theorem updateStockStatus_MaxStockLevel (i : Inventory) :
    i.updateStockStatus.MaxStockLevel = i.MaxStockLevel := by
  rw [updateStockStatus_eq]

@[simp] theorem updateStockStatus_Status (i : Inventory) :
    i.updateStockStatus.Status = i.Status := by
  rw [updateStockStatus_eq]

@[simp] theorem updateStockStatus_Movements (i : Inventory) :
    i.updateStockStatus.Movements = i.Movements := by
  rw [updateStockStatus_eq]

@[simp] theorem updateStockStatus_Reservations (i : Inventory) :
    i.updateStockStatus.Reservations = i.Reservations := by
  rw [updateStockStatus_eq]

@[simp] theorem updateStockStatus_LastRestockedAt (i : Inventory) :
    i.updateStockStatus.LastRestockedAt = i.LastRestockedAt := by
  rw [updateStockStatus_eq]

@[simp] theorem updateStockStatus_LastSoldAt (i : Inventory) :
    i.updateStockStatus.LastSoldAt = i.LastSoldAt := by
  rw [updateStockStatus_eq]

@[simp] theorem updateStockStatus_LastCountedAt (i : Inventory) :
    i.updateStockStatus.LastCountedAt = i.LastCountedAt := by
  rw [updateStockStatus_eq]

@[simp] theorem updateStockStatus_UpdatedAt (i : Inventory) :
    i.updateStockStatus.UpdatedAt = i.UpdatedAt := by
  rw [updateStockStatus_eq]

@[simp] theorem updateStockStatus_UnitCost (i : Inventory) :
    i.updateStockStatus.UnitCost = i.UnitCost := by
  rw [updateStockStatus_eq]

@[simp] theorem updateStockStatus_TotalValue (i : Inventory) :
    i.updateStockStatus.TotalValue = i.TotalValue := by
  rw [updateStockStatus_eq]

@[simp] theorem updateStockStatus_StockStatus (i : Inventory) :
    i.updateStockStatus.StockStatus =
      derivedStockStatus i.Status i.AvailableQuantity i.LowStockThreshold := by
  rw [updateStockStatus_eq]

@[simp] theorem calculateTotalValue_Quantity (i : Inventory) :
    i.calculateTotalValue.Quantity = i.Quantity := by
  rw [calculateTotalValue_eq]

@[simp] theorem calculateTotalValue_ReservedQuantity (i : Inventory) :
    i.calculateTotalValue.ReservedQuantity = i.ReservedQuantity := by
  rw [calculateTotalValue_eq]

@[simp] theorem calculateTotalValue_AvailableQuantity (i : Inventory) :
    i.calculateTotalValue.AvailableQuantity = i.AvailableQuantity := by
  rw [calculateTotalValue_eq]

@[simp] theorem calculateTotalValue_LowStockThreshold (i : Inventory) :
    i.calculateTotalValue.LowStockThreshold = i.LowStockThreshold := by
  rw [calculateTotalValue_eq]

@[simp] theorem calculateTotalValue_ReorderPoint (i : Inventory) :
    i.calculateTotalValue.ReorderPoint = i.ReorderPoint := by
  rw [calculateTotalValue_eq]

@[simp] theorem calculateTotalValue_MaxStockLevel (i : Inventory) :
    i.calculateTotalValue.MaxStockLevel = i.MaxStockLevel := by
  rw [calculateTotalValue_eq]

@[simp] theorem calculateTotalValue_Status (i : Inventory) :
    i.calculateTotalValue.Status = i.Status := by
  rw [calculateTotalValue_eq]

@[simp] theorem calculateTotalValue_StockStatus (i : Inventory) :
    i.calculateTotalValue.StockStatus = i.StockStatus := by
  rw [calculateTotalValue_eq]

@[simp] theorem calculateTotalValue_Movements (i : Inventory) :
    i.calculateTotalValue.Movements = i.Movements := by
  rw [calculateTotalValue_eq]

@[simp] theorem calculateTotalValue_Reservations (i : Inventory) :
    i.calculateTotalValue.Reservations = i.Reservations := by
  rw [calculateTotalValue_eq]

@[simp] theorem calculateTotalValue_LastRestockedAt (i : Inventory) :
    i.calculateTotalValue.LastRestockedAt = i.LastRestockedAt := by
  rw [calculateTotalValue_eq]

@[simp] theorem calculateTotalValue_LastSoldAt (i : Inventory) :
    i.calculateTotalValue.LastSoldAt = i.LastSoldAt := by
  rw [calculateTotalValue_eq]

@[simp] theorem calculateTotalValue_LastCountedAt (i : Inventory) :
    i.calculateTotalValue.LastCountedAt = i.LastCountedAt := by
  rw [calculateTotalValue_eq]

@[simp] theorem calculateTotalValue_UpdatedAt (i : Inventory) :
    i.calculateTotalValue.UpdatedAt = i.UpdatedAt := by
  rw [calculateTotalValue_eq]

@[simp] theorem calculateTotalValue_UnitCost (i : Inventory) :
    i.calculateTotalValue.UnitCost = i.UnitCost := by
  rw [calculateTotalValue_eq]

@[simp] theorem calculateTotalValue_TotalValue (i : Inventory) :
    i.calculateTotalValue.TotalValue = totalValueOf i.Quantity i.UnitCost := by
  rw [calculateTotalValue_eq]

/-! ## What `RemoveStock` returns -/

theorem RemoveStock_error (i : Inventory) (quantity : Int) (reason : String)
    (reference : Option String) (now : Time) (newID : UUID)
    (h : quantity ≤ 0 ∨ quantity > i.AvailableQuantity) :
    i.RemoveStock quantity reason reference now newID =
      (i, some (if quantity ≤ 0 then "quantity must be positive"
        else "insufficient available stock")) := by
  unfold Inventory.RemoveStock
  by_cases h1 : quantity ≤ 0
  · simp [h1]
  · have h2 : quantity > i.AvailableQuantity := h.resolve_left h1
    simp [h1, h2]

theorem RemoveStock_ok (i : Inventory) (quantity : Int) (reason : String)
    (reference : Option String) (now : Time) (newID : UUID)
    (h1 : 0 < quantity) (h2 : quantity ≤ i.AvailableQuantity) :
    i.RemoveStock quantity reason reference now newID =
      ({ i with
          Quantity := i.Quantity - quantity
          AvailableQuantity := i.Quantity - quantity - i.ReservedQuantity
          LastSoldAt := some now
          UpdatedAt := now
          Movements := i.Movements ++
            [{ ID := newID, InventoryID := i.ID, Type_ := MovementTypeOutbound,
               Quantity := quantity, PreviousQty := i.Quantity,
               NewQty := i.Quantity - quantity, Reason := reason, Reference := reference,
               CreatedAt := now }]
          StockStatus := derivedStockStatus i.Status
            (i.Quantity - quantity - i.ReservedQuantity) i.LowStockThreshold
          TotalValue := totalValueOf (i.Quantity - quantity) i.UnitCost }, none) := by
  unfold Inventory.RemoveStock
  have h1n : ¬ quantity ≤ 0 := by omega
  have h2n : ¬ quantity > i.AvailableQuantity := by omega
  simp only [h1n, h2n, if_false]
  rw [calculateTotalValue_eq, updateStockStatus_eq]

/-! ## What `ReserveStock` and `AddStock` return -/

theorem ReserveStock_error (i : Inventory) (quantity : Int) (orderID : UUID)
    (expiresAt : Option Time) (now : Time) (newID : UUID)
    (h : quantity ≤ 0 ∨ quantity > i.AvailableQuantity) :
    i.ReserveStock quantity orderID expiresAt now newID =
      (i, some (if quantity ≤ 0 then "quantity must be positive"
        else "insufficient available stock for reservation")) := by
  unfold Inventory.ReserveStock
  by_cases h1 : quantity ≤ 0
  · simp [h1]
  · have h2 : quantity > i.AvailableQuantity := h.resolve_left h1
    simp [h1, h2]

theorem ReserveStock_ok (i : Inventory) (quantity : Int) (orderID : UUID)
    (expiresAt : Option Time) (now : Time) (newID : UUID)
    (h1 : 0 < quantity) (h2 : quantity ≤ i.AvailableQuantity) :
    i.ReserveStock quantity orderID expiresAt now newID =
      ({ i with
          Reservations := i.Reservations ++
            [{ ID := newID, InventoryID := i.ID, OrderID := orderID, Quantity := quantity,
               Status := ReservationStatusActive, ExpiresAt := expiresAt, CreatedAt := now }]
          ReservedQuantity := i.ReservedQuantity + quantity
          AvailableQuantity := i.Quantity - (i.ReservedQuantity + quantity)
          UpdatedAt := now
          StockStatus := derivedStockStatus i.Status
            (i.Quantity - (i.ReservedQuantity + quantity)) i.LowStockThreshold }, none) := by
  unfold Inventory.ReserveStock
  have h1n : ¬ quantity ≤ 0 := by omega
  have h2n : ¬ quantity > i.AvailableQuantity := by omega
  simp only [h1n, h2n, if_false]
  rw [updateStockStatus_eq]

theorem AddStock_ok (i : Inventory) (quantity : Int) (reason : String)
    (reference : Option String) (now : Time) (newID : UUID)
    (h1 : 0 < quantity) (h2 : i.Status = InventoryStatusActive) :
    i.AddStock quantity reason reference now newID =
      ({ i with
          Quantity := i.Quantity + quantity
          AvailableQuantity := i.Quantity + quantity - i.ReservedQuantity
          LastRestockedAt := some now
          UpdatedAt := now
          Movements := i.Movements ++
            [{ ID := newID, InventoryID := i.ID, Type_ := MovementTypeInbound,
               Quantity := quantity, PreviousQty := i.Quantity,
               NewQty := i.Quantity + quantity, Reason := reason, Reference := reference,
               CreatedAt := now }]
          StockStatus := derivedStockStatus i.Status
            (i.Quantity + quantity - i.ReservedQuantity) i.LowStockThreshold
          TotalValue := totalValueOf (i.Quantity + quantity) i.UnitCost }, none) := by
  unfold Inventory.AddStock
  have h1n : ¬ quantity ≤ 0 := by omega
  simp only [h1n, h2, ne_eq, not_true_eq_false, if_false]
  rw [calculateTotalValue_eq, updateStockStatus_eq]

/-! ## The ledger invariant -/

theorem ledgerInv_updateStockStatus (i : Inventory) :
    LedgerInv i.updateStockStatus ↔ LedgerInv i := by
  simp only [LedgerInv, updateStockStatus_Quantity, updateStockStatus_ReservedQuantity,
    updateStockStatus_AvailableQuantity, updateStockStatus_Reservations]

theorem ledgerInv_calculateTotalValue (i : Inventory) :
    LedgerInv i.calculateTotalValue ↔ LedgerInv i := by
  simp only [LedgerInv, calculateTotalValue_Quantity, calculateTotalValue_ReservedQuantity,
    calculateTotalValue_AvailableQuantity, calculateTotalValue_Reservations]

theorem ledgerInv_new (productID : UUID) (sku : String) (initialQuantity : Int) (now : Time)
    (newID : UUID) (i : Inventory)
    (h : NewInventory productID sku initialQuantity now newID = .ok i) : LedgerInv i := by
  unfold NewInventory at h
  split_ifs at h with h1 h2
  simp only [Except.ok.injEq] at h
  subst h
  rw [ledgerInv_calculateTotalValue, ledgerInv_updateStockStatus]
  refine ⟨?_, ?_, ?_, ?_⟩
  · show (0 : Int) ≤ initialQuantity
    omega
  · show initialQuantity = initialQuantity - 0
    omega
  · rfl
  · intro r hr
    cases hr

theorem ledgerInv_AddStock (i : Inventory) (quantity : Int) (reason : String)
    (reference : Option String) (now : Time) (newID : UUID) (h : LedgerInv i) :
    LedgerInv (i.AddStock quantity reason reference now newID).1 := by
  unfold Inventory.AddStock
  split_ifs with h1 h2
  · exact h
  · exact h
  · obtain ⟨a, b, c, d⟩ := h
    simp only [ledgerInv_calculateTotalValue, ledgerInv_updateStockStatus]
    refine ⟨?_, rfl, c, d⟩
    show i.ReservedQuantity ≤ i.Quantity + quantity
    omega

theorem ledgerInv_RemoveStock (i : Inventory) (quantity : Int) (reason : String)
    (reference : Option String) (now : Time) (newID : UUID) (h : LedgerInv i) :
    LedgerInv (i.RemoveStock quantity reason reference now newID).1 := by
  unfold Inventory.RemoveStock
  split_ifs with h1 h2
  · exact h
  · exact h
  · obtain ⟨a, b, c, d⟩ := h
    simp only [ledgerInv_calculateTotalValue, ledgerInv_updateStockStatus]
    refine ⟨?_, rfl, c, d⟩
    show i.ReservedQuantity ≤ i.Quantity - quantity
    omega

theorem ledgerInv_ReserveStock (i : Inventory) (quantity : Int) (orderID : UUID)
    (expiresAt : Option Time) (now : Time) (newID : UUID) (h : LedgerInv i) :
    LedgerInv (i.ReserveStock quantity orderID expiresAt now newID).1 := by
  unfold Inventory.ReserveStock
  split_ifs with h1 h2
  · exact h
  · exact h
  · obtain ⟨a, b, c, d⟩ := h
    simp only [ledgerInv_updateStockStatus]
    refine ⟨?_, rfl, ?_, ?_⟩
    · show i.ReservedQuantity + quantity ≤ i.Quantity
      omega
    · show i.ReservedQuantity + quantity = activeReserved (i.Reservations ++ [_])
      rw [activeReserved_append, activeReserved_cons, activeReserved_nil, ← c]
      simp
    · intro r hr
      have hr2 : r ∈ i.Reservations ++ [_] := hr
      rw [List.mem_append, List.mem_singleton] at hr2
      rcases hr2 with hr2 | hr2
      · exact d r hr2
      · subst hr2
        show 0 < quantity
        omega

theorem ledgerInv_ReleaseReservation (i : Inventory) (reservationID : UUID) (now : Time)
    (h : LedgerInv i) : LedgerInv (i.ReleaseReservation reservationID now).1 := by
  unfold Inventory.ReleaseReservation
  split
  · rename_i idx reservation hfind
    split_ifs with h1
    · exact h
    · obtain ⟨a, b, c, d⟩ := h
      have hget := (findReservation_some _ _ _ _ hfind).1
      have hmem := findReservation_mem _ _ _ _ hfind
      have hact : reservation.Status = ReservationStatusActive := not_not.mp h1
      have hpos := d reservation hmem
      simp only [ledgerInv_updateStockStatus]
      refine ⟨?_, rfl, ?_, ?_⟩
      · show i.ReservedQuantity - reservation.Quantity ≤ i.Quantity
        omega
      · show i.ReservedQuantity - reservation.Quantity = activeReserved (updateAt (updateAt _ _ _) _ _)
        rw [c]
        exact (activeReserved_close _ _ _ _ _ hget hact (by decide)).symm
      · show ∀ r ∈ updateAt (updateAt _ _ _) _ _, 0 < r.Quantity
        rw [updateAt_updateAt]
        exact updateAt_forall _ _ _ _ (fun r hr => hr) d
  · exact h

theorem ledgerInv_FulfillReservation (i : Inventory) (reservationID : UUID) (now : Time)
    (newID : UUID) (h : LedgerInv i) :
    LedgerInv (i.FulfillReservation reservationID now newID).1 := by
  unfold Inventory.FulfillReservation
  split
  · rename_i idx reservation hfind
    split_ifs with h1
    · exact h
    · obtain ⟨a, b, c, d⟩ := h
      have hget := (findReservation_some _ _ _ _ hfind).1
      have hmem := findReservation_mem _ _ _ _ hfind
      have hact : reservation.Status = ReservationStatusActive := not_not.mp h1
      have hpos := d reservation hmem
      by_cases hq : reservation.Quantity ≤ i.AvailableQuantity
      · rw [RemoveStock_ok _ _ _ _ _ _ hpos hq]
        refine ⟨?_, rfl, ?_, ?_⟩
        · show i.ReservedQuantity - reservation.Quantity ≤ i.Quantity - reservation.Quantity
          omega
        · show i.ReservedQuantity - reservation.Quantity =
            activeReserved (updateAt (updateAt i.Reservations _ _) _ _)
          rw [c]
          exact (activeReserved_close _ _ _ _ _ hget hact (by decide)).symm
        · show ∀ r ∈ updateAt (updateAt i.Reservations _ _) _ _, 0 < r.Quantity
          rw [updateAt_updateAt]
          exact updateAt_forall _ _ _ _ (fun r hr => hr) d
      · rw [RemoveStock_error _ _ _ _ _ _ (Or.inr (by omega))]
        exact ⟨a, b, c, d⟩
  · exact h

theorem ledgerInv_AdjustStock (i : Inventory) (newQuantity : Int) (reason : String)
    (now : Time) (newID : UUID) (h : LedgerInv i) :
    LedgerInv (i.AdjustStock newQuantity reason now newID).1 := by
  unfold Inventory.AdjustStock
  split_ifs with h1 h2
  · exact h
  · exact h
  · obtain ⟨a, b, c, d⟩ := h
    simp only [ledgerInv_calculateTotalValue, ledgerInv_updateStockStatus]
    refine ⟨?_, rfl, c, d⟩
    show i.ReservedQuantity ≤ newQuantity
    omega

theorem ledgerInv_SetThresholds (i : Inventory) (lowStock reorderPoint maxStock : Int)
    (now : Time) (h : LedgerInv i) :
    LedgerInv (i.SetThresholds lowStock reorderPoint maxStock now).1 := by
  unfold Inventory.SetThresholds
  split_ifs
  · exact h
  · exact h
  · exact h
  · simp only [ledgerInv_updateStockStatus]
    exact h

theorem ledgerInv_SetUnitCost (i : Inventory) (cost : Rat) (now : Time) (h : LedgerInv i) :
    LedgerInv (i.SetUnitCost cost now).1 := by
  unfold Inventory.SetUnitCost
  split_ifs
  · exact h
  · simp only [ledgerInv_calculateTotalValue]
    exact h

theorem ledgerInv_SetStatus (i : Inventory) (status : InventoryStatus) (now : Time)
    (h : LedgerInv i) : LedgerInv (i.SetStatus status now) := by
  unfold Inventory.SetStatus
  split_ifs
  · simp only [ledgerInv_updateStockStatus]
    exact h
  · exact h

theorem ledgerInv_call (i : Inventory) (op : Op) (h : LedgerInv i) :
    LedgerInv (i.call op).1 := by
  cases op with
  | AddStock quantity reason reference now newID => exact ledgerInv_AddStock _ _ _ _ _ _ h
  | RemoveStock quantity reason reference now newID => exact ledgerInv_RemoveStock _ _ _ _ _ _ h
  | ReserveStock quantity orderID expiresAt now newID =>
    exact ledgerInv_ReserveStock _ _ _ _ _ _ h
  | ReleaseReservation reservationID now => exact ledgerInv_ReleaseReservation _ _ _ h
  | FulfillReservation reservationID now newID => exact ledgerInv_FulfillReservation _ _ _ _ h
  | AdjustStock newQuantity reason now newID => exact ledgerInv_AdjustStock _ _ _ _ _ h
  | SetThresholds lowStock reorderPoint maxStock now => exact ledgerInv_SetThresholds _ _ _ _ _ h
  | SetLocation warehouseID location bin now => exact h
  | SetSupplierInfo supplierID supplierSKU leadTimeDays now => exact h
  | SetUnitCost cost now => exact ledgerInv_SetUnitCost _ _ _ h
  | SetStatus status now => exact ledgerInv_SetStatus _ _ _ h
  | SetNotes notes now => exact h
  | AddMetadata key value now => exact h

theorem ledgerInv_of_reachableBy (allowed : Op → Prop) (i : Inventory)
    (h : ReachableBy allowed i) : LedgerInv i := by
  induction h with
  | new productID sku initialQuantity now newID i h => exact ledgerInv_new _ _ _ _ _ _ h
  | call i op _ _ ih => exact ledgerInv_call i op ih

/-! ## Reachability of the scenario states -/

theorem reachableBy_run (allowed : Op → Prop) (i : Inventory) (ops : List Op)
    (hi : ReachableBy allowed i) (hops : ∀ op ∈ ops, allowed op) :
    ReachableBy allowed (i.run ops) := by
  induction ops generalizing i with
  | nil => exact hi
  | cons op ops ih =>
    exact ih _ (ReachableBy.call i op hi (hops op (List.mem_cons_self op ops)))
      (fun x hx => hops x (List.mem_cons_of_mem op hx))

theorem reachableBy_scenarioEntry (allowed : Op → Prop) (initialQuantity : Int)
    (h : 0 ≤ initialQuantity) : ReachableBy allowed (scenarioEntry initialQuantity) := by
  refine ReachableBy.new "product-1" "SKU-1" initialQuantity 100 "inv-1" _ ?_
  have hn : ¬ initialQuantity < 0 := by omega
  simp [scenarioEntry, NewInventory, hn]

theorem reachable_scenarioReserved : Reachable scenarioReserved :=
  reachableBy_run _ _ _ (reachableBy_scenarioEntry _ 50 (by decide)) (fun _ _ => trivial)

theorem reachable_scenarioMixed : Reachable scenarioMixed :=
  reachableBy_run _ _ _ (reachableBy_scenarioEntry _ 50 (by decide)) (fun _ _ => trivial)

theorem reachable_scenarioReactivated : ReachableBy Op.notFulfill scenarioReactivated :=
  reachableBy_run _ _ _ (reachableBy_scenarioEntry _ 50 (by decide))
    (by simp [Op.notFulfill, Op.isFulfill])

/-! ## C1, C2: counter invariants -/

/-- C1: in every state reachable from a successful `NewInventory` by any finite
sequence of calls (successful or failing, unbounded integers, any reservation
ids), `Quantity ≥ 0`, `ReservedQuantity ≥ 0`, `ReservedQuantity ≤ Quantity` and
`AvailableQuantity = Quantity - ReservedQuantity`. -/
theorem reachable_counters (i : Inventory) (h : Reachable i) :
    0 ≤ i.Quantity ∧ 0 ≤ i.ReservedQuantity ∧ i.ReservedQuantity ≤ i.Quantity ∧
      i.AvailableQuantity = i.Quantity - i.ReservedQuantity := by
  obtain ⟨a, b, c, d⟩ := ledgerInv_of_reachableBy _ i h
  have hnn : 0 ≤ i.ReservedQuantity := c ▸ activeReserved_nonneg _ d
  exact ⟨by omega, hnn, a, b⟩

theorem reachable_counters_witness :
    Reachable scenarioMixed ∧
      (0 ≤ scenarioMixed.Quantity ∧ 0 ≤ scenarioMixed.ReservedQuantity ∧
        scenarioMixed.ReservedQuantity ≤ scenarioMixed.Quantity ∧
        scenarioMixed.AvailableQuantity =
          scenarioMixed.Quantity - scenarioMixed.ReservedQuantity) :=
  ⟨reachable_scenarioMixed, reachable_counters scenarioMixed reachable_scenarioMixed⟩

/-- C2: in every state reachable from a successful `NewInventory` by any finite
sequence of calls, `ReservedQuantity` equals the sum of `Quantity` over the
reservations of the entry whose `Status` is active. -/
theorem reachable_reserved_eq_active (i : Inventory) (h : Reachable i) :
    i.ReservedQuantity = activeReserved i.Reservations :=
  (ledgerInv_of_reachableBy _ i h).2.2.1

theorem reachable_reserved_eq_active_witness :
    Reachable scenarioMixed ∧
      scenarioMixed.ReservedQuantity = activeReserved scenarioMixed.Reservations :=
  ⟨reachable_scenarioMixed, reachable_reserved_eq_active scenarioMixed reachable_scenarioMixed⟩

/-! ## C3: the derived stock status -/

theorem derivedStockStatus_of_ne_active (status : InventoryStatus) (available low : Int)
    (h : status ≠ InventoryStatusActive) :
    derivedStockStatus status available low = StockStatusOutOfStock := by
  simp [derivedStockStatus, h]

/-- The stock status is the rule's value or the stale `out_of_stock`. -/
theorem stockStatus_call (i : Inventory) (op : Op) (hop : op.notFulfill)
    (h : i.StockStatus = derivedStockStatus i.Status i.AvailableQuantity i.LowStockThreshold ∨
      i.StockStatus = StockStatusOutOfStock) :
    (i.call op).1.StockStatus =
        derivedStockStatus (i.call op).1.Status (i.call op).1.AvailableQuantity
          (i.call op).1.LowStockThreshold ∨
      (i.call op).1.StockStatus = StockStatusOutOfStock := by
  cases op with
  | AddStock quantity reason reference now newID =>
    simp only [Inventory.call, Inventory.AddStock]
    split_ifs
    · exact h
    · exact h
    · left; simp
  | RemoveStock quantity reason reference now newID =>
    simp only [Inventory.call, Inventory.RemoveStock]
    split_ifs
    · exact h
    · exact h
    · left; simp
  | ReserveStock quantity orderID expiresAt now newID =>
    simp only [Inventory.call, Inventory.ReserveStock]
    split_ifs
    · exact h
    · exact h
    · left; simp
  | ReleaseReservation reservationID now =>
    simp only [Inventory.call, Inventory.ReleaseReservation]
    split
    · split_ifs
      · exact h
      · left; simp
    · exact h
  | FulfillReservation reservationID now newID => simp [Op.notFulfill, Op.isFulfill] at hop
  | AdjustStock newQuantity reason now newID =>
    simp only [Inventory.call, Inventory.AdjustStock]
    split_ifs
    · exact h
    · exact h
    · left; simp
  | SetThresholds lowStock reorderPoint maxStock now =>
    simp only [Inventory.call, Inventory.SetThresholds]
    split_ifs
    · exact h
    · exact h
    · exact h
    · left; simp
  | SetLocation warehouseID location bin now => exact h
  | SetSupplierInfo supplierID supplierSKU leadTimeDays now => exact h
  | SetUnitCost cost now =>
    simp only [Inventory.call, Inventory.SetUnitCost]
    split_ifs
    · exact h
    · simpa using h
  | SetStatus status now =>
    simp only [Inventory.call, Inventory.SetStatus]
    split_ifs with hs
    · left; simp
    · have hact : status = InventoryStatusActive := not_not.mp hs
      rcases h with h | h
      · by_cases hold : i.Status = InventoryStatusActive
        · left
          show i.StockStatus = derivedStockStatus status i.AvailableQuantity i.LowStockThreshold
          rw [h, hold, hact]
        · right
          show i.StockStatus = StockStatusOutOfStock
          rw [h, derivedStockStatus_of_ne_active _ _ _ hold]
      · right
        exact h
  | SetNotes notes now => exact h
  | AddMetadata key value now => exact h

/-- After a successful recomputing call the stock status is the rule's value. -/
theorem stockStatus_recomputed (i : Inventory) (op : Op) (hop : op.recomputesStockStatus)
    (hok : (i.call op).2 = none) :
    (i.call op).1.StockStatus =
      derivedStockStatus (i.call op).1.Status (i.call op).1.AvailableQuantity
        (i.call op).1.LowStockThreshold := by
  cases op with
  | AddStock quantity reason reference now newID =>
    simp only [Inventory.call, Inventory.AddStock] at hok ⊢
    split_ifs at hok ⊢
    simp
  | RemoveStock quantity reason reference now newID =>
    simp only [Inventory.call, Inventory.RemoveStock] at hok ⊢
    split_ifs at hok ⊢
    simp
  | ReserveStock quantity orderID expiresAt now newID =>
    simp only [Inventory.call, Inventory.ReserveStock] at hok ⊢
    split_ifs at hok ⊢
    simp
  | ReleaseReservation reservationID now =>
    simp only [Inventory.call, Inventory.ReleaseReservation] at hok ⊢
    cases hfind : findReservation i.Reservations reservationID with
    | none => simp [hfind] at hok
    | some p =>
      obtain ⟨idx, r⟩ := p
      simp only [hfind] at hok ⊢
      split_ifs at hok ⊢
      simp
  | FulfillReservation reservationID now newID => exact hop.elim
  | AdjustStock newQuantity reason now newID =>
    simp only [Inventory.call, Inventory.AdjustStock] at hok ⊢
    split_ifs at hok ⊢
    simp
  | SetThresholds lowStock reorderPoint maxStock now =>
    simp only [Inventory.call, Inventory.SetThresholds] at hok ⊢
    split_ifs at hok ⊢
    simp
  | SetLocation warehouseID location bin now => exact hop.elim
  | SetSupplierInfo supplierID supplierSKU leadTimeDays now => exact hop.elim
  | SetUnitCost cost now => exact hop.elim
  | SetStatus status now =>
    have hs : status ≠ InventoryStatusActive := hop
    simp [Inventory.call, Inventory.SetStatus, hs]
  | SetNotes notes now => exact hop.elim
  | AddMetadata key value now => exact hop.elim

theorem stockStatus_new (productID : UUID) (sku : String) (initialQuantity : Int) (now : Time)
    (newID : UUID) (i : Inventory)
    (h : NewInventory productID sku initialQuantity now newID = .ok i) :
    i.StockStatus = derivedStockStatus i.Status i.AvailableQuantity i.LowStockThreshold := by
  unfold NewInventory at h
  split_ifs at h with h1 h2
  simp only [Except.ok.injEq] at h
  subst h
  simp

/-- C3 (as stated, refuted): the entry of 50 that was set inactive and then
active again is reachable, its `StockStatus` is `out_of_stock`, and the rule
gives `in_stock` for its `Status`, `AvailableQuantity` and `LowStockThreshold`. -/
theorem stockStatus_rule_counterexample :
    Reachable scenarioReactivated ∧
      scenarioReactivated.StockStatus = StockStatusOutOfStock ∧
      derivedStockStatus scenarioReactivated.Status scenarioReactivated.AvailableQuantity
        scenarioReactivated.LowStockThreshold = StockStatusInStock ∧
      scenarioReactivated.StockStatus ≠
        derivedStockStatus scenarioReactivated.Status scenarioReactivated.AvailableQuantity
          scenarioReactivated.LowStockThreshold :=
  ⟨reachableBy_run _ _ _ (reachableBy_scenarioEntry _ 50 (by decide)) (fun _ _ => trivial),
    by decide, by decide, by decide⟩

/-- C3 (amended): in every state reachable from a successful `NewInventory` by
calls other than `FulfillReservation`, `StockStatus` is the value the rule
determines from `(Status, AvailableQuantity, LowStockThreshold)` or it is
`out_of_stock`; and right after any successful call that recomputes it
(`AddStock`, `RemoveStock`, `ReserveStock`, `ReleaseReservation`, `AdjustStock`,
`SetThresholds`, `SetStatus` with a status other than active) it is exactly the
rule's value. -/
theorem stockStatus_rule_amended (i : Inventory) (h : ReachableBy Op.notFulfill i) :
    (i.StockStatus = derivedStockStatus i.Status i.AvailableQuantity i.LowStockThreshold ∨
      i.StockStatus = StockStatusOutOfStock) ∧
    ∀ op : Op, op.recomputesStockStatus → (i.call op).2 = none →
      (i.call op).1.StockStatus =
        derivedStockStatus (i.call op).1.Status (i.call op).1.AvailableQuantity
          (i.call op).1.LowStockThreshold := by
  refine ⟨?_, fun op hop hok => stockStatus_recomputed i op hop hok⟩
  induction h with
  | new productID sku initialQuantity now newID i h =>
    exact Or.inl (stockStatus_new _ _ _ _ _ _ h)
  | call i op _ hop ih => exact stockStatus_call i op hop ih

theorem stockStatus_rule_amended_witness :
    ReachableBy Op.notFulfill scenarioReactivated ∧
      ((scenarioReactivated.StockStatus =
          derivedStockStatus scenarioReactivated.Status scenarioReactivated.AvailableQuantity
            scenarioReactivated.LowStockThreshold ∨
        scenarioReactivated.StockStatus = StockStatusOutOfStock) ∧
      ∀ op : Op, op.recomputesStockStatus → (scenarioReactivated.call op).2 = none →
        (scenarioReactivated.call op).1.StockStatus =
          derivedStockStatus (scenarioReactivated.call op).1.Status
            (scenarioReactivated.call op).1.AvailableQuantity
            (scenarioReactivated.call op).1.LowStockThreshold) :=
  ⟨reachable_scenarioReactivated,
    stockStatus_rule_amended scenarioReactivated reachable_scenarioReactivated⟩

/-! ## C4, C5: fulfilling a reservation -/

/-- The three ways `FulfillReservation` can go, with the entry it leaves. -/
theorem FulfillReservation_cases (i : Inventory) (reservationID : UUID) (now : Time)
    (newID : UUID) :
    ((i.FulfillReservation reservationID now newID).2 ≠ none ∧
      (i.FulfillReservation reservationID now newID).1 = i) ∨
    ∃ (idx : Nat) (r : InventoryReservation),
      findReservation i.Reservations reservationID = some (idx, r) ∧
      r.Status = ReservationStatusActive ∧ 0 < r.Quantity ∧ r.Quantity ≤ i.AvailableQuantity ∧
      i.FulfillReservation reservationID now newID =
        ({ i with
            Quantity := i.Quantity - r.Quantity
            ReservedQuantity := i.ReservedQuantity - r.Quantity
            AvailableQuantity := i.Quantity - r.Quantity - (i.ReservedQuantity - r.Quantity)
            LastSoldAt := some now
            UpdatedAt := now
            Movements := i.Movements ++
              [{ ID := newID, InventoryID := i.ID, Type_ := MovementTypeOutbound,
                 Quantity := r.Quantity, PreviousQty := i.Quantity,
                 NewQty := i.Quantity - r.Quantity, Reason := "Order fulfillment",
                 Reference := some r.OrderID, CreatedAt := now }]
            StockStatus := derivedStockStatus i.Status
              (i.Quantity - r.Quantity - i.ReservedQuantity) i.LowStockThreshold
            TotalValue := totalValueOf (i.Quantity - r.Quantity) i.UnitCost
            Reservations := updateAt i.Reservations idx
              (fun x => { x with Status := ReservationStatusFulfilled, UpdatedAt := now }) },
          none) := by
  unfold Inventory.FulfillReservation
  cases hfind : findReservation i.Reservations reservationID with
  | none => left; simp
  | some p =>
    obtain ⟨idx, r⟩ := p
    by_cases hact : r.Status = ReservationStatusActive
    · by_cases hq : 0 < r.Quantity ∧ r.Quantity ≤ i.AvailableQuantity
      · right
        refine ⟨idx, r, rfl, hact, hq.1, hq.2, ?_⟩
        simp only [hact, ne_eq, not_true_eq_false, if_false]
        rw [RemoveStock_ok _ _ _ _ _ _ hq.1 hq.2]
        simp only [updateAt_updateAt]
      · left
        have hq2 : r.Quantity ≤ 0 ∨ r.Quantity > i.AvailableQuantity := by omega
        simp only [hact, ne_eq, not_true_eq_false, if_false]
        rw [RemoveStock_error _ _ _ _ _ _ hq2]
        simp
    · left
      simp [hact]

/-- C4 (the code at the claim's own scenario): the entry with `Quantity` 50 and
one active reservation of 45 is reachable, and `FulfillReservation` on that
reservation returns the insufficient-stock error and leaves the entry as it
was, instead of succeeding with `Quantity` 5. -/
theorem fulfill_scenario_rejected :
    Reachable scenarioReserved ∧
      scenarioReserved.Quantity = 50 ∧ scenarioReserved.ReservedQuantity = 45 ∧
      scenarioReserved.AvailableQuantity = 5 ∧
      (scenarioReserved.Reservations.map
        (fun r => (r.ID, r.Status, r.Quantity))) = [("res-A", ReservationStatusActive, 45)] ∧
      scenarioReserved.FulfillReservation "res-A" 102 "mov-1" =
        (scenarioReserved, some "insufficient available stock") :=
  ⟨reachable_scenarioReserved, by decide, by decide, by decide, by decide, by decide⟩

/-- C5: `FulfillReservation` is all-or-nothing. Either it returns an error and
the entry is identical to the entry before the call, or it returns no error
and, for the first reservation `r` with the given id (which was active):
`Quantity` and `ReservedQuantity` have both decreased by `r.Quantity`, that
reservation is now `fulfilled`, and one outbound movement of `r.Quantity`
from the old to the new `Quantity` has been appended. -/
theorem FulfillReservation_all_or_nothing (i : Inventory) (reservationID : UUID) (now : Time)
    (newID : UUID) :
    ((i.FulfillReservation reservationID now newID).2 ≠ none ∧
      (i.FulfillReservation reservationID now newID).1 = i) ∨
    ((i.FulfillReservation reservationID now newID).2 = none ∧
      ∃ (idx : Nat) (r : InventoryReservation) (m : InventoryMovement),
        i.Reservations[idx]? = some r ∧ r.ID = reservationID ∧
        (∀ k, k < idx → ∀ x, i.Reservations[k]? = some x → x.ID ≠ reservationID) ∧
        r.Status = ReservationStatusActive ∧
        (i.FulfillReservation reservationID now newID).1.Quantity = i.Quantity - r.Quantity ∧
        (i.FulfillReservation reservationID now newID).1.ReservedQuantity =
          i.ReservedQuantity - r.Quantity ∧
        (i.FulfillReservation reservationID now newID).1.Reservations[idx]? =
          some { r with Status := ReservationStatusFulfilled, UpdatedAt := now } ∧
        (i.FulfillReservation reservationID now newID).1.Movements = i.Movements ++ [m] ∧
        m.Type_ = MovementTypeOutbound ∧ m.Quantity = r.Quantity ∧
        m.PreviousQty = i.Quantity ∧ m.NewQty = i.Quantity - r.Quantity) := by
  rcases FulfillReservation_cases i reservationID now newID with h | ⟨idx, r, hfind, hact, _, _, heq⟩
  · exact Or.inl h
  · right
    obtain ⟨hget, hid, hfirst⟩ := findReservation_some _ _ _ _ hfind
    rw [heq]
    refine ⟨rfl, idx, r, _, hget, hid, hfirst, hact, rfl, rfl, ?_, rfl, rfl, rfl, rfl, rfl⟩
    show (updateAt i.Reservations idx _)[idx]? = _
    rw [updateAt_getElem?, hget]
    simp

/-! ## C6: terminal reservations -/

theorem terminalStatus_ne_active (s : ReservationStatus) (h : terminalStatus s) :
    s ≠ ReservationStatusActive := by
  rcases h with h | h | h | h <;> rw [h] <;> decide

/-- A call that closes the first reservation with the given id, and only if it
is active, leaves every reservation that is not active where it is. -/
theorem ReleaseReservation_keeps (i : Inventory) (reservationID : UUID) (now : Time)
    (k : Nat) (r : InventoryReservation) (hget : i.Reservations[k]? = some r)
    (hr : r.Status ≠ ReservationStatusActive) :
    (i.ReleaseReservation reservationID now).1.Reservations[k]? = some r := by
  unfold Inventory.ReleaseReservation
  cases hfind : findReservation i.Reservations reservationID with
  | none => exact hget
  | some p =>
    obtain ⟨idx, x⟩ := p
    by_cases hact : x.Status = ReservationStatusActive
    · have hx := (findReservation_some _ _ _ _ hfind).1
      have hk : k ≠ idx := by
        intro hk
        rw [hk, hx] at hget
        exact hr ((Option.some.inj hget) ▸ hact)
      simp only [hact, ne_eq, not_true_eq_false, if_false, updateStockStatus_Reservations]
      rw [updateAt_getElem?, updateAt_getElem?]
      simp [hk, hget]
    · simp only [hact, ne_eq, not_false_eq_true, if_true]
      exact hget

theorem FulfillReservation_keeps (i : Inventory) (reservationID : UUID) (now : Time)
    (newID : UUID) (k : Nat) (r : InventoryReservation) (hget : i.Reservations[k]? = some r)
    (hr : r.Status ≠ ReservationStatusActive) :
    (i.FulfillReservation reservationID now newID).1.Reservations[k]? = some r := by
  rcases FulfillReservation_cases i reservationID now newID with h | ⟨idx, x, hfind, hact, _, _, heq⟩
  · rw [h.2]
    exact hget
  · have hx := (findReservation_some _ _ _ _ hfind).1
    have hk : k ≠ idx := by
      intro hk
      rw [hk, hx] at hget
      exact hr ((Option.some.inj hget) ▸ hact)
    rw [heq]
    show (updateAt i.Reservations idx _)[k]? = some r
    rw [updateAt_getElem?]
    simp [hk, hget]

/-- C6 (as stated, refuted): `Cancel` on a released reservation succeeds and
changes its `Status` from `released` to `cancelled`. -/
theorem terminal_cancel_counterexample :
    terminalStatus scenarioReleased.Status ∧
      (scenarioReleased.Cancel "" none 200).2 = none ∧
      (scenarioReleased.Cancel "" none 200).1.Status = ReservationStatusCancelled ∧
      (scenarioReleased.Cancel "" none 200).1.Status ≠ scenarioReleased.Status :=
  ⟨Or.inr (Or.inl rfl), by decide, by decide, by decide⟩

/-- C6 (amended): for a reservation whose `Status` is fulfilled, released,
expired or cancelled, `Fulfill`, `Release`, `Expire` and `ExtendExpiry` fail and
leave it unchanged, `Inventory.ReleaseReservation` and
`Inventory.FulfillReservation` on the owning entry leave it unchanged whatever
id they are given, and `Cancel` never changes its `Quantity`, leaves it
unchanged when it is fulfilled and otherwise sets its `Status` to `cancelled`. -/
theorem terminal_reservation_amended (r : InventoryReservation)
    (hterm : terminalStatus r.Status) :
    (∀ fulfilledBy now, (r.Fulfill fulfilledBy now).2 ≠ none ∧ (r.Fulfill fulfilledBy now).1 = r) ∧
    (∀ reason releasedBy now, (r.Release reason releasedBy now).2 ≠ none ∧
      (r.Release reason releasedBy now).1 = r) ∧
    (∀ now, (r.Expire now).2 ≠ none ∧ (r.Expire now).1 = r) ∧
    (∀ newExpiresAt now, (r.ExtendExpiry newExpiresAt now).2 ≠ none ∧
      (r.ExtendExpiry newExpiresAt now).1 = r) ∧
    (∀ reason cancelledBy now,
      (r.Cancel reason cancelledBy now).1.Quantity = r.Quantity ∧
      (r.Status = ReservationStatusFulfilled →
        (r.Cancel reason cancelledBy now).2 ≠ none ∧ (r.Cancel reason cancelledBy now).1 = r) ∧
      (r.Status ≠ ReservationStatusFulfilled →
        (r.Cancel reason cancelledBy now).2 = none ∧
        (r.Cancel reason cancelledBy now).1.Status = ReservationStatusCancelled)) ∧
    (∀ (i : Inventory) (k : Nat), i.Reservations[k]? = some r →
      (∀ reservationID now, (i.ReleaseReservation reservationID now).1.Reservations[k]? = some r) ∧
      (∀ reservationID now newID,
        (i.FulfillReservation reservationID now newID).1.Reservations[k]? = some r)) := by
  have hna := terminalStatus_ne_active _ hterm
  refine ⟨?_, ?_, ?_, ?_, ?_, ?_⟩
  · intro fulfilledBy now
    simp [InventoryReservation.Fulfill, hna]
  · intro reason releasedBy now
    simp [InventoryReservation.Release, hna]
  · intro now
    simp [InventoryReservation.Expire, hna]
  · intro newExpiresAt now
    simp [InventoryReservation.ExtendExpiry, hna]
  · intro reason cancelledBy now
    refine ⟨?_, ?_, ?_⟩
    · unfold InventoryReservation.Cancel
      split_ifs <;> cases cancelledBy <;> rfl
    · intro hf
      simp [InventoryReservation.Cancel, hf]
    · intro hf
      unfold InventoryReservation.Cancel
      rw [if_neg hf]
      split_ifs <;> cases cancelledBy <;> exact ⟨rfl, rfl⟩
  · intro i k hget
    exact ⟨fun reservationID now => ReleaseReservation_keeps i reservationID now k r hget hna,
      fun reservationID now newID =>
        FulfillReservation_keeps i reservationID now newID k r hget hna⟩

theorem terminal_reservation_amended_witness :
    terminalStatus scenarioReleased.Status ∧
      scenarioMixed.Reservations[0]? = some scenarioReleased ∧
      (scenarioReleased.Fulfill none 200).1 = scenarioReleased ∧
      (scenarioReleased.Cancel "late" none 200).1.Quantity = scenarioReleased.Quantity ∧
      (scenarioMixed.ReleaseReservation "res-A" 200).1.Reservations[0]? =
        some scenarioReleased ∧
      (scenarioMixed.FulfillReservation "res-B" 200 "mov-2").1.Reservations[0]? =
        some scenarioReleased :=
  ⟨Or.inr (Or.inl rfl), by decide,
    ((terminal_reservation_amended scenarioReleased (Or.inr (Or.inl rfl))).1 none 200).2,
    ((terminal_reservation_amended scenarioReleased
      (Or.inr (Or.inl rfl))).2.2.2.2.1 "late" none 200).1,
    ((terminal_reservation_amended scenarioReleased
      (Or.inr (Or.inl rfl))).2.2.2.2.2 scenarioMixed 0 (by decide)).1 "res-A" 200,
    ((terminal_reservation_amended scenarioReleased
      (Or.inr (Or.inl rfl))).2.2.2.2.2 scenarioMixed 0 (by decide)).2 "res-B" 200 "mov-2"⟩

/-! ## C7: a failing call changes nothing -/

theorem AddStock_error_unchanged (i : Inventory) (quantity : Int) (reason : String)
    (reference : Option String) (now : Time) (newID : UUID)
    (h : (i.AddStock quantity reason reference now newID).2 ≠ none) :
    (i.AddStock quantity reason reference now newID).1 = i := by
  unfold Inventory.AddStock at h ⊢
  split_ifs at h ⊢
  · rfl
  · rfl
  · exact absurd rfl h

theorem RemoveStock_error_unchanged (i : Inventory) (quantity : Int) (reason : String)
    (reference : Option String) (now : Time) (newID : UUID)
    (h : (i.RemoveStock quantity reason reference now newID).2 ≠ none) :
    (i.RemoveStock quantity reason reference now newID).1 = i := by
  unfold Inventory.RemoveStock at h ⊢
  split_ifs at h ⊢
  · rfl
  · rfl
  · exact absurd rfl h

theorem ReserveStock_error_unchanged (i : Inventory) (quantity : Int) (orderID : UUID)
    (expiresAt : Option Time) (now : Time) (newID : UUID)
    (h : (i.ReserveStock quantity orderID expiresAt now newID).2 ≠ none) :
    (i.ReserveStock quantity orderID expiresAt now newID).1 = i := by
  unfold Inventory.ReserveStock at h ⊢
  split_ifs at h ⊢
  · rfl
  · rfl
  · exact absurd rfl h

theorem ReleaseReservation_error_unchanged (i : Inventory) (reservationID : UUID) (now : Time)
    (h : (i.ReleaseReservation reservationID now).2 ≠ none) :
    (i.ReleaseReservation reservationID now).1 = i := by
  unfold Inventory.ReleaseReservation at h ⊢
  cases hfind : findReservation i.Reservations reservationID with
  | none => rfl
  | some p =>
    obtain ⟨idx, r⟩ := p
    simp only [hfind] at h ⊢
    split_ifs at h ⊢
    · rfl
    · exact absurd rfl h

theorem AdjustStock_error_unchanged (i : Inventory) (newQuantity : Int) (reason : String)
    (now : Time) (newID : UUID) (h : (i.AdjustStock newQuantity reason now newID).2 ≠ none) :
    (i.AdjustStock newQuantity reason now newID).1 = i := by
  unfold Inventory.AdjustStock at h ⊢
  split_ifs at h ⊢
  · rfl
  · rfl
  · exact absurd rfl h

theorem SetThresholds_error_unchanged (i : Inventory) (lowStock reorderPoint maxStock : Int)
    (now : Time) (h : (i.SetThresholds lowStock reorderPoint maxStock now).2 ≠ none) :
    (i.SetThresholds lowStock reorderPoint maxStock now).1 = i := by
  unfold Inventory.SetThresholds at h ⊢
  split_ifs at h ⊢
  · rfl
  · rfl
  · rfl
  · exact absurd rfl h

theorem SetUnitCost_error_unchanged (i : Inventory) (cost : Rat) (now : Time)
    (h : (i.SetUnitCost cost now).2 ≠ none) : (i.SetUnitCost cost now).1 = i := by
  unfold Inventory.SetUnitCost at h ⊢
  split_ifs at h ⊢
  · rfl
  · exact absurd rfl h

/-- C7: whenever `AddStock`, `RemoveStock`, `ReserveStock`, `ReleaseReservation`,
`AdjustStock`, `SetThresholds` or `SetUnitCost` returns an error, the entry after
the call equals the entry before it in every field: no counter, status,
threshold, timestamp or reservation has changed and no movement was appended. -/
theorem failed_call_unchanged (i : Inventory) :
    (∀ quantity reason reference now newID,
      (i.AddStock quantity reason reference now newID).2 ≠ none →
      (i.AddStock quantity reason reference now newID).1 = i) ∧
    (∀ quantity reason reference now newID,
      (i.RemoveStock quantity reason reference now newID).2 ≠ none →
      (i.RemoveStock quantity reason reference now newID).1 = i) ∧
    (∀ quantity orderID expiresAt now newID,
      (i.ReserveStock quantity orderID expiresAt now newID).2 ≠ none →
      (i.ReserveStock quantity orderID expiresAt now newID).1 = i) ∧
    (∀ reservationID now,
      (i.ReleaseReservation reservationID now).2 ≠ none →
      (i.ReleaseReservation reservationID now).1 = i) ∧
    (∀ newQuantity reason now newID,
      (i.AdjustStock newQuantity reason now newID).2 ≠ none →
      (i.AdjustStock newQuantity reason now newID).1 = i) ∧
    (∀ lowStock reorderPoint maxStock now,
      (i.SetThresholds lowStock reorderPoint maxStock now).2 ≠ none →
      (i.SetThresholds lowStock reorderPoint maxStock now).1 = i) ∧
    (∀ cost now,
      (i.SetUnitCost cost now).2 ≠ none → (i.SetUnitCost cost now).1 = i) :=
  ⟨AddStock_error_unchanged i, RemoveStock_error_unchanged i, ReserveStock_error_unchanged i,
    ReleaseReservation_error_unchanged i, AdjustStock_error_unchanged i,
    SetThresholds_error_unchanged i, SetUnitCost_error_unchanged i⟩

theorem failed_call_unchanged_witness :
    (scenarioReserved.AvailableQuantity = 5 ∧
      (scenarioReserved.ReserveStock 10 "order-B" none 102 "res-B").2 =
        some "insufficient available stock for reservation" ∧
      (scenarioReserved.ReserveStock 10 "order-B" none 102 "res-B").1 = scenarioReserved) ∧
    (scenarioReserved.ReservedQuantity = 45 ∧
      (scenarioReserved.AdjustStock 44 "count" 102 "mov-1").2 =
        some "new quantity cannot be less than reserved quantity" ∧
      (scenarioReserved.AdjustStock 44 "count" 102 "mov-1").1 = scenarioReserved) :=
  ⟨⟨by decide, by decide,
      (failed_call_unchanged scenarioReserved).2.2.1 10 "order-B" none 102 "res-B" (by decide)⟩,
    ⟨by decide, by decide,
      (failed_call_unchanged scenarioReserved).2.2.2.2.1 44 "count" 102 "mov-1" (by decide)⟩⟩

/-! ## C8: reserving stock -/

/-- C8: `ReserveStock` succeeds exactly when `0 < quantity ≤ AvailableQuantity`.
On success one reservation is appended, active, with the given quantity, order
id and expiry; `ReservedQuantity` grows by `quantity`; `AvailableQuantity` is
`Quantity - ReservedQuantity` again, which is a decrease by `quantity` (the
counters being coherent before the call, as they are in every reachable
state); `StockStatus` is recomputed from the new `AvailableQuantity`; and
`Quantity` and `Movements` are unchanged. -/
theorem ReserveStock_spec (i : Inventory) (quantity : Int) (orderID : UUID)
    (expiresAt : Option Time) (now : Time) (newID : UUID) :
    ((i.ReserveStock quantity orderID expiresAt now newID).2 = none ↔
      0 < quantity ∧ quantity ≤ i.AvailableQuantity) ∧
    ((i.ReserveStock quantity orderID expiresAt now newID).2 = none →
      (i.ReserveStock quantity orderID expiresAt now newID).1.Reservations =
        i.Reservations ++
          [{ ID := newID, InventoryID := i.ID, OrderID := orderID, Quantity := quantity,
             Status := ReservationStatusActive, ExpiresAt := expiresAt, CreatedAt := now }] ∧
      (i.ReserveStock quantity orderID expiresAt now newID).1.ReservedQuantity =
        i.ReservedQuantity + quantity ∧
      (i.ReserveStock quantity orderID expiresAt now newID).1.AvailableQuantity =
        i.Quantity - (i.ReservedQuantity + quantity) ∧
      (i.AvailableQuantity = i.Quantity - i.ReservedQuantity →
        (i.ReserveStock quantity orderID expiresAt now newID).1.AvailableQuantity =
          i.AvailableQuantity - quantity) ∧
      (i.ReserveStock quantity orderID expiresAt now newID).1.StockStatus =
        derivedStockStatus i.Status
          (i.ReserveStock quantity orderID expiresAt now newID).1.AvailableQuantity
          i.LowStockThreshold ∧
      (i.ReserveStock quantity orderID expiresAt now newID).1.Quantity = i.Quantity ∧
      (i.ReserveStock quantity orderID expiresAt now newID).1.Movements = i.Movements) := by
  by_cases h : 0 < quantity ∧ quantity ≤ i.AvailableQuantity
  · rw [ReserveStock_ok _ _ _ _ _ _ h.1 h.2]
    refine ⟨⟨fun _ => h, fun _ => rfl⟩, fun _ => ⟨rfl, rfl, rfl, fun hcoh => ?_, rfl, rfl, rfl⟩⟩
    show i.Quantity - (i.ReservedQuantity + quantity) = i.AvailableQuantity - quantity
    omega
  · rw [ReserveStock_error _ _ _ _ _ _ (by omega)]
    exact ⟨⟨fun h0 => by simp at h0, fun h0 => absurd h0 h⟩, fun h0 => by simp at h0⟩

theorem ReserveStock_spec_witness :
    (scenarioEntry 50).Quantity = 50 ∧ (scenarioEntry 50).LowStockThreshold = 10 ∧
      ((scenarioEntry 50).ReserveStock 45 "order-A" none 101 "res-A").2 = none ∧
      ((scenarioEntry 50).ReserveStock 45 "order-A" none 101 "res-A").1.ReservedQuantity = 45 ∧
      ((scenarioEntry 50).ReserveStock 45 "order-A" none 101 "res-A").1.AvailableQuantity = 5 ∧
      ((scenarioEntry 50).ReserveStock 45 "order-A" none 101 "res-A").1.StockStatus =
        StockStatusLowStock ∧
      ((scenarioEntry 50).ReserveStock 45 "order-A" none 101 "res-A").1.AvailableQuantity =
        (scenarioEntry 50).AvailableQuantity - 45 :=
  ⟨by decide, by decide,
    (ReserveStock_spec (scenarioEntry 50) 45 "order-A" none 101 "res-A").1.mpr
      ⟨by decide, by decide⟩,
    by decide, by decide, by decide,
    ((ReserveStock_spec (scenarioEntry 50) 45 "order-A" none 101 "res-A").2
      (by decide)).2.2.2.1 (by decide)⟩

/-! ## C10: removing stock -/

/-- C10: `RemoveStock` fails, leaving the entry as it was, when `quantity ≤ 0`
or `quantity > AvailableQuantity`, and otherwise succeeds: `Quantity` drops by
exactly `quantity`, `ReservedQuantity` is unchanged,
`AvailableQuantity = Quantity - ReservedQuantity`, `StockStatus` is recomputed,
`LastSoldAt` is set, and exactly one movement is appended, outbound, of
`quantity`, from the old `Quantity` to the old `Quantity - quantity`. -/
theorem RemoveStock_spec (i : Inventory) (quantity : Int) (reason : String)
    (reference : Option String) (now : Time) (newID : UUID) :
    (quantity ≤ 0 ∨ quantity > i.AvailableQuantity →
      (i.RemoveStock quantity reason reference now newID).2 ≠ none ∧
      (i.RemoveStock quantity reason reference now newID).1 = i) ∧
    (0 < quantity → quantity ≤ i.AvailableQuantity →
      (i.RemoveStock quantity reason reference now newID).2 = none ∧
      (i.RemoveStock quantity reason reference now newID).1.Quantity = i.Quantity - quantity ∧
      (i.RemoveStock quantity reason reference now newID).1.ReservedQuantity =
        i.ReservedQuantity ∧
      (i.RemoveStock quantity reason reference now newID).1.AvailableQuantity =
        (i.RemoveStock quantity reason reference now newID).1.Quantity -
          (i.RemoveStock quantity reason reference now newID).1.ReservedQuantity ∧
      (i.RemoveStock quantity reason reference now newID).1.StockStatus =
        derivedStockStatus (i.RemoveStock quantity reason reference now newID).1.Status
          (i.RemoveStock quantity reason reference now newID).1.AvailableQuantity
          (i.RemoveStock quantity reason reference now newID).1.LowStockThreshold ∧
      (i.RemoveStock quantity reason reference now newID).1.LastSoldAt = some now ∧
      (i.RemoveStock quantity reason reference now newID).1.Movements =
        i.Movements ++
          [{ ID := newID, InventoryID := i.ID, Type_ := MovementTypeOutbound,
             Quantity := quantity, PreviousQty := i.Quantity,
             NewQty := i.Quantity - quantity, Reason := reason, Reference := reference,
             CreatedAt := now }]) := by
  refine ⟨fun h => ?_, fun h1 h2 => ?_⟩
  · rw [RemoveStock_error _ _ _ _ _ _ h]
    exact ⟨by simp, rfl⟩
  · rw [RemoveStock_ok _ _ _ _ _ _ h1 h2]
    exact ⟨rfl, rfl, rfl, rfl, rfl, rfl, rfl⟩

theorem RemoveStock_spec_witness :
    (scenarioReserved.AvailableQuantity = 5 ∧
      (scenarioReserved.RemoveStock 6 "sale" none 102 "mov-1").2 ≠ none ∧
      (scenarioReserved.RemoveStock 6 "sale" none 102 "mov-1").1 = scenarioReserved) ∧
    ((scenarioReserved.RemoveStock 5 "sale" none 102 "mov-1").2 = none ∧
      (scenarioReserved.RemoveStock 5 "sale" none 102 "mov-1").1.Quantity = 50 - 5 ∧
      (scenarioReserved.RemoveStock 5 "sale" none 102 "mov-1").1.ReservedQuantity = 45 ∧
      (scenarioReserved.RemoveStock 5 "sale" none 102 "mov-1").1.AvailableQuantity = 0 ∧
      (scenarioReserved.RemoveStock 5 "sale" none 102 "mov-1").1.StockStatus =
        StockStatusOutOfStock ∧
      (scenarioReserved.RemoveStock 5 "sale" none 102 "mov-1").1.Movements.map
        (fun m => (m.Type_, m.Quantity, m.PreviousQty, m.NewQty)) =
        [(MovementTypeOutbound, 5, 50, 45)]) :=
  ⟨⟨by decide,
      (RemoveStock_spec scenarioReserved 6 "sale" none 102 "mov-1").1 (Or.inr (by decide))⟩,
    ⟨((RemoveStock_spec scenarioReserved 5 "sale" none 102 "mov-1").2
        (by decide) (by decide)).1,
      ((RemoveStock_spec scenarioReserved 5 "sale" none 102 "mov-1").2
        (by decide) (by decide)).2.1,
      by decide, by decide, by decide, by decide⟩⟩

/-! ## What `AdjustStock` returns over unbounded integers -/

theorem abs_eq_abs (x : Int) : abs x = |x| := by
  unfold abs
  split_ifs with h
  · exact (abs_of_neg h).symm
  · exact (abs_of_nonneg (not_lt.mp h)).symm

theorem AdjustStock_error (i : Inventory) (newQuantity : Int) (reason : String)
    (now : Time) (newID : UUID) (h : newQuantity < 0 ∨ newQuantity < i.ReservedQuantity) :
    i.AdjustStock newQuantity reason now newID =
      (i, some (if newQuantity < 0 then "quantity cannot be negative"
        else "new quantity cannot be less than reserved quantity")) := by
  unfold Inventory.AdjustStock
  by_cases h1 : newQuantity < 0
  · simp [h1]
  · have h2 : newQuantity < i.ReservedQuantity := h.resolve_left h1
    simp [h1, h2]

theorem AdjustStock_ok (i : Inventory) (newQuantity : Int) (reason : String)
    (now : Time) (newID : UUID) (h1 : 0 ≤ newQuantity) (h2 : i.ReservedQuantity ≤ newQuantity) :
    i.AdjustStock newQuantity reason now newID =
      ({ i with
          Quantity := newQuantity
          AvailableQuantity := newQuantity - i.ReservedQuantity
          LastCountedAt := some now
          UpdatedAt := now
          Movements := i.Movements ++
            [{ ID := newID, InventoryID := i.ID, Type_ := MovementTypeAdjustment,
               Quantity := abs (newQuantity - i.Quantity), PreviousQty := i.Quantity,
               NewQty := newQuantity, Reason := reason, CreatedAt := now }]
          StockStatus := derivedStockStatus i.Status
            (newQuantity - i.ReservedQuantity) i.LowStockThreshold
          TotalValue := totalValueOf newQuantity i.UnitCost }, none) := by
  unfold Inventory.AdjustStock
  have h1n : ¬ newQuantity < 0 := by omega
  have h2n : ¬ newQuantity < i.ReservedQuantity := by omega
  simp only [h1n, h2n, if_false]
  rw [calculateTotalValue_eq, updateStockStatus_eq]

/-! ## C12: releasing a reservation -/

theorem findReservation_of_first (rs : List InventoryReservation) (reservationID : UUID)
    (idx : Nat) (r : InventoryReservation) (h : firstWithID rs reservationID idx r) :
    findReservation rs reservationID = some (idx, r) := by
  obtain ⟨hget, hid, hfirst⟩ := h
  induction rs generalizing idx with
  | nil => simp at hget
  | cons a rs ih =>
    unfold findReservation
    cases idx with
    | zero =>
      simp only [List.getElem?_cons_zero, Option.some.injEq] at hget
      subst hget
      simp [hid]
    | succ n =>
      have ha : a.ID ≠ reservationID := hfirst 0 (by omega) a (by simp)
      simp only [List.getElem?_cons_succ] at hget
      have hrec := ih n hget (fun k hk x hx => hfirst (k + 1) (by omega) x (by simpa using hx))
      simp [ha, hrec]

theorem findReservation_iff (rs : List InventoryReservation) (reservationID : UUID)
    (idx : Nat) (r : InventoryReservation) :
    findReservation rs reservationID = some (idx, r) ↔ firstWithID rs reservationID idx r :=
  ⟨findReservation_some rs reservationID idx r, findReservation_of_first rs reservationID idx r⟩

theorem ReleaseReservation_ok (i : Inventory) (reservationID : UUID) (now : Time)
    (idx : Nat) (r : InventoryReservation)
    (hfind : findReservation i.Reservations reservationID = some (idx, r))
    (hact : r.Status = ReservationStatusActive) :
    i.ReleaseReservation reservationID now =
      ({ i with
          Reservations := updateAt i.Reservations idx
            (fun x => { x with Status := ReservationStatusReleased, UpdatedAt := now })
          ReservedQuantity := i.ReservedQuantity - r.Quantity
          AvailableQuantity := i.Quantity - (i.ReservedQuantity - r.Quantity)
          UpdatedAt := now
          StockStatus := derivedStockStatus i.Status
            (i.Quantity - (i.ReservedQuantity - r.Quantity)) i.LowStockThreshold }, none) := by
  unfold Inventory.ReleaseReservation
  simp only [hfind, hact, ne_eq, not_true_eq_false, if_false]
  rw [updateStockStatus_eq]
  simp only [updateAt_updateAt]

theorem ReleaseReservation_not_active (i : Inventory) (reservationID : UUID) (now : Time)
    (idx : Nat) (r : InventoryReservation)
    (hfind : findReservation i.Reservations reservationID = some (idx, r))
    (hact : r.Status ≠ ReservationStatusActive) :
    i.ReleaseReservation reservationID now = (i, some "reservation is not active") := by
  unfold Inventory.ReleaseReservation
  simp only [hfind, hact, ne_eq, not_false_eq_true, if_true]

theorem ReleaseReservation_not_found (i : Inventory) (reservationID : UUID) (now : Time)
    (hfind : findReservation i.Reservations reservationID = none) :
    i.ReleaseReservation reservationID now = (i, some "reservation not found") := by
  unfold Inventory.ReleaseReservation
  simp only [hfind]

/-- C12: `ReleaseReservation` fails with the not-found error exactly when no
reservation of the entry has the id; it fails with the not-active error when
the reservation with the id (the first one, should there be several) is not
active; otherwise it marks that reservation released, leaves every other
reservation alone, decreases `ReservedQuantity` by the reservation's quantity,
sets `AvailableQuantity = Quantity - ReservedQuantity`, recomputes `StockStatus`
and leaves `Quantity` and `Movements` unchanged. -/
theorem ReleaseReservation_spec (i : Inventory) (reservationID : UUID) (now : Time) :
    ((i.ReleaseReservation reservationID now).2 = some "reservation not found" ↔
      ∀ x ∈ i.Reservations, x.ID ≠ reservationID) ∧
    (∀ idx r, firstWithID i.Reservations reservationID idx r →
      r.Status ≠ ReservationStatusActive →
      i.ReleaseReservation reservationID now = (i, some "reservation is not active")) ∧
    (∀ idx r, firstWithID i.Reservations reservationID idx r →
      r.Status = ReservationStatusActive →
      (i.ReleaseReservation reservationID now).2 = none ∧
      (i.ReleaseReservation reservationID now).1.Reservations[idx]? =
        some { r with Status := ReservationStatusReleased, UpdatedAt := now } ∧
      (∀ k, k ≠ idx →
        (i.ReleaseReservation reservationID now).1.Reservations[k]? = i.Reservations[k]?) ∧
      (i.ReleaseReservation reservationID now).1.ReservedQuantity =
        i.ReservedQuantity - r.Quantity ∧
      (i.ReleaseReservation reservationID now).1.AvailableQuantity =
        (i.ReleaseReservation reservationID now).1.Quantity -
          (i.ReleaseReservation reservationID now).1.ReservedQuantity ∧
      (i.ReleaseReservation reservationID now).1.StockStatus =
        derivedStockStatus (i.ReleaseReservation reservationID now).1.Status
          (i.ReleaseReservation reservationID now).1.AvailableQuantity
          (i.ReleaseReservation reservationID now).1.LowStockThreshold ∧
      (i.ReleaseReservation reservationID now).1.Quantity = i.Quantity ∧
      (i.ReleaseReservation reservationID now).1.Movements = i.Movements) := by
  refine ⟨?_, ?_, ?_⟩
  · rw [← findReservation_none]
    constructor
    · intro h
      cases hfind : findReservation i.Reservations reservationID with
      | none => rfl
      | some p =>
        obtain ⟨idx, r⟩ := p
        by_cases hact : r.Status = ReservationStatusActive
        · rw [ReleaseReservation_ok _ _ _ _ _ hfind hact] at h
          simp at h
        · rw [ReleaseReservation_not_active _ _ _ _ _ hfind hact] at h
          simp at h
    · intro h
      rw [ReleaseReservation_not_found _ _ _ h]
  · intro idx r hfirst hact
    exact ReleaseReservation_not_active _ _ _ _ _ (findReservation_of_first _ _ _ _ hfirst) hact
  · intro idx r hfirst hact
    rw [ReleaseReservation_ok _ _ _ _ _ (findReservation_of_first _ _ _ _ hfirst) hact]
    refine ⟨rfl, ?_, ?_, rfl, rfl, rfl, rfl, rfl⟩
    · show (updateAt i.Reservations idx _)[idx]? = _
      rw [updateAt_getElem?, hfirst.1]
      simp
    · intro k hk
      show (updateAt i.Reservations idx _)[k]? = _
      rw [updateAt_getElem?]
      simp [hk]

theorem ReleaseReservation_spec_witness :
    ((scenarioMixed.ReleaseReservation "res-X" 200).2 = some "reservation not found") ∧
    (scenarioMixed.ReleaseReservation "res-A" 200 =
      (scenarioMixed, some "reservation is not active")) ∧
    (scenarioMixed.ReservedQuantity = 5 ∧
      (scenarioMixed.ReleaseReservation "res-B" 200).2 = none ∧
      (scenarioMixed.ReleaseReservation "res-B" 200).1.Reservations[1]? =
        some { scenarioExpiring with Status := ReservationStatusReleased, UpdatedAt := 200 } ∧
      (scenarioMixed.ReleaseReservation "res-B" 200).1.ReservedQuantity = 5 - 5) :=
  ⟨(ReleaseReservation_spec scenarioMixed "res-X" 200).1.mpr (by decide),
    (ReleaseReservation_spec scenarioMixed "res-A" 200).2.1 0 scenarioReleased
      ((findReservation_iff _ _ _ _).mp (by decide)) (by decide),
    by decide,
    ((ReleaseReservation_spec scenarioMixed "res-B" 200).2.2 1 scenarioExpiring
      ((findReservation_iff _ _ _ _).mp (by decide)) (by decide)).1,
    ((ReleaseReservation_spec scenarioMixed "res-B" 200).2.2 1 scenarioExpiring
      ((findReservation_iff _ _ _ _).mp (by decide)) (by decide)).2.1,
    ((ReleaseReservation_spec scenarioMixed "res-B" 200).2.2 1 scenarioExpiring
      ((findReservation_iff _ _ _ _).mp (by decide)) (by decide)).2.2.2.1⟩

/-! ## C13: expiring a reservation -/

/-- C13 (as stated, refuted): an active reservation whose `ExpiresAt` is 500 is
not expired by `Expire` at the instant 500 itself, although `now ≥ ExpiresAt`
holds there: the call fails and the status stays active. -/
theorem expire_boundary_counterexample :
    scenarioExpiring.Status = ReservationStatusActive ∧
      scenarioExpiring.ExpiresAt = some 500 ∧ (500 : Time) ≥ 500 ∧
      (scenarioExpiring.Expire 500).2 = some "reservation has not yet expired" ∧
      (scenarioExpiring.Expire 500).1.Status = ReservationStatusActive :=
  ⟨by decide, by decide, by decide, by decide, by decide⟩

/-- C13 (amended): for a reservation with an `ExpiresAt` and any clock value
`now`, `Expire` fails exactly when `Status` is not active or `now ≤ ExpiresAt`,
leaving the reservation unchanged; when `Status` is active and
`now > ExpiresAt` it succeeds and sets `Status` to expired. -/
theorem Expire_amended (r : InventoryReservation) (e now : Time) (he : r.ExpiresAt = some e) :
    ((r.Expire now).2 ≠ none ↔ r.Status ≠ ReservationStatusActive ∨ now ≤ e) ∧
    ((r.Expire now).2 ≠ none → (r.Expire now).1 = r) ∧
    (r.Status = ReservationStatusActive → e < now →
      (r.Expire now).2 = none ∧
      r.Expire now = ({ r with Status := ReservationStatusExpired, UpdatedAt := now }, none) ∧
      (r.Expire now).1.Status = ReservationStatusExpired) := by
  unfold InventoryReservation.Expire InventoryReservation.IsExpired
  rw [he]
  by_cases hact : r.Status = ReservationStatusActive
  · by_cases hlt : now > e
    · have hle : ¬ now ≤ e := not_le.mpr hlt
      simp [hact, hlt, hle]
    · have hle : now ≤ e := not_lt.mp hlt
      simp [hact, hlt, hle]
  · simp [hact]

theorem Expire_amended_witness :
    scenarioExpiring.ExpiresAt = some 500 ∧
      ((scenarioExpiring.Expire 500).2 ≠ none ∧
        (scenarioExpiring.Expire 500).1 = scenarioExpiring) ∧
      ((scenarioExpiring.Expire 501).2 = none ∧
        (scenarioExpiring.Expire 501).1.Status = ReservationStatusExpired) :=
  ⟨rfl,
    ⟨(Expire_amended scenarioExpiring 500 500 rfl).1.mpr (Or.inr (by decide)),
      (Expire_amended scenarioExpiring 500 500 rfl).2.1
        ((Expire_amended scenarioExpiring 500 500 rfl).1.mpr (Or.inr (by decide)))⟩,
    ⟨((Expire_amended scenarioExpiring 500 501 rfl).2.2 rfl (by decide)).1,
      ((Expire_amended scenarioExpiring 500 501 rfl).2.2 rfl (by decide)).2.2⟩⟩

/-! ## C15: cancelling a reservation -/

/-- C15: `Cancel` fails exactly when `Status` is fulfilled, and then the
reservation is unchanged; for every other `Status` it succeeds, sets `Status`
to cancelled, keeps `Quantity`, and records the reason when it is non-empty
(an empty reason leaves the recorded one as it was). -/
theorem Cancel_spec (r : InventoryReservation) (reason : String)
    (cancelledBy : Option String) (now : Time) :
    ((r.Cancel reason cancelledBy now).2 ≠ none ↔ r.Status = ReservationStatusFulfilled) ∧
    (r.Status = ReservationStatusFulfilled →
      r.Cancel reason cancelledBy now = (r, some "cannot cancel fulfilled reservation")) ∧
    (r.Status ≠ ReservationStatusFulfilled →
      (r.Cancel reason cancelledBy now).2 = none ∧
      (r.Cancel reason cancelledBy now).1.Status = ReservationStatusCancelled ∧
      (r.Cancel reason cancelledBy now).1.Quantity = r.Quantity ∧
      (reason ≠ "" → (r.Cancel reason cancelledBy now).1.Reason = some reason) ∧
      (reason = "" → (r.Cancel reason cancelledBy now).1.Reason = r.Reason)) := by
  unfold InventoryReservation.Cancel
  by_cases hf : r.Status = ReservationStatusFulfilled
  · simp [hf]
  · rw [if_neg hf]
    refine ⟨⟨fun h => absurd rfl h, fun h => absurd h hf⟩, fun h => absurd h hf, fun _ => ?_⟩
    by_cases hr : reason = ""
    · cases cancelledBy <;> simp [hr]
    · cases cancelledBy <;> simp [hr]

theorem Cancel_spec_witness :
    (scenarioExpiring.Cancel "customer request" none 200).2 = none ∧
      (scenarioExpiring.Cancel "customer request" none 200).1.Status =
        ReservationStatusCancelled ∧
      (scenarioExpiring.Cancel "customer request" none 200).1.Reason =
        some "customer request" ∧
      ({ scenarioReleased with Status := ReservationStatusFulfilled }.Cancel "late" none 200) =
        ({ scenarioReleased with Status := ReservationStatusFulfilled },
          some "cannot cancel fulfilled reservation") :=
  ⟨((Cancel_spec scenarioExpiring "customer request" none 200).2.2 (by decide)).1,
    ((Cancel_spec scenarioExpiring "customer request" none 200).2.2 (by decide)).2.1,
    ((Cancel_spec scenarioExpiring "customer request" none 200).2.2
      (by decide)).2.2.2.1 (by decide),
    (Cancel_spec { scenarioReleased with Status := ReservationStatusFulfilled }
      "late" none 200).2.1 rfl⟩

/-! ## C14: expiring or cancelling a reservation of an entry -/

theorem Expire_ok_status (r : InventoryReservation) (now : Time)
    (h : (r.Expire now).2 = none) : (r.Expire now).1.Status = ReservationStatusExpired := by
  unfold InventoryReservation.Expire at h ⊢
  split_ifs at h ⊢
  rfl

theorem Cancel_ok_status (r : InventoryReservation) (reason : String)
    (cancelledBy : Option String) (now : Time) (h : (r.Cancel reason cancelledBy now).2 = none) :
    (r.Cancel reason cancelledBy now).1.Status = ReservationStatusCancelled := by
  unfold InventoryReservation.Cancel at h ⊢
  split_ifs at h ⊢ <;> cases cancelledBy <;> rfl

/-- Closing an active element of the list in place leaves the reserved counter
above the active sum by that element's quantity. -/
theorem onReservation_reserved (i : Inventory) (k : Nat) (r : InventoryReservation)
    (method : InventoryReservation → InventoryReservation × Error)
    (hinv : LedgerInv i) (hget : i.Reservations[k]? = some r)
    (hact : r.Status = ReservationStatusActive)
    (hclosed : (method r).1.Status ≠ ReservationStatusActive) :
    (i.onReservation k method).ReservedQuantity = i.ReservedQuantity ∧
    (i.onReservation k method).AvailableQuantity = i.AvailableQuantity ∧
    (i.onReservation k method).ReservedQuantity =
      activeReserved (i.onReservation k method).Reservations + r.Quantity ∧
    (i.onReservation k method).ReservedQuantity ≠
      activeReserved (i.onReservation k method).Reservations := by
  obtain ⟨_, _, c, d⟩ := hinv
  have hpos : 0 < r.Quantity := d r (by
    obtain ⟨hlt, heq⟩ := List.getElem?_eq_some.mp hget
    exact heq ▸ List.getElem_mem hlt)
  have hsum : activeReserved (i.onReservation k method).Reservations =
      activeReserved i.Reservations - r.Quantity :=
    activeReserved_updateAt i.Reservations k r (fun x => (method x).1) hget hact hclosed
  have hres : (i.onReservation k method).ReservedQuantity = i.ReservedQuantity := rfl
  refine ⟨rfl, rfl, ?_, ?_⟩
  · rw [hsum, hres, c]
    ring
  · rw [hsum, hres, c]
    omega

/-- C14 (as stated, refuted): `scenarioMixed` is reachable and owns the active
reservation of order B (5 units, expiring at 500); a successful `Expire` on it at
600 leaves `ReservedQuantity` at 5 while no active reservation remains, so
`ReservedQuantity` no longer equals the sum over the active reservations. -/
theorem expire_reserved_counterexample :
    Reachable scenarioMixed ∧
      scenarioMixed.Reservations[1]? = some scenarioExpiring ∧
      scenarioExpiring.Status = ReservationStatusActive ∧
      (scenarioExpiring.Expire 600).2 = none ∧
      scenarioMixed.ReservedQuantity = 5 ∧
      scenarioSwept.ReservedQuantity = 5 ∧
      activeReserved scenarioSwept.Reservations = 0 ∧
      scenarioSwept.ReservedQuantity ≠ activeReserved scenarioSwept.Reservations :=
  ⟨reachableBy_run _ _ _ (reachableBy_scenarioEntry _ 50 (by decide)) (fun _ _ => trivial),
    by decide, by decide, by decide, by decide, by decide, by decide, by decide⟩

/-- C14 (amended): for a reachable entry and an active reservation `r` it owns,
a successful `Expire` or `Cancel` on `r` writes the reservation only: the
entry's `ReservedQuantity` and `AvailableQuantity` stay as they were, so
afterwards `ReservedQuantity` equals the sum of the quantities of the entry's
active reservations plus `r.Quantity`, and differs from that sum. -/
theorem terminate_reservation_amended (i : Inventory) (k : Nat) (r : InventoryReservation)
    (hreach : Reachable i) (hget : i.Reservations[k]? = some r)
    (hact : r.Status = ReservationStatusActive) :
    (∀ now, (r.Expire now).2 = none →
      (i.onReservation k (fun x => x.Expire now)).ReservedQuantity = i.ReservedQuantity ∧
      (i.onReservation k (fun x => x.Expire now)).AvailableQuantity = i.AvailableQuantity ∧
      (i.onReservation k (fun x => x.Expire now)).ReservedQuantity =
        activeReserved (i.onReservation k (fun x => x.Expire now)).Reservations + r.Quantity ∧
      (i.onReservation k (fun x => x.Expire now)).ReservedQuantity ≠
        activeReserved (i.onReservation k (fun x => x.Expire now)).Reservations) ∧
    (∀ reason cancelledBy now, (r.Cancel reason cancelledBy now).2 = none →
      (i.onReservation k (fun x => x.Cancel reason cancelledBy now)).ReservedQuantity =
        i.ReservedQuantity ∧
      (i.onReservation k (fun x => x.Cancel reason cancelledBy now)).AvailableQuantity =
        i.AvailableQuantity ∧
      (i.onReservation k (fun x => x.Cancel reason cancelledBy now)).ReservedQuantity =
        activeReserved
          (i.onReservation k (fun x => x.Cancel reason cancelledBy now)).Reservations +
          r.Quantity ∧
      (i.onReservation k (fun x => x.Cancel reason cancelledBy now)).ReservedQuantity ≠
        activeReserved
          (i.onReservation k (fun x => x.Cancel reason cancelledBy now)).Reservations) := by
  have hinv := ledgerInv_of_reachableBy _ i hreach
  refine ⟨fun now hok => ?_, fun reason cancelledBy now hok => ?_⟩
  · refine onReservation_reserved i k r _ hinv hget hact ?_
    rw [Expire_ok_status r now hok]
    decide
  · refine onReservation_reserved i k r _ hinv hget hact ?_
    rw [Cancel_ok_status r reason cancelledBy now hok]
    decide

theorem terminate_reservation_amended_witness :
    Reachable scenarioMixed ∧
      scenarioMixed.Reservations[1]? = some scenarioExpiring ∧
      (scenarioMixed.onReservation 1 (fun x => x.Expire 600)).ReservedQuantity =
        scenarioMixed.ReservedQuantity ∧
      (scenarioMixed.onReservation 1 (fun x => x.Cancel "void" none 600)).ReservedQuantity =
        activeReserved
          (scenarioMixed.onReservation 1 (fun x => x.Cancel "void" none 600)).Reservations +
          scenarioExpiring.Quantity :=
  ⟨reachable_scenarioMixed, by decide,
    ((terminate_reservation_amended scenarioMixed 1 scenarioExpiring reachable_scenarioMixed
      (by decide) (by decide)).1 600 (by decide)).1,
    ((terminate_reservation_amended scenarioMixed 1 scenarioExpiring reachable_scenarioMixed
      (by decide) (by decide)).2 "void" none 600 (by decide)).2.2.1⟩

/-! ## C16: an expired reservation stays expired -/

theorem FulfillReservation_not_active (i : Inventory) (reservationID : UUID) (now : Time)
    (newID : UUID) (idx : Nat) (r : InventoryReservation)
    (hfind : findReservation i.Reservations reservationID = some (idx, r))
    (hact : r.Status ≠ ReservationStatusActive) :
    i.FulfillReservation reservationID now newID = (i, some "reservation is not active") := by
  unfold Inventory.FulfillReservation
  simp only [hfind, hact, ne_eq, not_false_eq_true, if_true]

/-- C16: on a reservation in status expired, a further `Expire`, a
reservation-level `Fulfill` or `Release`, and `Inventory.FulfillReservation` or
`ReleaseReservation` with its id (the reservation being the one of the entry
that carries this id) all fail with the not-active error of the method and
leave the reservation and the owning entry unchanged; and a reservation that
`Expire` has just closed is in status expired. -/
theorem expired_reservation_inert (r : InventoryReservation)
    (hr : r.Status = ReservationStatusExpired) :
    (∀ now, r.Expire now = (r, some "can only expire active reservations")) ∧
    (∀ fulfilledBy now,
      r.Fulfill fulfilledBy now = (r, some "can only fulfill active reservations")) ∧
    (∀ reason releasedBy now,
      r.Release reason releasedBy now = (r, some "can only release active reservations")) ∧
    (∀ (i : Inventory) (k : Nat), firstWithID i.Reservations r.ID k r →
      (∀ now newID,
        i.FulfillReservation r.ID now newID = (i, some "reservation is not active")) ∧
      (∀ now, i.ReleaseReservation r.ID now = (i, some "reservation is not active"))) ∧
    (∀ (r0 : InventoryReservation) (now0 : Time), (r0.Expire now0).2 = none →
      (r0.Expire now0).1.Status = ReservationStatusExpired) := by
  have hna : r.Status ≠ ReservationStatusActive := by
    rw [hr]
    decide
  refine ⟨?_, ?_, ?_, ?_, fun r0 now0 h => Expire_ok_status r0 now0 h⟩
  · intro now
    simp [InventoryReservation.Expire, hna]
  · intro fulfilledBy now
    simp [InventoryReservation.Fulfill, hna]
  · intro reason releasedBy now
    simp [InventoryReservation.Release, hna]
  · intro i k hfirst
    have hfind := findReservation_of_first _ _ _ _ hfirst
    exact ⟨fun now newID => FulfillReservation_not_active i r.ID now newID k r hfind hna,
      fun now => ReleaseReservation_not_active i r.ID now k r hfind hna⟩

theorem expired_reservation_inert_witness :
    (scenarioExpiring.Expire 600).2 = none ∧
      (scenarioExpiring.Expire 600).1.Status = ReservationStatusExpired ∧
      scenarioSwept.Reservations[1]? = some (scenarioExpiring.Expire 600).1 ∧
      (scenarioExpiring.Expire 600).1.Expire 700 =
        ((scenarioExpiring.Expire 600).1, some "can only expire active reservations") ∧
      (scenarioExpiring.Expire 600).1.Fulfill none 700 =
        ((scenarioExpiring.Expire 600).1, some "can only fulfill active reservations") ∧
      scenarioSwept.FulfillReservation "res-B" 700 "mov-2" =
        (scenarioSwept, some "reservation is not active") ∧
      scenarioSwept.ReleaseReservation "res-B" 700 =
        (scenarioSwept, some "reservation is not active") :=
  ⟨by decide, by decide, by decide,
    (expired_reservation_inert (scenarioExpiring.Expire 600).1 (by decide)).1 700,
    (expired_reservation_inert (scenarioExpiring.Expire 600).1 (by decide)).2.1 none 700,
    ((expired_reservation_inert (scenarioExpiring.Expire 600).1 (by decide)).2.2.2.1
      scenarioSwept 1 ((findReservation_iff _ _ _ _).mp (by decide))).1 700 "mov-2",
    ((expired_reservation_inert (scenarioExpiring.Expire 600).1 (by decide)).2.2.2.1
      scenarioSwept 1 ((findReservation_iff _ _ _ _).mp (by decide))).2 700⟩

/-! ## C17: thresholds -/

theorem SetThresholds_ok (i : Inventory) (lowStock reorderPoint maxStock : Int) (now : Time)
    (h1 : 0 ≤ reorderPoint) (h2 : reorderPoint ≤ lowStock) (h3 : lowStock ≤ maxStock) :
    i.SetThresholds lowStock reorderPoint maxStock now =
      ({ i with
          LowStockThreshold := lowStock
          ReorderPoint := reorderPoint
          MaxStockLevel := maxStock
          UpdatedAt := now
          StockStatus := derivedStockStatus i.Status i.AvailableQuantity lowStock }, none) := by
  unfold Inventory.SetThresholds
  have hn1 : ¬ (lowStock < 0 ∨ reorderPoint < 0 ∨ maxStock < 0) := by omega
  have hn2 : ¬ reorderPoint > lowStock := by omega
  have hn3 : ¬ maxStock < lowStock := by omega
  simp only [hn1, hn2, hn3, if_false]
  rw [updateStockStatus_eq]

theorem SetThresholds_error (i : Inventory) (lowStock reorderPoint maxStock : Int) (now : Time)
    (h : ¬ (0 ≤ reorderPoint ∧ reorderPoint ≤ lowStock ∧ lowStock ≤ maxStock)) :
    (i.SetThresholds lowStock reorderPoint maxStock now).2 ≠ none ∧
      (i.SetThresholds lowStock reorderPoint maxStock now).1 = i := by
  unfold Inventory.SetThresholds
  split_ifs with h1 h2 h3
  · exact ⟨by simp, rfl⟩
  · exact ⟨by simp, rfl⟩
  · exact ⟨by simp, rfl⟩
  · exact absurd (by omega) h

/-- The thresholds are touched by `SetThresholds` only. -/
theorem call_thresholds (i : Inventory) (op : Op) :
    ((i.call op).1.LowStockThreshold = i.LowStockThreshold ∧
      (i.call op).1.ReorderPoint = i.ReorderPoint ∧
      (i.call op).1.MaxStockLevel = i.MaxStockLevel) ∨
    ∃ lowStock reorderPoint maxStock now,
      op = .SetThresholds lowStock reorderPoint maxStock now ∧
      0 ≤ reorderPoint ∧ reorderPoint ≤ lowStock ∧ lowStock ≤ maxStock ∧
      (i.call op).1.LowStockThreshold = lowStock ∧
      (i.call op).1.ReorderPoint = reorderPoint ∧
      (i.call op).1.MaxStockLevel = maxStock := by
  cases op with
  | AddStock quantity reason reference now newID =>
    left
    simp only [Inventory.call, Inventory.AddStock]
    split_ifs <;> simp
  | RemoveStock quantity reason reference now newID =>
    left
    simp only [Inventory.call, Inventory.RemoveStock]
    split_ifs <;> simp
  | ReserveStock quantity orderID expiresAt now newID =>
    left
    simp only [Inventory.call, Inventory.ReserveStock]
    split_ifs <;> simp
  | ReleaseReservation reservationID now =>
    left
    simp only [Inventory.call, Inventory.ReleaseReservation]
    split
    · split_ifs <;> simp
    · simp
  | FulfillReservation reservationID now newID =>
    left
    rcases FulfillReservation_cases i reservationID now newID with h | ⟨idx, r, _, _, _, _, heq⟩
    · simp only [Inventory.call, h.2, and_self]
    · simp only [Inventory.call, heq, and_self]
  | AdjustStock newQuantity reason now newID =>
    left
    simp only [Inventory.call, Inventory.AdjustStock]
    split_ifs <;> simp
  | SetThresholds lowStock reorderPoint maxStock now =>
    by_cases h : 0 ≤ reorderPoint ∧ reorderPoint ≤ lowStock ∧ lowStock ≤ maxStock
    · right
      refine ⟨lowStock, reorderPoint, maxStock, now, rfl, h.1, h.2.1, h.2.2, ?_⟩
      simp only [Inventory.call, SetThresholds_ok i _ _ _ now h.1 h.2.1 h.2.2, and_self]
    · left
      simp only [Inventory.call, (SetThresholds_error i _ _ _ now h).2, and_self]
  | SetLocation warehouseID location bin now => exact Or.inl ⟨rfl, rfl, rfl⟩
  | SetSupplierInfo supplierID supplierSKU leadTimeDays now => exact Or.inl ⟨rfl, rfl, rfl⟩
  | SetUnitCost cost now =>
    left
    simp only [Inventory.call, Inventory.SetUnitCost]
    split_ifs <;> simp
  | SetStatus status now =>
    left
    simp only [Inventory.call, Inventory.SetStatus]
    split_ifs <;> simp
  | SetNotes notes now => exact Or.inl ⟨rfl, rfl, rfl⟩
  | AddMetadata key value now => exact Or.inl ⟨rfl, rfl, rfl⟩

theorem thresholdInv_of_reachableBy (allowed : Op → Prop) (i : Inventory)
    (h : ReachableBy allowed i) : ThresholdInv i := by
  induction h with
  | new productID sku initialQuantity now newID i h =>
    unfold NewInventory at h
    split_ifs at h with h1 h2
    simp only [Except.ok.injEq] at h
    subst h
    simp [ThresholdInv]
  | call i op _ _ ih =>
    unfold ThresholdInv at ih ⊢
    rcases call_thresholds i op with ⟨e1, e2, e3⟩ | ⟨l, r, m, now, _, h1, h2, h3, e1, e2, e3⟩
    · rw [e1, e2, e3]
      exact ih
    · rw [e1, e2, e3]
      exact ⟨h1, h2, h3⟩

/-- C17: `SetThresholds(low, reorder, max)` succeeds exactly when
`0 ≤ reorder ≤ low ≤ max`; on success the three thresholds take the given
values, the counters are unchanged and `StockStatus` is recomputed against the
new `LowStockThreshold`; a failing call changes nothing; and in every state
reachable from `NewInventory`, `ReorderPoint ≤ LowStockThreshold ≤ MaxStockLevel`. -/
theorem SetThresholds_spec (i : Inventory) (lowStock reorderPoint maxStock : Int)
    (now : Time) :
    ((i.SetThresholds lowStock reorderPoint maxStock now).2 = none ↔
      0 ≤ reorderPoint ∧ reorderPoint ≤ lowStock ∧ lowStock ≤ maxStock) ∧
    ((i.SetThresholds lowStock reorderPoint maxStock now).2 = none →
      (i.SetThresholds lowStock reorderPoint maxStock now).1.LowStockThreshold = lowStock ∧
      (i.SetThresholds lowStock reorderPoint maxStock now).1.ReorderPoint = reorderPoint ∧
      (i.SetThresholds lowStock reorderPoint maxStock now).1.MaxStockLevel = maxStock ∧
      (i.SetThresholds lowStock reorderPoint maxStock now).1.Quantity = i.Quantity ∧
      (i.SetThresholds lowStock reorderPoint maxStock now).1.ReservedQuantity =
        i.ReservedQuantity ∧
      (i.SetThresholds lowStock reorderPoint maxStock now).1.AvailableQuantity =
        i.AvailableQuantity ∧
      (i.SetThresholds lowStock reorderPoint maxStock now).1.StockStatus =
        derivedStockStatus i.Status i.AvailableQuantity lowStock) ∧
    ((i.SetThresholds lowStock reorderPoint maxStock now).2 ≠ none →
      (i.SetThresholds lowStock reorderPoint maxStock now).1 = i) ∧
    (Reachable i →
      i.ReorderPoint ≤ i.LowStockThreshold ∧ i.LowStockThreshold ≤ i.MaxStockLevel) := by
  refine ⟨?_, ?_, ?_, fun hreach => (thresholdInv_of_reachableBy _ i hreach).2⟩
  · by_cases h : 0 ≤ reorderPoint ∧ reorderPoint ≤ lowStock ∧ lowStock ≤ maxStock
    · rw [SetThresholds_ok i _ _ _ now h.1 h.2.1 h.2.2]
      exact ⟨fun _ => h, fun _ => rfl⟩
    · exact ⟨fun h0 => absurd h0 (SetThresholds_error i _ _ _ now h).1, fun h0 => absurd h0 h⟩
  · intro hok
    by_cases h : 0 ≤ reorderPoint ∧ reorderPoint ≤ lowStock ∧ lowStock ≤ maxStock
    · rw [SetThresholds_ok i _ _ _ now h.1 h.2.1 h.2.2]
      exact ⟨rfl, rfl, rfl, rfl, rfl, rfl, rfl⟩
    · exact absurd hok (SetThresholds_error i _ _ _ now h).1
  · intro herr
    by_cases h : 0 ≤ reorderPoint ∧ reorderPoint ≤ lowStock ∧ lowStock ≤ maxStock
    · rw [SetThresholds_ok i _ _ _ now h.1 h.2.1 h.2.2] at herr
      exact absurd rfl herr
    · exact (SetThresholds_error i _ _ _ now h).2

theorem SetThresholds_spec_witness :
    ((scenarioReserved.SetThresholds 4 2 100 102).2 = none ∧
      (scenarioReserved.SetThresholds 4 2 100 102).1.LowStockThreshold = 4 ∧
      (scenarioReserved.SetThresholds 4 2 100 102).1.StockStatus = StockStatusInStock) ∧
    ((scenarioReserved.SetThresholds 4 5 100 102).2 ≠ none ∧
      (scenarioReserved.SetThresholds 4 5 100 102).1 = scenarioReserved) ∧
    (Reachable scenarioReserved ∧
      scenarioReserved.ReorderPoint ≤ scenarioReserved.LowStockThreshold ∧
      scenarioReserved.LowStockThreshold ≤ scenarioReserved.MaxStockLevel) :=
  ⟨⟨(SetThresholds_spec scenarioReserved 4 2 100 102).1.mpr (by decide),
      ((SetThresholds_spec scenarioReserved 4 2 100 102).2.1 (by decide)).1,
      by decide⟩,
    ⟨by decide, (SetThresholds_spec scenarioReserved 4 5 100 102).2.2.1 (by decide)⟩,
    ⟨reachable_scenarioReserved,
      (SetThresholds_spec scenarioReserved 0 0 0 0).2.2.2 reachable_scenarioReserved⟩⟩

/-! ## C18: the lifecycle status -/

theorem SetStatus_active (i : Inventory) (status : InventoryStatus) (now : Time)
    (hs : status = InventoryStatusActive) :
    i.SetStatus status now = { i with Status := status, UpdatedAt := now } := by
  unfold Inventory.SetStatus
  simp only [hs, ne_eq, not_true_eq_false, if_false]

theorem SetStatus_not_active (i : Inventory) (status : InventoryStatus) (now : Time)
    (hs : status ≠ InventoryStatusActive) :
    i.SetStatus status now =
      { i with Status := status, UpdatedAt := now, StockStatus := StockStatusOutOfStock } := by
  unfold Inventory.SetStatus
  simp only [hs, ne_eq, not_false_eq_true, if_true]
  rw [updateStockStatus_eq, derivedStockStatus_of_ne_active _ _ _ hs]

/-- C18 (as stated, refuted): on the reachable entry of 50 that is inactive,
`SetStatus(active)` leaves `StockStatus` at `out_of_stock`, while the rule gives
`in_stock` for the new status, the available quantity 50 and the threshold 10. -/
theorem SetStatus_counterexample :
    Reachable scenarioInactive ∧
      (scenarioInactive.SetStatus InventoryStatusActive 102).Status = InventoryStatusActive ∧
      (scenarioInactive.SetStatus InventoryStatusActive 102).StockStatus =
        StockStatusOutOfStock ∧
      derivedStockStatus InventoryStatusActive
        (scenarioInactive.SetStatus InventoryStatusActive 102).AvailableQuantity
        (scenarioInactive.SetStatus InventoryStatusActive 102).LowStockThreshold =
        StockStatusInStock ∧
      (scenarioInactive.SetStatus InventoryStatusActive 102).StockStatus ≠
        derivedStockStatus InventoryStatusActive
          (scenarioInactive.SetStatus InventoryStatusActive 102).AvailableQuantity
          (scenarioInactive.SetStatus InventoryStatusActive 102).LowStockThreshold :=
  ⟨reachableBy_run _ _ _ (reachableBy_scenarioEntry _ 50 (by decide)) (fun _ _ => trivial),
    by decide, by decide, by decide, by decide⟩

/-- C18 (amended): `SetStatus(s)` has no error result, sets `Status` to `s` and
changes no counter and no threshold. When `s` is not active, `StockStatus`
becomes `out_of_stock`, the rule's value. When `s` is active, `StockStatus` is
left as it was before the call; it is then the rule's value provided the entry
was already active with a `StockStatus` that agreed with the rule. -/
theorem SetStatus_amended (i : Inventory) (status : InventoryStatus) (now : Time) :
    (i.call (.SetStatus status now)).2 = none ∧
    (i.SetStatus status now).Status = status ∧
    (i.SetStatus status now).Quantity = i.Quantity ∧
    (i.SetStatus status now).ReservedQuantity = i.ReservedQuantity ∧
    (i.SetStatus status now).AvailableQuantity = i.AvailableQuantity ∧
    (i.SetStatus status now).LowStockThreshold = i.LowStockThreshold ∧
    (status ≠ InventoryStatusActive →
      (i.SetStatus status now).StockStatus = StockStatusOutOfStock ∧
      (i.SetStatus status now).StockStatus =
        derivedStockStatus status (i.SetStatus status now).AvailableQuantity
          (i.SetStatus status now).LowStockThreshold) ∧
    (status = InventoryStatusActive →
      (i.SetStatus status now).StockStatus = i.StockStatus) ∧
    (status = InventoryStatusActive → i.Status = InventoryStatusActive →
      i.StockStatus = derivedStockStatus i.Status i.AvailableQuantity i.LowStockThreshold →
      (i.SetStatus status now).StockStatus =
        derivedStockStatus status (i.SetStatus status now).AvailableQuantity
          (i.SetStatus status now).LowStockThreshold) := by
  by_cases hs : status = InventoryStatusActive
  · rw [SetStatus_active i status now hs]
    refine ⟨rfl, rfl, rfl, rfl, rfl, rfl, fun h => absurd hs h, fun _ => rfl, fun _ h1 h2 => ?_⟩
    show i.StockStatus = derivedStockStatus _ i.AvailableQuantity i.LowStockThreshold
    rw [h2, h1, hs]
  · rw [SetStatus_not_active i status now hs]
    refine ⟨rfl, rfl, rfl, rfl, rfl, rfl, fun _ => ⟨rfl, ?_⟩, fun h => absurd h hs,
      fun h => absurd h hs⟩
    exact (derivedStockStatus_of_ne_active _ _ _ hs).symm

theorem SetStatus_amended_witness :
    ((scenarioEntry 50).SetStatus InventoryStatusInactive 101).StockStatus =
        StockStatusOutOfStock ∧
      (scenarioInactive.SetStatus InventoryStatusActive 102).StockStatus =
        scenarioInactive.StockStatus ∧
      ((scenarioEntry 50).SetStatus InventoryStatusActive 101).StockStatus =
        derivedStockStatus InventoryStatusActive
          ((scenarioEntry 50).SetStatus InventoryStatusActive 101).AvailableQuantity
          ((scenarioEntry 50).SetStatus InventoryStatusActive 101).LowStockThreshold :=
  ⟨((SetStatus_amended (scenarioEntry 50) InventoryStatusInactive 101).2.2.2.2.2.2.1
      (by decide)).1,
    (SetStatus_amended scenarioInactive InventoryStatusActive 102).2.2.2.2.2.2.2.1 rfl,
    (SetStatus_amended (scenarioEntry 50) InventoryStatusActive 101).2.2.2.2.2.2.2.2
      rfl (by decide) (by decide)⟩

/-! ## C20: the movement log is append-only -/

theorem inbound_ne_outbound : MovementTypeInbound ≠ MovementTypeOutbound := by decide

theorem adjustment_ne_inbound : MovementTypeAdjustment ≠ MovementTypeInbound := by decide

theorem adjustment_ne_outbound : MovementTypeAdjustment ≠ MovementTypeOutbound := by decide

/-- What a movement appended by a call records about the quantity. -/
theorem call_movement_cases (i : Inventory) (op : Op) :
    ((i.call op).1.Quantity = i.Quantity ∧ (i.call op).1.Movements = i.Movements) ∨
    ∃ m : InventoryMovement,
      (i.call op).1.Movements = i.Movements ++ [m] ∧
      m.PreviousQty = i.Quantity ∧ m.NewQty = (i.call op).1.Quantity ∧
      m.Quantity = |m.NewQty - m.PreviousQty| ∧
      (m.Type_ = MovementTypeInbound → m.NewQty = m.PreviousQty + m.Quantity) ∧
      (m.Type_ = MovementTypeOutbound → m.NewQty = m.PreviousQty - m.Quantity) := by
  cases op with
  | AddStock quantity reason reference now newID =>
    by_cases h : 0 < quantity ∧ i.Status = InventoryStatusActive
    · right
      simp only [Inventory.call, AddStock_ok i quantity reason reference now newID h.1 h.2]
      refine ⟨_, rfl, rfl, rfl, ?_, fun _ => rfl, fun h0 => absurd h0 inbound_ne_outbound⟩
      show quantity = |i.Quantity + quantity - i.Quantity|
      rw [add_sub_cancel_left, abs_of_pos h.1]
    · left
      simp only [Inventory.call, Inventory.AddStock]
      split_ifs with h1 h2
      · exact ⟨rfl, rfl⟩
      · exact ⟨rfl, rfl⟩
      · exact absurd ⟨not_le.mp h1, not_not.mp h2⟩ h
  | RemoveStock quantity reason reference now newID =>
    by_cases h : 0 < quantity ∧ quantity ≤ i.AvailableQuantity
    · right
      simp only [Inventory.call, RemoveStock_ok i quantity reason reference now newID h.1 h.2]
      refine ⟨_, rfl, rfl, rfl, ?_, fun h0 => absurd h0 inbound_ne_outbound.symm, fun _ => rfl⟩
      show quantity = |i.Quantity - quantity - i.Quantity|
      rw [sub_sub_cancel_left, abs_neg, abs_of_pos h.1]
    · left
      simp only [Inventory.call,
        RemoveStock_error i quantity reason reference now newID (by omega), and_self]
  | ReserveStock quantity orderID expiresAt now newID =>
    left
    by_cases h : 0 < quantity ∧ quantity ≤ i.AvailableQuantity
    · simp only [Inventory.call, ReserveStock_ok i quantity orderID expiresAt now newID h.1 h.2,
        and_self]
    · simp only [Inventory.call,
        ReserveStock_error i quantity orderID expiresAt now newID (by omega), and_self]
  | ReleaseReservation reservationID now =>
    left
    simp only [Inventory.call]
    cases hfind : findReservation i.Reservations reservationID with
    | none => simp only [ReleaseReservation_not_found i reservationID now hfind, and_self]
    | some p =>
      obtain ⟨idx, r⟩ := p
      by_cases hact : r.Status = ReservationStatusActive
      · simp only [ReleaseReservation_ok i reservationID now idx r hfind hact, and_self]
      · simp only [ReleaseReservation_not_active i reservationID now idx r hfind hact, and_self]
  | FulfillReservation reservationID now newID =>
    rcases FulfillReservation_cases i reservationID now newID with
      h | ⟨idx, r, _, _, hpos, _, heq⟩
    · left
      simp only [Inventory.call, h.2, and_self]
    · right
      simp only [Inventory.call, heq]
      refine ⟨_, rfl, rfl, rfl, ?_, fun h0 => absurd h0 inbound_ne_outbound.symm, fun _ => rfl⟩
      show r.Quantity = |i.Quantity - r.Quantity - i.Quantity|
      rw [sub_sub_cancel_left, abs_neg, abs_of_pos hpos]
  | AdjustStock newQuantity reason now newID =>
    by_cases h : 0 ≤ newQuantity ∧ i.ReservedQuantity ≤ newQuantity
    · right
      simp only [Inventory.call, AdjustStock_ok i newQuantity reason now newID h.1 h.2]
      exact ⟨_, rfl, rfl, rfl, abs_eq_abs _, fun h0 => absurd h0 adjustment_ne_inbound,
        fun h0 => absurd h0 adjustment_ne_outbound⟩
    · left
      simp only [Inventory.call, AdjustStock_error i newQuantity reason now newID (by omega),
        and_self]
  | SetThresholds lowStock reorderPoint maxStock now =>
    left
    by_cases h : 0 ≤ reorderPoint ∧ reorderPoint ≤ lowStock ∧ lowStock ≤ maxStock
    · simp only [Inventory.call, SetThresholds_ok i _ _ _ now h.1 h.2.1 h.2.2, and_self]
    · simp only [Inventory.call, (SetThresholds_error i _ _ _ now h).2, and_self]
  | SetLocation warehouseID location bin now => exact Or.inl ⟨rfl, rfl⟩
  | SetSupplierInfo supplierID supplierSKU leadTimeDays now => exact Or.inl ⟨rfl, rfl⟩
  | SetUnitCost cost now =>
    left
    simp only [Inventory.call, Inventory.SetUnitCost]
    split_ifs <;> simp
  | SetStatus status now =>
    left
    simp only [Inventory.call, Inventory.SetStatus]
    split_ifs <;> simp
  | SetNotes notes now => exact Or.inl ⟨rfl, rfl⟩
  | AddMetadata key value now => exact Or.inl ⟨rfl, rfl⟩

/-- C20: the movement log is append-only. For every call of an `Inventory`
method and every input, the `Movements` list before the call is an initial
segment of the `Movements` list after it. -/
theorem movements_append_only (i : Inventory) (op : Op) :
    i.Movements <+: (i.call op).1.Movements := by
  rcases call_movement_cases i op with h | ⟨m, hm, _⟩
  · rw [h.2]
  · rw [hm]
    exact List.prefix_append _ _

/-! ## C25: creating an entry -/

/-- C25: `NewInventory` fails exactly when `sku` is empty or
`initialQuantity < 0`; otherwise it returns an entry with
`Quantity = AvailableQuantity = initialQuantity`, `ReservedQuantity = 0`,
thresholds 10, 5 and 1000, `Status` active, `TotalValue` 0, no movements and no
reservations, whose `StockStatus` is `out_of_stock` for 0, `low_stock` for 1 to
10 and `in_stock` above 10. -/
theorem NewInventory_spec (productID : UUID) (sku : String) (initialQuantity : Int)
    (now : Time) (newID : UUID) :
    ((∃ e, NewInventory productID sku initialQuantity now newID = .error e) ↔
      sku = "" ∨ initialQuantity < 0) ∧
    (sku ≠ "" → 0 ≤ initialQuantity →
      ∃ i, NewInventory productID sku initialQuantity now newID = .ok i ∧
        i.Quantity = initialQuantity ∧ i.AvailableQuantity = initialQuantity ∧
        i.ReservedQuantity = 0 ∧ i.LowStockThreshold = 10 ∧ i.ReorderPoint = 5 ∧
        i.MaxStockLevel = 1000 ∧ i.Status = InventoryStatusActive ∧ i.TotalValue = 0 ∧
        i.Movements = [] ∧ i.Reservations = [] ∧
        (initialQuantity = 0 → i.StockStatus = StockStatusOutOfStock) ∧
        (1 ≤ initialQuantity → initialQuantity ≤ 10 → i.StockStatus = StockStatusLowStock) ∧
        (10 < initialQuantity → i.StockStatus = StockStatusInStock)) := by
  unfold NewInventory
  by_cases h1 : sku = ""
  · simp [h1]
  · by_cases h2 : initialQuantity < 0
    · rw [if_neg h1, if_pos h2]
      exact ⟨⟨fun _ => Or.inr h2, fun _ => ⟨_, rfl⟩⟩, fun _ h => absurd h2 (not_lt.mpr h)⟩
    · rw [if_neg h1, if_neg h2]
      refine ⟨⟨fun h => ?_, fun h => ?_⟩, fun _ _ => ⟨_, rfl, ?_⟩⟩
      · obtain ⟨e, he⟩ := h
        cases he
      · rcases h with h | h
        · exact absurd h h1
        · exact absurd h h2
      · rw [calculateTotalValue_eq, updateStockStatus_eq]
        refine ⟨rfl, rfl, rfl, rfl, rfl, rfl, rfl, rfl, rfl, rfl, ?_, ?_, ?_⟩
        · intro h0
          show derivedStockStatus InventoryStatusActive initialQuantity 10 = _
          subst h0
          decide
        · intro ha hb
          show derivedStockStatus InventoryStatusActive initialQuantity 10 = _
          have hn : ¬ initialQuantity ≤ 0 := by omega
          simp [derivedStockStatus, hn, hb]
        · intro ha
          show derivedStockStatus InventoryStatusActive initialQuantity 10 = _
          have hn : ¬ initialQuantity ≤ 0 := by omega
          have hm : ¬ initialQuantity ≤ 10 := by omega
          simp [derivedStockStatus, hn, hm]

theorem NewInventory_spec_witness :
    (∃ e, NewInventory "product-1" "" 5 100 "inv-1" = .error e) ∧
    (∃ e, NewInventory "product-1" "SKU-1" (-1) 100 "inv-1" = .error e) ∧
    (∃ i, NewInventory "product-1" "SKU-1" 7 100 "inv-1" = .ok i ∧
      i.Quantity = 7 ∧ i.AvailableQuantity = 7 ∧ i.ReservedQuantity = 0 ∧
      i.LowStockThreshold = 10 ∧ i.ReorderPoint = 5 ∧ i.MaxStockLevel = 1000 ∧
      i.Status = InventoryStatusActive ∧ i.TotalValue = 0 ∧ i.Movements = [] ∧
      i.Reservations = [] ∧ i.StockStatus = StockStatusLowStock) :=
  ⟨(NewInventory_spec "product-1" "" 5 100 "inv-1").1.mpr (Or.inl rfl),
    (NewInventory_spec "product-1" "SKU-1" (-1) 100 "inv-1").1.mpr (Or.inr (by decide)),
    by
      obtain ⟨i, h0, h1, h2, h3, h4, h5, h6, h7, h8, h9, h10, _, h12, _⟩ :=
        (NewInventory_spec "product-1" "SKU-1" 7 100 "inv-1").2 (by decide) (by decide)
      exact ⟨i, h0, h1, h2, h3, h4, h5, h6, h7, h8, h9, h10, h12 (by decide) (by decide)⟩⟩

/-! ## C29: the admission test -/

/-- C29: for `quantity > 0`, `CanFulfillQuantity(quantity) = true` implies that
`ReserveStock` and `RemoveStock` of that quantity both succeed; the error
result of either does not depend on the lifecycle `Status`; and on an entry
that is not active both succeed whenever `0 < quantity ≤ AvailableQuantity`,
although `CanFulfillQuantity` is false there. -/
theorem CanFulfillQuantity_sufficient (i : Inventory) (quantity : Int) :
    (0 < quantity → i.CanFulfillQuantity quantity = true →
      (∀ orderID expiresAt now newID,
        (i.ReserveStock quantity orderID expiresAt now newID).2 = none) ∧
      (∀ reason reference now newID,
        (i.RemoveStock quantity reason reference now newID).2 = none)) ∧
    (∀ (status : InventoryStatus),
      (∀ orderID expiresAt now newID,
        ({ i with Status := status }.ReserveStock quantity orderID expiresAt now newID).2 =
          (i.ReserveStock quantity orderID expiresAt now newID).2) ∧
      (∀ reason reference now newID,
        ({ i with Status := status }.RemoveStock quantity reason reference now newID).2 =
          (i.RemoveStock quantity reason reference now newID).2)) ∧
    (0 < quantity → quantity ≤ i.AvailableQuantity → i.Status ≠ InventoryStatusActive →
      i.CanFulfillQuantity quantity = false ∧
      (∀ orderID expiresAt now newID,
        (i.ReserveStock quantity orderID expiresAt now newID).2 = none) ∧
      (∀ reason reference now newID,
        (i.RemoveStock quantity reason reference now newID).2 = none)) := by
  refine ⟨fun hpos hcan => ?_, fun status => ⟨fun orderID expiresAt now newID => ?_,
    fun reason reference now newID => ?_⟩, fun hpos hle hst => ⟨?_, ?_, ?_⟩⟩
  · have hle : quantity ≤ i.AvailableQuantity := by
      unfold Inventory.CanFulfillQuantity at hcan
      simp only [Bool.and_eq_true, decide_eq_true_eq] at hcan
      exact hcan.1
    exact ⟨fun orderID expiresAt now newID => by
        rw [ReserveStock_ok i quantity orderID expiresAt now newID hpos hle],
      fun reason reference now newID => by
        rw [RemoveStock_ok i quantity reason reference now newID hpos hle]⟩
  · by_cases h : 0 < quantity ∧ quantity ≤ i.AvailableQuantity
    · rw [ReserveStock_ok i quantity orderID expiresAt now newID h.1 h.2,
        ReserveStock_ok { i with Status := status } quantity orderID expiresAt now newID h.1 h.2]
    · rw [ReserveStock_error i quantity orderID expiresAt now newID (by omega),
        ReserveStock_error { i with Status := status } quantity orderID expiresAt now newID
          (by show quantity ≤ 0 ∨ quantity > i.AvailableQuantity; omega)]
  · by_cases h : 0 < quantity ∧ quantity ≤ i.AvailableQuantity
    · rw [RemoveStock_ok i quantity reason reference now newID h.1 h.2,
        RemoveStock_ok { i with Status := status } quantity reason reference now newID h.1 h.2]
    · rw [RemoveStock_error i quantity reason reference now newID (by omega),
        RemoveStock_error { i with Status := status } quantity reason reference now newID
          (by show quantity ≤ 0 ∨ quantity > i.AvailableQuantity; omega)]
  · unfold Inventory.CanFulfillQuantity
    simp [hst]
  · intro orderID expiresAt now newID
    rw [ReserveStock_ok i quantity orderID expiresAt now newID hpos hle]
  · intro reason reference now newID
    rw [RemoveStock_ok i quantity reason reference now newID hpos hle]

theorem CanFulfillQuantity_sufficient_witness :
    ((scenarioEntry 50).CanFulfillQuantity 5 = true ∧
      ((scenarioEntry 50).ReserveStock 5 "order-A" none 101 "res-A").2 = none ∧
      ((scenarioEntry 50).RemoveStock 5 "sale" none 101 "mov-1").2 = none) ∧
    (scenarioInactive.AvailableQuantity = 50 ∧
      scenarioInactive.CanFulfillQuantity 5 = false ∧
      (scenarioInactive.ReserveStock 5 "order-A" none 102 "res-A").2 = none ∧
      (scenarioInactive.RemoveStock 5 "sale" none 102 "mov-1").2 = none) :=
  ⟨⟨by decide,
      ((CanFulfillQuantity_sufficient (scenarioEntry 50) 5).1 (by decide) (by decide)).1
        "order-A" none 101 "res-A",
      ((CanFulfillQuantity_sufficient (scenarioEntry 50) 5).1 (by decide) (by decide)).2
        "sale" none 101 "mov-1"⟩,
    ⟨by decide,
      ((CanFulfillQuantity_sufficient scenarioInactive 5).2.2
        (by decide) (by decide) (by decide)).1,
      ((CanFulfillQuantity_sufficient scenarioInactive 5).2.2
        (by decide) (by decide) (by decide)).2.1 "order-A" none 102 "res-A",
      ((CanFulfillQuantity_sufficient scenarioInactive 5).2.2
        (by decide) (by decide) (by decide)).2.2 "sale" none 102 "mov-1"⟩⟩

/-! ## C30: classifying movements -/

theorem classCount_of_type (m : InventoryMovement) (h : m.Type_ ∈ movementTypes) :
    classCount m = 1 := by
  unfold classCount InventoryMovement.IsInbound InventoryMovement.IsOutbound
    InventoryMovement.IsAdjustment InventoryMovement.IsTransfer
  simp only [movementTypes, List.mem_cons, List.mem_singleton, List.not_mem_nil, or_false] at h
  rcases h with h | h | h | h | h | h | h | h <;> rw [h] <;> decide

theorem isInbound_of_type (m : InventoryMovement) (h : m.Type_ = MovementTypeInbound) :
    m.IsInbound = true := by
  unfold InventoryMovement.IsInbound
  rw [h]
  decide

theorem isOutbound_of_type (m : InventoryMovement) (h : m.Type_ = MovementTypeOutbound) :
    m.IsOutbound = true := by
  unfold InventoryMovement.IsOutbound
  rw [h]
  decide

/-- C30: for a movement whose type is one of the eight `MovementType`
constants exactly one of `IsInbound`, `IsOutbound`, `IsAdjustment`, `IsTransfer`
holds; the movement appended by a successful `AddStock` satisfies `IsInbound`
and `IsPositiveChange`, the one appended by a successful `RemoveStock` or
`FulfillReservation` satisfies `IsOutbound` and `IsNegativeChange`; and
`IsPositiveChange` and `IsNegativeChange` never hold together. -/
theorem movement_classification (i : Inventory) :
    (∀ m : InventoryMovement, m.Type_ ∈ movementTypes → classCount m = 1) ∧
    (∀ quantity reason reference now newID,
      (i.AddStock quantity reason reference now newID).2 = none →
      ∃ m, (i.AddStock quantity reason reference now newID).1.Movements = i.Movements ++ [m] ∧
        m.IsInbound = true ∧ m.IsPositiveChange = true) ∧
    (∀ quantity reason reference now newID,
      (i.RemoveStock quantity reason reference now newID).2 = none →
      ∃ m, (i.RemoveStock quantity reason reference now newID).1.Movements =
          i.Movements ++ [m] ∧
        m.IsOutbound = true ∧ m.IsNegativeChange = true) ∧
    (∀ reservationID now newID,
      (i.FulfillReservation reservationID now newID).2 = none →
      ∃ m, (i.FulfillReservation reservationID now newID).1.Movements = i.Movements ++ [m] ∧
        m.IsOutbound = true ∧ m.IsNegativeChange = true) ∧
    (∀ m : InventoryMovement, ¬ (m.IsPositiveChange = true ∧ m.IsNegativeChange = true)) := by
  refine ⟨classCount_of_type, ?_, ?_, ?_, ?_⟩
  · intro quantity reason reference now newID hok
    by_cases h : 0 < quantity ∧ i.Status = InventoryStatusActive
    · rw [AddStock_ok i quantity reason reference now newID h.1 h.2]
      refine ⟨_, rfl, isInbound_of_type _ rfl, ?_⟩
      show decide (i.Quantity + quantity - i.Quantity > 0) = true
      simp only [decide_eq_true_eq]
      omega
    · exfalso
      unfold Inventory.AddStock at hok
      split_ifs at hok with h1 h2
      exact h ⟨not_le.mp h1, not_not.mp h2⟩
  · intro quantity reason reference now newID hok
    by_cases h : 0 < quantity ∧ quantity ≤ i.AvailableQuantity
    · rw [RemoveStock_ok i quantity reason reference now newID h.1 h.2]
      refine ⟨_, rfl, isOutbound_of_type _ rfl, ?_⟩
      show decide (i.Quantity - quantity - i.Quantity < 0) = true
      simp only [decide_eq_true_eq]
      omega
    · rw [RemoveStock_error i quantity reason reference now newID (by omega)] at hok
      simp at hok
  · intro reservationID now newID hok
    rcases FulfillReservation_cases i reservationID now newID with
      h | ⟨idx, r, _, _, hpos, _, heq⟩
    · exact absurd hok h.1
    · rw [heq]
      refine ⟨_, rfl, isOutbound_of_type _ rfl, ?_⟩
      show decide (i.Quantity - r.Quantity - i.Quantity < 0) = true
      simp only [decide_eq_true_eq]
      omega
  · intro m h
    unfold InventoryMovement.IsPositiveChange InventoryMovement.IsNegativeChange at h
    simp only [decide_eq_true_eq] at h
    omega

theorem movement_classification_witness :
    classCount { Type_ := MovementTypeDamage } = 1 ∧
    (∃ m, ((scenarioEntry 0).AddStock 50 "initial load" none 101 "mov-1").1.Movements =
        (scenarioEntry 0).Movements ++ [m] ∧
      m.IsInbound = true ∧ m.IsPositiveChange = true) ∧
    (∃ m, scenarioFulfilled.Movements = [m] ∧ m.IsOutbound = true ∧
      m.IsNegativeChange = true) :=
  ⟨(movement_classification (scenarioEntry 0)).1 { Type_ := MovementTypeDamage } (by decide),
    (movement_classification (scenarioEntry 0)).2.1 50 "initial load" none 101 "mov-1"
      (by decide),
    (movement_classification
      ((scenarioEntry 50).run [.ReserveStock 20 "order-A" none 101 "res-A"])).2.2.2.1
      "res-A" 102 "mov-1" (by decide)⟩

/-! ## C22: reservations are retained -/

/-- What a call does to the reservation list: nothing, one element appended,
or the status and update stamp of one element rewritten. -/
theorem call_reservations_cases (i : Inventory) (op : Op) :
    (i.call op).1.Reservations = i.Reservations ∨
    (∃ r, (i.call op).1.Reservations = i.Reservations ++ [r]) ∨
    ∃ (idx : Nat) (status : ReservationStatus) (now : Time),
      (i.call op).1.Reservations =
        updateAt i.Reservations idx (fun x => { x with Status := status, UpdatedAt := now }) := by
  cases op with
  | AddStock quantity reason reference now newID =>
    left
    simp only [Inventory.call, Inventory.AddStock]
    split_ifs <;> simp
  | RemoveStock quantity reason reference now newID =>
    left
    simp only [Inventory.call, Inventory.RemoveStock]
    split_ifs <;> simp
  | ReserveStock quantity orderID expiresAt now newID =>
    by_cases h : 0 < quantity ∧ quantity ≤ i.AvailableQuantity
    · right
      left
      simp only [Inventory.call, ReserveStock_ok i quantity orderID expiresAt now newID h.1 h.2]
      exact ⟨_, rfl⟩
    · left
      simp only [Inventory.call,
        ReserveStock_error i quantity orderID expiresAt now newID (by omega)]
  | ReleaseReservation reservationID now =>
    simp only [Inventory.call]
    cases hfind : findReservation i.Reservations reservationID with
    | none =>
      left
      simp only [ReleaseReservation_not_found i reservationID now hfind]
    | some p =>
      obtain ⟨idx, r⟩ := p
      by_cases hact : r.Status = ReservationStatusActive
      · right
        right
        simp only [ReleaseReservation_ok i reservationID now idx r hfind hact]
        exact ⟨idx, _, now, rfl⟩
      · left
        simp only [ReleaseReservation_not_active i reservationID now idx r hfind hact]
  | FulfillReservation reservationID now newID =>
    rcases FulfillReservation_cases i reservationID now newID with
      h | ⟨idx, r, _, _, _, _, heq⟩
    · left
      simp only [Inventory.call, h.2]
    · right
      right
      simp only [Inventory.call, heq]
      exact ⟨idx, _, now, rfl⟩
  | AdjustStock newQuantity reason now newID =>
    left
    simp only [Inventory.call, Inventory.AdjustStock]
    split_ifs <;> simp
  | SetThresholds lowStock reorderPoint maxStock now =>
    left
    simp only [Inventory.call, Inventory.SetThresholds]
    split_ifs <;> simp
  | SetLocation warehouseID location bin now => exact Or.inl rfl
  | SetSupplierInfo supplierID supplierSKU leadTimeDays now => exact Or.inl rfl
  | SetUnitCost cost now =>
    left
    simp only [Inventory.call, Inventory.SetUnitCost]
    split_ifs <;> simp
  | SetStatus status now =>
    left
    simp only [Inventory.call, Inventory.SetStatus]
    split_ifs <;> simp
  | SetNotes notes now => exact Or.inl rfl
  | AddMetadata key value now => exact Or.inl rfl

theorem FulfillReservation_ok_reservations (i : Inventory) (reservationID : UUID) (now : Time)
    (newID : UUID) (hok : (i.FulfillReservation reservationID now newID).2 = none) :
    ∃ idx r, firstWithID i.Reservations reservationID idx r ∧
      r.Status = ReservationStatusActive ∧
      (i.FulfillReservation reservationID now newID).1.Reservations =
        updateAt i.Reservations idx
          (fun x => { x with Status := ReservationStatusFulfilled, UpdatedAt := now }) := by
  rcases FulfillReservation_cases i reservationID now newID with
    h | ⟨idx, r, hfind, hact, _, _, heq⟩
  · exact absurd hok h.1
  · exact ⟨idx, r, findReservation_some _ _ _ _ hfind, hact, by rw [heq]⟩

theorem ReleaseReservation_ok_reservations (i : Inventory) (reservationID : UUID) (now : Time)
    (hok : (i.ReleaseReservation reservationID now).2 = none) :
    ∃ idx r, firstWithID i.Reservations reservationID idx r ∧
      r.Status = ReservationStatusActive ∧
      (i.ReleaseReservation reservationID now).1.Reservations =
        updateAt i.Reservations idx
          (fun x => { x with Status := ReservationStatusReleased, UpdatedAt := now }) := by
  cases hfind : findReservation i.Reservations reservationID with
  | none =>
    rw [ReleaseReservation_not_found i reservationID now hfind] at hok
    simp at hok
  | some p =>
    obtain ⟨idx, r⟩ := p
    by_cases hact : r.Status = ReservationStatusActive
    · exact ⟨idx, r, findReservation_some _ _ _ _ hfind, hact,
        by rw [ReleaseReservation_ok i reservationID now idx r hfind hact]⟩
    · rw [ReleaseReservation_not_active i reservationID now idx r hfind hact] at hok
      simp at hok

/-- C22: no call of an `Inventory` method removes a reservation or changes the
`ID`, `OrderID`, `Quantity` or `ExpiresAt` of one: every reservation is found at
the same index afterwards with these four fields as before. A successful
`ReserveStock` appends exactly one element; a successful `ReleaseReservation` or
`FulfillReservation` rewrites the `Status` and `UpdatedAt` of the reservation
with the id (the first one carrying it) and leaves every other element
identical. -/
theorem reservations_retained (i : Inventory) :
    (∀ (op : Op) (k : Nat) (r : InventoryReservation), i.Reservations[k]? = some r →
      ∃ r', (i.call op).1.Reservations[k]? = some r' ∧ r'.ID = r.ID ∧
        r'.OrderID = r.OrderID ∧ r'.Quantity = r.Quantity ∧ r'.ExpiresAt = r.ExpiresAt) ∧
    (∀ quantity orderID expiresAt now newID,
      (i.ReserveStock quantity orderID expiresAt now newID).2 = none →
      ∃ r, (i.ReserveStock quantity orderID expiresAt now newID).1.Reservations =
        i.Reservations ++ [r]) ∧
    (∀ reservationID now, (i.ReleaseReservation reservationID now).2 = none →
      ∃ idx r, firstWithID i.Reservations reservationID idx r ∧
        (i.ReleaseReservation reservationID now).1.Reservations[idx]? =
          some { r with Status := ReservationStatusReleased, UpdatedAt := now } ∧
        (i.ReleaseReservation reservationID now).1.Reservations.length =
          i.Reservations.length ∧
        ∀ k, k ≠ idx →
          (i.ReleaseReservation reservationID now).1.Reservations[k]? = i.Reservations[k]?) ∧
    (∀ reservationID now newID, (i.FulfillReservation reservationID now newID).2 = none →
      ∃ idx r, firstWithID i.Reservations reservationID idx r ∧
        (i.FulfillReservation reservationID now newID).1.Reservations[idx]? =
          some { r with Status := ReservationStatusFulfilled, UpdatedAt := now } ∧
        (i.FulfillReservation reservationID now newID).1.Reservations.length =
          i.Reservations.length ∧
        ∀ k, k ≠ idx →
          (i.FulfillReservation reservationID now newID).1.Reservations[k]? =
            i.Reservations[k]?) := by
  refine ⟨?_, ?_, ?_, ?_⟩
  · intro op k r hget
    rcases call_reservations_cases i op with h | ⟨x, h⟩ | ⟨idx, status, now, h⟩
    · rw [h]
      exact ⟨r, hget, rfl, rfl, rfl, rfl⟩
    · rw [h]
      have hlt : k < i.Reservations.length := (List.getElem?_eq_some.mp hget).1
      exact ⟨r, by rw [List.getElem?_append_left hlt]; exact hget, rfl, rfl, rfl, rfl⟩
    · rw [h, updateAt_getElem?, hget]
      by_cases hk : k = idx
      · exact ⟨{ r with Status := status, UpdatedAt := now }, by simp [hk], rfl, rfl, rfl, rfl⟩
      · exact ⟨r, by simp [hk], rfl, rfl, rfl, rfl⟩
  · intro quantity orderID expiresAt now newID hok
    by_cases h : 0 < quantity ∧ quantity ≤ i.AvailableQuantity
    · rw [ReserveStock_ok i quantity orderID expiresAt now newID h.1 h.2]
      exact ⟨_, rfl⟩
    · rw [ReserveStock_error i quantity orderID expiresAt now newID (by omega)] at hok
      simp at hok
  · intro reservationID now hok
    obtain ⟨idx, r, hfirst, _, heq⟩ := ReleaseReservation_ok_reservations i reservationID now hok
    refine ⟨idx, r, hfirst, ?_, ?_, ?_⟩
    · rw [heq, updateAt_getElem?, hfirst.1]
      simp
    · rw [heq, updateAt_length]
    · intro k hk
      rw [heq, updateAt_getElem?]
      simp [hk]
  · intro reservationID now newID hok
    obtain ⟨idx, r, hfirst, _, heq⟩ :=
      FulfillReservation_ok_reservations i reservationID now newID hok
    refine ⟨idx, r, hfirst, ?_, ?_, ?_⟩
    · rw [heq, updateAt_getElem?, hfirst.1]
      simp
    · rw [heq, updateAt_length]
    · intro k hk
      rw [heq, updateAt_getElem?]
      simp [hk]

theorem reservations_retained_witness :
    (scenarioMixed.Reservations[0]? = some scenarioReleased ∧
      ∃ r', (scenarioMixed.call (.ReleaseReservation "res-B" 200)).1.Reservations[0]? =
          some r' ∧
        r'.ID = scenarioReleased.ID ∧ r'.OrderID = scenarioReleased.OrderID ∧
        r'.Quantity = scenarioReleased.Quantity ∧
        r'.ExpiresAt = scenarioReleased.ExpiresAt) ∧
    (∃ r, (scenarioMixed.ReserveStock 3 "order-C" none 200 "res-C").1.Reservations =
      scenarioMixed.Reservations ++ [r]) ∧
    (∃ idx r, firstWithID scenarioMixed.Reservations "res-B" idx r ∧
      (scenarioMixed.ReleaseReservation "res-B" 200).1.Reservations[idx]? =
        some { r with Status := ReservationStatusReleased, UpdatedAt := 200 } ∧
      (scenarioMixed.ReleaseReservation "res-B" 200).1.Reservations.length =
        scenarioMixed.Reservations.length ∧
      ∀ k, k ≠ idx →
        (scenarioMixed.ReleaseReservation "res-B" 200).1.Reservations[k]? =
          scenarioMixed.Reservations[k]?) :=
  ⟨⟨by decide,
      (reservations_retained scenarioMixed).1 (.ReleaseReservation "res-B" 200) 0
        scenarioReleased (by decide)⟩,
    (reservations_retained scenarioMixed).2.1 3 "order-C" none 200 "res-C" (by decide),
    (reservations_retained scenarioMixed).2.2.1 "res-B" 200 (by decide)⟩

/-! ## C27: the log reconstructs the quantity -/

theorem logChain_append (q0 q : Int) (ms : List InventoryMovement) (m : InventoryMovement)
    (h : logChain q0 ms q) (hm : m.PreviousQty = q) : logChain q0 (ms ++ [m]) m.NewQty := by
  induction ms generalizing q0 with
  | nil =>
    have hq : q = q0 := h
    exact ⟨hm.trans hq, rfl⟩
  | cons a ms ih => exact ⟨h.1, ih a.NewQty h.2⟩

theorem logChain_sum (q0 q : Int) (ms : List InventoryMovement) (h : logChain q0 ms q) :
    q0 + (ms.map InventoryMovement.QuantityChange).sum = q := by
  induction ms generalizing q0 with
  | nil =>
    have hq : q = q0 := h
    simp [hq]
  | cons a ms ih =>
    have h1 : a.PreviousQty = q0 := h.1
    have h2 := ih a.NewQty h.2
    simp only [List.map_cons, List.sum_cons, InventoryMovement.QuantityChange] at h2 ⊢
    omega

theorem logChain_call (q0 : Int) (i : Inventory) (op : Op)
    (h : logChain q0 i.Movements i.Quantity) :
    logChain q0 (i.call op).1.Movements (i.call op).1.Quantity := by
  rcases call_movement_cases i op with hsame | ⟨m, hm, hprev, hnew, _⟩
  · rw [hsame.1, hsame.2]
    exact h
  · rw [hm, ← hnew]
    exact logChain_append q0 i.Quantity i.Movements m h hprev

theorem logChain_run (q0 : Int) (i : Inventory) (ops : List Op)
    (h : logChain q0 i.Movements i.Quantity) :
    logChain q0 (i.run ops).Movements (i.run ops).Quantity := by
  induction ops generalizing i with
  | nil => exact h
  | cons op ops ih => exact ih _ (logChain_call q0 i op h)

/-- C27: in the state reached from `NewInventory(_, _, q0)` by any sequence of
calls, the first movement (if any) has `PreviousQty = q0`, each later
movement's `PreviousQty` is the `NewQty` of the one before it, and the last
movement's `NewQty` is the current `Quantity` (`Quantity = q0` when the log is
empty); hence `q0` plus the sum of `QuantityChange` over the log is `Quantity`. -/
theorem log_reconstructs_quantity (productID : UUID) (sku : String) (q0 : Int) (now : Time)
    (newID : UUID) (i0 : Inventory) (ops : List Op)
    (h : NewInventory productID sku q0 now newID = .ok i0) :
    logChain q0 (i0.run ops).Movements (i0.run ops).Quantity ∧
      q0 + ((i0.run ops).Movements.map InventoryMovement.QuantityChange).sum =
        (i0.run ops).Quantity := by
  have hinit : logChain q0 i0.Movements i0.Quantity := by
    unfold NewInventory at h
    split_ifs at h with h1 h2
    simp only [Except.ok.injEq] at h
    subst h
    simp only [calculateTotalValue_Movements, calculateTotalValue_Quantity,
      updateStockStatus_Movements, updateStockStatus_Quantity]
    exact rfl
  have hrun := logChain_run q0 i0 ops hinit
  exact ⟨hrun, logChain_sum _ _ _ hrun⟩

theorem log_reconstructs_quantity_witness :
    NewInventory "product-1" "SKU-1" 50 100 "inv-1" = .ok (scenarioEntry 50) ∧
      (logChain 50 scenarioMixed.Movements scenarioMixed.Quantity ∧
        50 + (scenarioMixed.Movements.map InventoryMovement.QuantityChange).sum =
          scenarioMixed.Quantity) ∧
      scenarioMixed.Quantity = 40 ∧
      scenarioMixed.Movements.map (fun m => (m.PreviousQty, m.NewQty)) = [(50, 40)] :=
  ⟨rfl,
    log_reconstructs_quantity "product-1" "SKU-1" 50 100 "inv-1" (scenarioEntry 50)
      [.ReserveStock 20 "order-A" none 101 "res-A",
       .ReserveStock 5 "order-B" (some 500) 102 "res-B",
       .ReleaseReservation "res-A" 103,
       .RemoveStock 10 "sale" none 104 "mov-1"] rfl,
    by decide, by decide⟩

/-! ## C28: reserve, then release -/

theorem findReservation_append_fresh (rs : List InventoryReservation) (r : InventoryReservation)
    (h : ∀ x ∈ rs, x.ID ≠ r.ID) : findReservation (rs ++ [r]) r.ID = some (rs.length, r) := by
  induction rs with
  | nil => simp [findReservation]
  | cons a rs ih =>
    have ha : a.ID ≠ r.ID := h a (List.mem_cons_self a rs)
    have hrec := ih (fun x hx => h x (List.mem_cons_of_mem a hx))
    simp [findReservation, ha, hrec]

/-- C28: on a reachable entry whose `StockStatus` agrees with the rule, for
`0 < quantity ≤ AvailableQuantity` and a reservation id not yet used on the
entry, `ReserveStock` succeeds, releasing the reservation just created
succeeds, and afterwards `Quantity`, `ReservedQuantity`, `AvailableQuantity` and
`StockStatus` have their values from before the reserve and `Movements` is
unchanged. -/
theorem reserve_release_roundtrip (i : Inventory) (quantity : Int) (orderID : UUID)
    (expiresAt : Option Time) (now : Time) (newID : UUID) (later : Time)
    (hreach : Reachable i)
    (hrule : i.StockStatus =
      derivedStockStatus i.Status i.AvailableQuantity i.LowStockThreshold)
    (hpos : 0 < quantity) (hle : quantity ≤ i.AvailableQuantity)
    (hfresh : ∀ x ∈ i.Reservations, x.ID ≠ newID) :
    (i.ReserveStock quantity orderID expiresAt now newID).2 = none ∧
    ((i.ReserveStock quantity orderID expiresAt now newID).1.ReleaseReservation
      newID later).2 = none ∧
    ((i.ReserveStock quantity orderID expiresAt now newID).1.ReleaseReservation
      newID later).1.Quantity = i.Quantity ∧
    ((i.ReserveStock quantity orderID expiresAt now newID).1.ReleaseReservation
      newID later).1.ReservedQuantity = i.ReservedQuantity ∧
    ((i.ReserveStock quantity orderID expiresAt now newID).1.ReleaseReservation
      newID later).1.AvailableQuantity = i.AvailableQuantity ∧
    ((i.ReserveStock quantity orderID expiresAt now newID).1.ReleaseReservation
      newID later).1.StockStatus = i.StockStatus ∧
    ((i.ReserveStock quantity orderID expiresAt now newID).1.ReleaseReservation
      newID later).1.Movements = i.Movements := by
  obtain ⟨_, hcoh, _, _⟩ := ledgerInv_of_reachableBy _ i hreach
  rw [ReserveStock_ok i quantity orderID expiresAt now newID hpos hle]
  have hfind := findReservation_append_fresh i.Reservations
    { ID := newID, InventoryID := i.ID, OrderID := orderID, Quantity := quantity,
      Status := ReservationStatusActive, ExpiresAt := expiresAt, CreatedAt := now } hfresh
  rw [ReleaseReservation_ok _ newID later _ _ hfind rfl]
  have hres : i.ReservedQuantity + quantity - quantity = i.ReservedQuantity := by omega
  refine ⟨rfl, rfl, rfl, ?_, ?_, ?_, rfl⟩
  · exact hres
  · show i.Quantity - (i.ReservedQuantity + quantity - quantity) = i.AvailableQuantity
    rw [hres, hcoh]
  · show derivedStockStatus i.Status
      (i.Quantity - (i.ReservedQuantity + quantity - quantity)) i.LowStockThreshold = _
    rw [hres, hrule, hcoh]

theorem reserve_release_roundtrip_witness :
    Reachable scenarioMixed ∧
      ((scenarioMixed.ReserveStock 7 "order-C" none 200 "res-C").1.ReleaseReservation
        "res-C" 201).1.ReservedQuantity = scenarioMixed.ReservedQuantity ∧
      ((scenarioMixed.ReserveStock 7 "order-C" none 200 "res-C").1.ReleaseReservation
        "res-C" 201).1.AvailableQuantity = scenarioMixed.AvailableQuantity ∧
      ((scenarioMixed.ReserveStock 7 "order-C" none 200 "res-C").1.ReleaseReservation
        "res-C" 201).1.StockStatus = scenarioMixed.StockStatus :=
  ⟨reachable_scenarioMixed,
    (reserve_release_roundtrip scenarioMixed 7 "order-C" none 200 "res-C" 201
      reachable_scenarioMixed (by decide) (by decide) (by decide) (by decide)).2.2.2.1,
    (reserve_release_roundtrip scenarioMixed 7 "order-C" none 200 "res-C" 201
      reachable_scenarioMixed (by decide) (by decide) (by decide) (by decide)).2.2.2.2.1,
    (reserve_release_roundtrip scenarioMixed 7 "order-C" none 200 "res-C" 201
      reachable_scenarioMixed (by decide) (by decide) (by decide) (by decide)).2.2.2.2.2.1⟩

/-! ## C26: the stock status is never optimistic -/

theorem derivedStockStatus_values (status : InventoryStatus) (available low : Int) :
    derivedStockStatus status available low = StockStatusInStock ∨
      derivedStockStatus status available low = StockStatusLowStock ∨
      derivedStockStatus status available low = StockStatusOutOfStock := by
  unfold derivedStockStatus
  split_ifs
  · exact Or.inr (Or.inr rfl)
  · exact Or.inr (Or.inl rfl)
  · exact Or.inl rfl

theorem lowStock_ne_inStock : StockStatusLowStock ≠ StockStatusInStock := by decide

theorem outOfStock_ne_inStock : StockStatusOutOfStock ≠ StockStatusInStock := by decide

theorem derivedStockStatus_inStock (status : InventoryStatus) (available low : Int)
    (h : derivedStockStatus status available low = StockStatusInStock) :
    status = InventoryStatusActive ∧ available > low := by
  unfold derivedStockStatus at h
  split_ifs at h with h1 h2
  · exact absurd h outOfStock_ne_inStock
  · exact absurd h lowStock_ne_inStock
  · exact ⟨not_not.mp (fun hs => h1 (Or.inl hs)), not_le.mp h2⟩

/-- After a call the stock status is untouched together with what it is derived
from, or it is the rule's value for an available quantity no larger than the
current one, or the entry has just been re-activated with everything else
untouched. -/
theorem call_status_cases (i : Inventory) (op : Op) :
    ((i.call op).1.StockStatus = i.StockStatus ∧ (i.call op).1.Status = i.Status ∧
      (i.call op).1.AvailableQuantity = i.AvailableQuantity ∧
      (i.call op).1.LowStockThreshold = i.LowStockThreshold) ∨
    (∃ a : Int, a ≤ (i.call op).1.AvailableQuantity ∧
      (i.call op).1.StockStatus =
        derivedStockStatus (i.call op).1.Status a (i.call op).1.LowStockThreshold) ∨
    ((i.call op).1.StockStatus = i.StockStatus ∧
      (i.call op).1.Status = InventoryStatusActive ∧
      (i.call op).1.AvailableQuantity = i.AvailableQuantity ∧
      (i.call op).1.LowStockThreshold = i.LowStockThreshold) := by
  cases op with
  | AddStock quantity reason reference now newID =>
    by_cases h : 0 < quantity ∧ i.Status = InventoryStatusActive
    · right
      left
      simp only [Inventory.call, AddStock_ok i quantity reason reference now newID h.1 h.2]
      exact ⟨_, le_refl _, rfl⟩
    · left
      simp only [Inventory.call, Inventory.AddStock]
      split_ifs with h1 h2
      · exact ⟨rfl, rfl, rfl, rfl⟩
      · exact ⟨rfl, rfl, rfl, rfl⟩
      · exact absurd ⟨not_le.mp h1, not_not.mp h2⟩ h
  | RemoveStock quantity reason reference now newID =>
    by_cases h : 0 < quantity ∧ quantity ≤ i.AvailableQuantity
    · right
      left
      simp only [Inventory.call, RemoveStock_ok i quantity reason reference now newID h.1 h.2]
      exact ⟨_, le_refl _, rfl⟩
    · left
      simp only [Inventory.call,
        RemoveStock_error i quantity reason reference now newID (by omega), and_self]
  | ReserveStock quantity orderID expiresAt now newID =>
    by_cases h : 0 < quantity ∧ quantity ≤ i.AvailableQuantity
    · right
      left
      simp only [Inventory.call, ReserveStock_ok i quantity orderID expiresAt now newID h.1 h.2]
      exact ⟨_, le_refl _, rfl⟩
    · left
      simp only [Inventory.call,
        ReserveStock_error i quantity orderID expiresAt now newID (by omega), and_self]
  | ReleaseReservation reservationID now =>
    simp only [Inventory.call]
    cases hfind : findReservation i.Reservations reservationID with
    | none =>
      left
      simp only [ReleaseReservation_not_found i reservationID now hfind, and_self]
    | some p =>
      obtain ⟨idx, r⟩ := p
      by_cases hact : r.Status = ReservationStatusActive
      · right
        left
        simp only [ReleaseReservation_ok i reservationID now idx r hfind hact]
        exact ⟨_, le_refl _, rfl⟩
      · left
        simp only [ReleaseReservation_not_active i reservationID now idx r hfind hact, and_self]
  | FulfillReservation reservationID now newID =>
    rcases FulfillReservation_cases i reservationID now newID with
      h | ⟨idx, r, _, _, hpos, _, heq⟩
    · left
      simp only [Inventory.call, h.2, and_self]
    · right
      left
      simp only [Inventory.call, heq]
      refine ⟨i.Quantity - r.Quantity - i.ReservedQuantity, ?_, rfl⟩
      show i.Quantity - r.Quantity - i.ReservedQuantity ≤
        i.Quantity - r.Quantity - (i.ReservedQuantity - r.Quantity)
      omega
  | AdjustStock newQuantity reason now newID =>
    by_cases h : 0 ≤ newQuantity ∧ i.ReservedQuantity ≤ newQuantity
    · right
      left
      simp only [Inventory.call, AdjustStock_ok i newQuantity reason now newID h.1 h.2]
      exact ⟨_, le_refl _, rfl⟩
    · left
      simp only [Inventory.call, AdjustStock_error i newQuantity reason now newID (by omega),
        and_self]
  | SetThresholds lowStock reorderPoint maxStock now =>
    by_cases h : 0 ≤ reorderPoint ∧ reorderPoint ≤ lowStock ∧ lowStock ≤ maxStock
    · right
      left
      simp only [Inventory.call, SetThresholds_ok i _ _ _ now h.1 h.2.1 h.2.2]
      exact ⟨_, le_refl _, rfl⟩
    · left
      simp only [Inventory.call, (SetThresholds_error i _ _ _ now h).2, and_self]
  | SetLocation warehouseID location bin now => exact Or.inl ⟨rfl, rfl, rfl, rfl⟩
  | SetSupplierInfo supplierID supplierSKU leadTimeDays now => exact Or.inl ⟨rfl, rfl, rfl, rfl⟩
  | SetUnitCost cost now =>
    left
    simp only [Inventory.call, Inventory.SetUnitCost]
    split_ifs <;> simp
  | SetStatus status now =>
    by_cases hs : status = InventoryStatusActive
    · right
      right
      simp only [Inventory.call]
      rw [SetStatus_active i status now hs]
      exact ⟨rfl, hs, rfl, rfl⟩
    · right
      left
      simp only [Inventory.call, SetStatus_not_active i status now hs]
      exact ⟨i.AvailableQuantity, le_refl _, (derivedStockStatus_of_ne_active _ _ _ hs).symm⟩
  | SetNotes notes now => exact Or.inl ⟨rfl, rfl, rfl, rfl⟩
  | AddMetadata key value now => exact Or.inl ⟨rfl, rfl, rfl, rfl⟩

theorem pessimistic_call (i : Inventory) (op : Op) (h : Pessimistic i) :
    Pessimistic (i.call op).1 := by
  unfold Pessimistic at h ⊢
  rcases call_status_cases i op with ⟨e1, e2, e3, e4⟩ | ⟨a, ha, e⟩ | ⟨e1, e2, e3, e4⟩
  · rw [e1, e2, e3, e4]
    exact h
  · rw [e]
    refine ⟨derivedStockStatus_values _ _ _, fun hin => ?_⟩
    obtain ⟨hs, hgt⟩ := derivedStockStatus_inStock _ _ _ hin
    exact ⟨hs, lt_of_lt_of_le hgt ha⟩
  · rw [e1, e2, e3, e4]
    exact ⟨h.1, fun hin => ⟨rfl, (h.2 hin).2⟩⟩

theorem pessimistic_of_reachableBy (allowed : Op → Prop) (i : Inventory)
    (h : ReachableBy allowed i) : Pessimistic i := by
  induction h with
  | new productID sku initialQuantity now newID i h =>
    have hrule := stockStatus_new _ _ _ _ _ _ h
    unfold Pessimistic
    rw [hrule]
    exact ⟨derivedStockStatus_values _ _ _, derivedStockStatus_inStock _ _ _⟩
  | call i op _ _ ih => exact pessimistic_call i op ih

/-- C26: in every state reachable from a successful `NewInventory` by any
sequence of calls, `StockStatus` is one of `in_stock`, `low_stock`,
`out_of_stock` and never `backorder`; `StockStatus = in_stock` implies that
`Status` is active and `AvailableQuantity > LowStockThreshold`; and
`NeedsReorder()` being true implies `IsInStock()` is false. -/
theorem stockStatus_never_optimistic (i : Inventory) (h : Reachable i) :
    (i.StockStatus = StockStatusInStock ∨ i.StockStatus = StockStatusLowStock ∨
      i.StockStatus = StockStatusOutOfStock) ∧
    i.StockStatus ≠ StockStatusBackorder ∧
    (i.StockStatus = StockStatusInStock →
      i.Status = InventoryStatusActive ∧ i.AvailableQuantity > i.LowStockThreshold) ∧
    (i.NeedsReorder = true → i.IsInStock = false) := by
  obtain ⟨hval, himp⟩ := pessimistic_of_reachableBy _ i h
  obtain ⟨_, hro, _⟩ := thresholdInv_of_reachableBy _ i h
  refine ⟨hval, ?_, himp, ?_⟩
  · rcases hval with hv | hv | hv <;> rw [hv] <;> decide
  · intro hneed
    unfold Inventory.NeedsReorder at hneed
    unfold Inventory.IsInStock
    simp only [decide_eq_true_eq] at hneed
    simp only [decide_eq_false_iff_not]
    intro hin
    have hgt := (himp hin).2
    omega

theorem stockStatus_never_optimistic_witness :
    Reachable scenarioFulfilled ∧
      scenarioFulfilled.StockStatus = StockStatusLowStock ∧
      ((scenarioFulfilled.StockStatus = StockStatusInStock ∨
          scenarioFulfilled.StockStatus = StockStatusLowStock ∨
          scenarioFulfilled.StockStatus = StockStatusOutOfStock) ∧
        scenarioFulfilled.StockStatus ≠ StockStatusBackorder ∧
        (scenarioFulfilled.StockStatus = StockStatusInStock →
          scenarioFulfilled.Status = InventoryStatusActive ∧
            scenarioFulfilled.AvailableQuantity > scenarioFulfilled.LowStockThreshold) ∧
        (scenarioFulfilled.NeedsReorder = true → scenarioFulfilled.IsInStock = false)) :=
  ⟨reachableBy_run _ _ _ (reachableBy_scenarioEntry _ 50 (by decide)) (fun _ _ => trivial),
    by decide,
    stockStatus_never_optimistic scenarioFulfilled
      (reachableBy_run _ _ _ (reachableBy_scenarioEntry _ 50 (by decide))
        (fun _ _ => trivial))⟩

/-! ## C21: the closing timestamps -/

/-- C21 (the code at a failing input): reserving 20 of 50 and releasing the
reservation through `Inventory.ReleaseReservation` leaves it `released` with
`ReleasedAt` unset, and fulfilling it through `Inventory.FulfillReservation`
leaves it `fulfilled` with `FulfilledAt` unset; the reservation-level `Release`
and `Fulfill` do stamp the two fields. -/
theorem entry_transitions_unstamped :
    (Reachable scenarioReleasedEntry ∧
      scenarioReleasedEntry.Reservations.map (fun r => (r.ID, r.Status, r.ReleasedAt)) =
        [("res-A", ReservationStatusReleased, none)]) ∧
    (Reachable scenarioFulfilled ∧
      scenarioFulfilled.Reservations.map (fun r => (r.ID, r.Status, r.FulfilledAt)) =
        [("res-A", ReservationStatusFulfilled, none)]) ∧
    ((scenarioExpiring.Release "" none 200).1.Status = ReservationStatusReleased ∧
      (scenarioExpiring.Release "" none 200).1.ReleasedAt = some 200) ∧
    ((scenarioExpiring.Fulfill none 200).1.Status = ReservationStatusFulfilled ∧
      (scenarioExpiring.Fulfill none 200).1.FulfilledAt = some 200) :=
  ⟨⟨reachableBy_run _ _ _ (reachableBy_scenarioEntry _ 50 (by decide)) (fun _ _ => trivial),
      by decide⟩,
    ⟨reachableBy_run _ _ _ (reachableBy_scenarioEntry _ 50 (by decide)) (fun _ _ => trivial),
      by decide⟩,
    ⟨by decide, by decide⟩, ⟨by decide, by decide⟩⟩

/-! ## C24: the stock status after a fulfilment -/

/-- C24 (the code at a failing input): on the reachable entry of 50 with 20
reserved, `FulfillReservation` succeeds and leaves `Status` active,
`AvailableQuantity` 30 and `LowStockThreshold` 10, for which the rule gives
`in_stock`, but `StockStatus` is `low_stock`: it was computed inside
`RemoveStock` from the available quantity 10 of the moment before
`ReservedQuantity` was decremented, and is not recomputed afterwards. -/
theorem fulfill_stale_stockStatus :
    Reachable scenarioHeld ∧
      (scenarioHeld.FulfillReservation "res-A" 102 "mov-1").2 = none ∧
      (scenarioHeld.FulfillReservation "res-A" 102 "mov-1").1.Status =
        InventoryStatusActive ∧
      (scenarioHeld.FulfillReservation "res-A" 102 "mov-1").1.AvailableQuantity = 30 ∧
      (scenarioHeld.FulfillReservation "res-A" 102 "mov-1").1.LowStockThreshold = 10 ∧
      derivedStockStatus (scenarioHeld.FulfillReservation "res-A" 102 "mov-1").1.Status
        (scenarioHeld.FulfillReservation "res-A" 102 "mov-1").1.AvailableQuantity
        (scenarioHeld.FulfillReservation "res-A" 102 "mov-1").1.LowStockThreshold =
        StockStatusInStock ∧
      (scenarioHeld.FulfillReservation "res-A" 102 "mov-1").1.StockStatus =
        StockStatusLowStock :=
  ⟨reachableBy_run _ _ _ (reachableBy_scenarioEntry _ 50 (by decide)) (fun _ _ => trivial),
    by decide, by decide, by decide, by decide, by decide, by decide⟩

/-! ## Arithmetic in the 64-bit range -/

theorem wrapInt_of_isInt64 (x : Int) (h : IsInt64 x) : wrapInt x = x := by
  unfold IsInt64 minInt maxInt at h
  unfold wrapInt minInt
  omega

theorem wrapInt_isInt64 (x : Int) : IsInt64 (wrapInt x) := by
  unfold IsInt64 wrapInt minInt maxInt
  omega

theorem abs64_wrapInt (d : Int) (h1 : minInt < d) (h2 : d ≤ maxInt) :
    abs64 (wrapInt d) = |d| := by
  rw [wrapInt_of_isInt64 d ⟨le_of_lt h1, h2⟩]
  unfold abs64
  split_ifs with h
  · rw [abs_of_neg h]
    apply wrapInt_of_isInt64
    unfold IsInt64
    unfold minInt at h1 ⊢
    unfold maxInt at h2 ⊢
    omega
  · exact (abs_of_nonneg (not_lt.mp h)).symm

/-! ## C9: adding stock -/

theorem AddStock64_ok (i : Inventory) (quantity : Int) (reason : String)
    (reference : Option String) (now : Time) (newID : UUID)
    (h1 : 0 < quantity) (h2 : i.Status = InventoryStatusActive) :
    i.AddStock64 quantity reason reference now newID =
      ({ i with
          Quantity := wrapInt (i.Quantity + quantity)
          AvailableQuantity := wrapInt (wrapInt (i.Quantity + quantity) - i.ReservedQuantity)
          LastRestockedAt := some now
          UpdatedAt := now
          Movements := i.Movements ++
            [{ ID := newID, InventoryID := i.ID, Type_ := MovementTypeInbound,
               Quantity := quantity, PreviousQty := i.Quantity,
               NewQty := wrapInt (i.Quantity + quantity), Reason := reason,
               Reference := reference, CreatedAt := now }]
          StockStatus := derivedStockStatus i.Status
            (wrapInt (wrapInt (i.Quantity + quantity) - i.ReservedQuantity)) i.LowStockThreshold
          TotalValue := totalValueOf (wrapInt (i.Quantity + quantity)) i.UnitCost }, none) := by
  unfold Inventory.AddStock64
  have h1n : ¬ quantity ≤ 0 := by omega
  simp only [h1n, h2, ne_eq, not_true_eq_false, if_false]
  rw [calculateTotalValue_eq, updateStockStatus_eq]

/-- C9 (as stated, refuted): on the new entry of 50, which is active,
`AddStock(math.MaxInt64)` returns no error and leaves `Quantity` at
-9223372036854775759 and `StockStatus` at `out_of_stock`: `Quantity` has not
increased by the quantity added, and the movement's `NewQty` is not the old
`Quantity` plus the quantity. -/
theorem AddStock_overflow_counterexample :
    NewInventory "product-1" "SKU-1" 50 100 "inv-1" = .ok (scenarioEntry 50) ∧
      IsInt64 maxInt ∧ 0 < maxInt ∧
      ((scenarioEntry 50).AddStock64 maxInt "restock" none 101 "mov-1").2 = none ∧
      ((scenarioEntry 50).AddStock64 maxInt "restock" none 101 "mov-1").1.Quantity =
        -9223372036854775759 ∧
      ((scenarioEntry 50).AddStock64 maxInt "restock" none 101 "mov-1").1.Quantity ≠
        (scenarioEntry 50).Quantity + maxInt ∧
      ((scenarioEntry 50).AddStock64 maxInt "restock" none 101 "mov-1").1.StockStatus =
        StockStatusOutOfStock ∧
      ((scenarioEntry 50).AddStock64 maxInt "restock" none 101 "mov-1").1.Movements.map
        (fun m => (m.Type_, m.Quantity, m.PreviousQty, m.NewQty)) =
        [(MovementTypeInbound, 9223372036854775807, 50, -9223372036854775759)] :=
  ⟨rfl, ⟨by decide, by decide⟩, by decide, by decide, by decide, by decide, by decide,
    by decide⟩

/-- C9 (amended): `AddStock` fails with the invalid-quantity error when
`quantity ≤ 0` (whatever the status), fails with the invalid-state error when
`quantity > 0` and `Status` is not active, and otherwise succeeds: `Quantity`
becomes the old `Quantity + quantity` in 64-bit arithmetic, which is exactly
that sum whenever the sum is an `int`; `AvailableQuantity` is
`Quantity - ReservedQuantity` in the same arithmetic; `StockStatus` is
recomputed; `LastRestockedAt` is set; and exactly one movement is appended,
inbound, of `quantity`, from the old `Quantity` to the new one. -/
theorem AddStock_amended (i : Inventory) (quantity : Int) (reason : String)
    (reference : Option String) (now : Time) (newID : UUID) :
    (quantity ≤ 0 →
      i.AddStock64 quantity reason reference now newID =
        (i, some "quantity must be positive")) ∧
    (0 < quantity → i.Status ≠ InventoryStatusActive →
      i.AddStock64 quantity reason reference now newID =
        (i, some "cannot add stock to inactive inventory")) ∧
    (0 < quantity → i.Status = InventoryStatusActive →
      (i.AddStock64 quantity reason reference now newID).2 = none ∧
      (i.AddStock64 quantity reason reference now newID).1.Quantity =
        wrapInt (i.Quantity + quantity) ∧
      (IsInt64 (i.Quantity + quantity) →
        (i.AddStock64 quantity reason reference now newID).1.Quantity =
          i.Quantity + quantity) ∧
      (i.AddStock64 quantity reason reference now newID).1.ReservedQuantity =
        i.ReservedQuantity ∧
      (i.AddStock64 quantity reason reference now newID).1.AvailableQuantity =
        wrapInt ((i.AddStock64 quantity reason reference now newID).1.Quantity -
          (i.AddStock64 quantity reason reference now newID).1.ReservedQuantity) ∧
      (IsInt64 ((i.AddStock64 quantity reason reference now newID).1.Quantity -
          (i.AddStock64 quantity reason reference now newID).1.ReservedQuantity) →
        (i.AddStock64 quantity reason reference now newID).1.AvailableQuantity =
          (i.AddStock64 quantity reason reference now newID).1.Quantity -
            (i.AddStock64 quantity reason reference now newID).1.ReservedQuantity) ∧
      (i.AddStock64 quantity reason reference now newID).1.StockStatus =
        derivedStockStatus (i.AddStock64 quantity reason reference now newID).1.Status
          (i.AddStock64 quantity reason reference now newID).1.AvailableQuantity
          (i.AddStock64 quantity reason reference now newID).1.LowStockThreshold ∧
      (i.AddStock64 quantity reason reference now newID).1.LastRestockedAt = some now ∧
      (i.AddStock64 quantity reason reference now newID).1.Movements =
        i.Movements ++
          [{ ID := newID, InventoryID := i.ID, Type_ := MovementTypeInbound,
             Quantity := quantity, PreviousQty := i.Quantity,
             NewQty := (i.AddStock64 quantity reason reference now newID).1.Quantity,
             Reason := reason, Reference := reference, CreatedAt := now }]) := by
  refine ⟨fun h1 => ?_, fun h1 h2 => ?_, fun h1 h2 => ?_⟩
  · unfold Inventory.AddStock64
    rw [if_pos h1]
  · have h1n : ¬ quantity ≤ 0 := by omega
    unfold Inventory.AddStock64
    rw [if_neg h1n, if_pos h2]
  · rw [AddStock64_ok _ _ _ _ _ _ h1 h2]
    exact ⟨rfl, rfl, fun h => wrapInt_of_isInt64 _ h, rfl, rfl,
      fun h => wrapInt_of_isInt64 _ h, rfl, rfl, rfl⟩

theorem AddStock_amended_witness :
    (scenarioEntry 0).Quantity = 0 ∧
      ((scenarioEntry 0).AddStock64 50 "initial load" none 101 "mov-1").2 = none ∧
      ((scenarioEntry 0).AddStock64 50 "initial load" none 101 "mov-1").1.Quantity = 0 + 50 ∧
      ((scenarioEntry 0).AddStock64 50 "initial load" none 101 "mov-1").1.AvailableQuantity =
        50 ∧
      ((scenarioEntry 0).AddStock64 50 "initial load" none 101 "mov-1").1.StockStatus =
        StockStatusInStock ∧
      ((scenarioEntry 0).AddStock64 50 "initial load" none 101 "mov-1").1.Movements.map
        (fun m => (m.Type_, m.Quantity, m.PreviousQty, m.NewQty)) =
        [(MovementTypeInbound, 50, 0, 50)] ∧
      (scenarioEntry 0).AddStock64 0 "nothing" none 101 "mov-1" =
        (scenarioEntry 0, some "quantity must be positive") ∧
      ((scenarioEntry 0).SetStatus InventoryStatusInactive 101).AddStock64 50 "load" none 102
          "mov-1" =
        ((scenarioEntry 0).SetStatus InventoryStatusInactive 101,
          some "cannot add stock to inactive inventory") :=
  ⟨by decide,
    ((AddStock_amended (scenarioEntry 0) 50 "initial load" none 101 "mov-1").2.2
      (by decide) (by decide)).1,
    ((AddStock_amended (scenarioEntry 0) 50 "initial load" none 101 "mov-1").2.2
      (by decide) (by decide)).2.2.1 ⟨by decide, by decide⟩,
    by decide, by decide, by decide,
    (AddStock_amended (scenarioEntry 0) 0 "nothing" none 101 "mov-1").1 (by decide),
    (AddStock_amended ((scenarioEntry 0).SetStatus InventoryStatusInactive 101) 50 "load" none
      102 "mov-1").2.1 (by decide) (by decide)⟩

/-! ## C11: adjusting stock -/

theorem AdjustStock64_error (i : Inventory) (newQuantity : Int) (reason : String)
    (now : Time) (newID : UUID) (h : newQuantity < 0 ∨ newQuantity < i.ReservedQuantity) :
    i.AdjustStock64 newQuantity reason now newID =
      (i, some (if newQuantity < 0 then "quantity cannot be negative"
        else "new quantity cannot be less than reserved quantity")) := by
  unfold Inventory.AdjustStock64
  by_cases h1 : newQuantity < 0
  · simp [h1]
  · have h2 : newQuantity < i.ReservedQuantity := h.resolve_left h1
    simp [h1, h2]

theorem AdjustStock64_ok (i : Inventory) (newQuantity : Int) (reason : String)
    (now : Time) (newID : UUID) (h1 : 0 ≤ newQuantity) (h2 : i.ReservedQuantity ≤ newQuantity) :
    i.AdjustStock64 newQuantity reason now newID =
      ({ i with
          Quantity := newQuantity
          AvailableQuantity := wrapInt (newQuantity - i.ReservedQuantity)
          LastCountedAt := some now
          UpdatedAt := now
          Movements := i.Movements ++
            [{ ID := newID, InventoryID := i.ID, Type_ := MovementTypeAdjustment,
               Quantity := abs64 (wrapInt (newQuantity - i.Quantity)),
               PreviousQty := i.Quantity, NewQty := newQuantity, Reason := reason,
               CreatedAt := now }]
          StockStatus := derivedStockStatus i.Status
            (wrapInt (newQuantity - i.ReservedQuantity)) i.LowStockThreshold
          TotalValue := totalValueOf newQuantity i.UnitCost }, none) := by
  unfold Inventory.AdjustStock64
  have h1n : ¬ newQuantity < 0 := by omega
  have h2n : ¬ newQuantity < i.ReservedQuantity := by omega
  simp only [h1n, h2n, if_false]
  rw [calculateTotalValue_eq, updateStockStatus_eq]

/-- C11 (as stated, refuted): the entry created with `math.MaxInt64` on hand
and restocked by 1 has `Quantity = math.MinInt64`; `AdjustStock(0)` succeeds on
it and appends an adjustment movement whose `Quantity` is `math.MinInt64`,
a negative number and not `|0 - old Quantity|`. -/
theorem AdjustStock_overflow_counterexample :
    NewInventory "product-1" "SKU-1" maxInt 100 "inv-1" = .ok (scenarioEntry maxInt) ∧
      scenarioWrapped =
        ((scenarioEntry maxInt).AddStock64 1 "restock" none 101 "mov-1").1 ∧
      scenarioWrapped.Quantity = minInt ∧ scenarioWrapped.ReservedQuantity = 0 ∧
      (scenarioWrapped.AdjustStock64 0 "count" 102 "mov-2").2 = none ∧
      (scenarioWrapped.AdjustStock64 0 "count" 102 "mov-2").1.Quantity = 0 ∧
      (scenarioWrapped.AdjustStock64 0 "count" 102 "mov-2").1.Movements.map
        (fun m => (m.Type_, m.Quantity, m.PreviousQty, m.NewQty)) =
        [(MovementTypeInbound, 1, maxInt, minInt),
         (MovementTypeAdjustment, -9223372036854775808, minInt, 0)] ∧
      (-9223372036854775808 : Int) ≠ |0 - scenarioWrapped.Quantity| :=
  ⟨rfl, rfl, by decide, by decide, by decide, by decide, by decide, by decide⟩

/-- C11 (amended): `AdjustStock` fails, leaving the entry as it was, when
`newQuantity < 0` or `newQuantity < ReservedQuantity`, and otherwise succeeds:
`Quantity` is `newQuantity`, `ReservedQuantity` is unchanged, `AvailableQuantity`
is `newQuantity - ReservedQuantity` in 64-bit arithmetic (exactly that
difference when it is an `int`), `LastCountedAt` is set, and exactly one
movement is appended, of type adjustment, with `PreviousQty` the old
`Quantity`, `NewQty = newQuantity` and `Quantity` the result of the helper `abs`
on the 64-bit difference, which is `|newQuantity - old Quantity|` whenever that
difference is an `int` other than the smallest one. -/
theorem AdjustStock_amended (i : Inventory) (newQuantity : Int) (reason : String)
    (now : Time) (newID : UUID) :
    (newQuantity < 0 ∨ newQuantity < i.ReservedQuantity →
      (i.AdjustStock64 newQuantity reason now newID).2 ≠ none ∧
      (i.AdjustStock64 newQuantity reason now newID).1 = i) ∧
    (0 ≤ newQuantity → i.ReservedQuantity ≤ newQuantity →
      (i.AdjustStock64 newQuantity reason now newID).2 = none ∧
      (i.AdjustStock64 newQuantity reason now newID).1.Quantity = newQuantity ∧
      (i.AdjustStock64 newQuantity reason now newID).1.ReservedQuantity =
        i.ReservedQuantity ∧
      (i.AdjustStock64 newQuantity reason now newID).1.AvailableQuantity =
        wrapInt (newQuantity - i.ReservedQuantity) ∧
      (IsInt64 (newQuantity - i.ReservedQuantity) →
        (i.AdjustStock64 newQuantity reason now newID).1.AvailableQuantity =
          newQuantity - i.ReservedQuantity) ∧
      (i.AdjustStock64 newQuantity reason now newID).1.LastCountedAt = some now ∧
      ∃ m : InventoryMovement,
        (i.AdjustStock64 newQuantity reason now newID).1.Movements = i.Movements ++ [m] ∧
        m.Type_ = MovementTypeAdjustment ∧ m.PreviousQty = i.Quantity ∧
        m.NewQty = newQuantity ∧
        m.Quantity = abs64 (wrapInt (newQuantity - i.Quantity)) ∧
        (minInt < newQuantity - i.Quantity → newQuantity - i.Quantity ≤ maxInt →
          m.Quantity = |newQuantity - i.Quantity|)) := by
  refine ⟨fun h => ?_, fun h1 h2 => ?_⟩
  · rw [AdjustStock64_error _ _ _ _ _ h]
    exact ⟨by simp, rfl⟩
  · rw [AdjustStock64_ok _ _ _ _ _ h1 h2]
    exact ⟨rfl, rfl, rfl, rfl, fun h => wrapInt_of_isInt64 _ h, rfl, _, rfl, rfl, rfl, rfl, rfl,
      fun ha hb => abs64_wrapInt _ ha hb⟩

theorem AdjustStock_amended_witness :
    (scenarioReserved.ReservedQuantity = 45 ∧
      (scenarioReserved.AdjustStock64 44 "count" 102 "mov-1").2 ≠ none ∧
      (scenarioReserved.AdjustStock64 44 "count" 102 "mov-1").1 = scenarioReserved) ∧
    ((scenarioReserved.AdjustStock64 47 "count" 102 "mov-1").2 = none ∧
      (scenarioReserved.AdjustStock64 47 "count" 102 "mov-1").1.Quantity = 47 ∧
      (scenarioReserved.AdjustStock64 47 "count" 102 "mov-1").1.ReservedQuantity = 45 ∧
      (scenarioReserved.AdjustStock64 47 "count" 102 "mov-1").1.AvailableQuantity = 47 - 45 ∧
      (scenarioReserved.AdjustStock64 47 "count" 102 "mov-1").1.Movements.map
        (fun m => (m.Type_, m.Quantity, m.PreviousQty, m.NewQty)) =
        [(MovementTypeAdjustment, 3, 50, 47)]) :=
  ⟨⟨by decide,
      (AdjustStock_amended scenarioReserved 44 "count" 102 "mov-1").1 (Or.inr (by decide))⟩,
    ⟨((AdjustStock_amended scenarioReserved 47 "count" 102 "mov-1").2
        (by decide) (by decide)).1,
      ((AdjustStock_amended scenarioReserved 47 "count" 102 "mov-1").2
        (by decide) (by decide)).2.1,
      by decide,
      ((AdjustStock_amended scenarioReserved 47 "count" 102 "mov-1").2
        (by decide) (by decide)).2.2.2.2.1 ⟨by decide, by decide⟩,
      by decide⟩⟩

/-! ## C19: one movement per change of quantity -/

theorem RemoveStock64_error (i : Inventory) (quantity : Int) (reason : String)
    (reference : Option String) (now : Time) (newID : UUID)
    (h : quantity ≤ 0 ∨ quantity > i.AvailableQuantity) :
    i.RemoveStock64 quantity reason reference now newID =
      (i, some (if quantity ≤ 0 then "quantity must be positive"
        else "insufficient available stock")) := by
  unfold Inventory.RemoveStock64
  by_cases h1 : quantity ≤ 0
  · simp [h1]
  · have h2 : quantity > i.AvailableQuantity := h.resolve_left h1
    simp [h1, h2]

theorem RemoveStock64_ok (i : Inventory) (quantity : Int) (reason : String)
    (reference : Option String) (now : Time) (newID : UUID)
    (h1 : 0 < quantity) (h2 : quantity ≤ i.AvailableQuantity) :
    i.RemoveStock64 quantity reason reference now newID =
      ({ i with
          Quantity := wrapInt (i.Quantity - quantity)
          AvailableQuantity := wrapInt (wrapInt (i.Quantity - quantity) - i.ReservedQuantity)
          LastSoldAt := some now
          UpdatedAt := now
          Movements := i.Movements ++
            [{ ID := newID, InventoryID := i.ID, Type_ := MovementTypeOutbound,
               Quantity := quantity, PreviousQty := i.Quantity,
               NewQty := wrapInt (i.Quantity - quantity), Reason := reason,
               Reference := reference, CreatedAt := now }]
          StockStatus := derivedStockStatus i.Status
            (wrapInt (wrapInt (i.Quantity - quantity) - i.ReservedQuantity)) i.LowStockThreshold
          TotalValue := totalValueOf (wrapInt (i.Quantity - quantity)) i.UnitCost }, none) := by
  unfold Inventory.RemoveStock64
  have h1n : ¬ quantity ≤ 0 := by omega
  have h2n : ¬ quantity > i.AvailableQuantity := by omega
  simp only [h1n, h2n, if_false]
  rw [calculateTotalValue_eq, updateStockStatus_eq]

theorem ReserveStock64_quantity (i : Inventory) (quantity : Int) (orderID : UUID)
    (expiresAt : Option Time) (now : Time) (newID : UUID) :
    (i.ReserveStock64 quantity orderID expiresAt now newID).1.Quantity = i.Quantity ∧
      (i.ReserveStock64 quantity orderID expiresAt now newID).1.Movements = i.Movements := by
  unfold Inventory.ReserveStock64
  split_ifs
  · exact ⟨rfl, rfl⟩
  · exact ⟨rfl, rfl⟩
  · simp only [updateStockStatus_Quantity, updateStockStatus_Movements, and_self]

theorem ReleaseReservation64_quantity (i : Inventory) (reservationID : UUID) (now : Time) :
    (i.ReleaseReservation64 reservationID now).1.Quantity = i.Quantity ∧
      (i.ReleaseReservation64 reservationID now).1.Movements = i.Movements := by
  unfold Inventory.ReleaseReservation64
  cases hfind : findReservation i.Reservations reservationID with
  | none => exact ⟨rfl, rfl⟩
  | some p =>
    obtain ⟨idx, r⟩ := p
    by_cases hact : r.Status = ReservationStatusActive
    · simp only [hact, ne_eq, not_true_eq_false, if_false, updateStockStatus_Quantity,
        updateStockStatus_Movements, and_self]
    · simp only [hact, ne_eq, not_false_eq_true, if_true, and_self]

/-- The ways `FulfillReservation` can go over 64-bit integers, with what it
leaves of the quantity and the movement log. -/
theorem FulfillReservation64_cases (i : Inventory) (reservationID : UUID) (now : Time)
    (newID : UUID) :
    ((i.FulfillReservation64 reservationID now newID).2 ≠ none ∧
      (i.FulfillReservation64 reservationID now newID).1 = i) ∨
    ∃ (r : InventoryReservation),
      0 < r.Quantity ∧
      (i.FulfillReservation64 reservationID now newID).1.Quantity =
        wrapInt (i.Quantity - r.Quantity) ∧
      (i.FulfillReservation64 reservationID now newID).1.Movements =
        i.Movements ++
          [{ ID := newID, InventoryID := i.ID, Type_ := MovementTypeOutbound,
             Quantity := r.Quantity, PreviousQty := i.Quantity,
             NewQty := wrapInt (i.Quantity - r.Quantity), Reason := "Order fulfillment",
             Reference := some r.OrderID, CreatedAt := now }] := by
  unfold Inventory.FulfillReservation64
  cases hfind : findReservation i.Reservations reservationID with
  | none => left; simp
  | some p =>
    obtain ⟨idx, r⟩ := p
    by_cases hact : r.Status = ReservationStatusActive
    · by_cases hq : 0 < r.Quantity ∧ r.Quantity ≤ i.AvailableQuantity
      · right
        refine ⟨r, hq.1, ?_⟩
        simp only [hact, ne_eq, not_true_eq_false, if_false]
        rw [RemoveStock64_ok _ _ _ _ _ _ hq.1 hq.2]
        exact ⟨rfl, rfl⟩
      · left
        have hq2 : r.Quantity ≤ 0 ∨ r.Quantity > i.AvailableQuantity := by omega
        simp only [hact, ne_eq, not_true_eq_false, if_false]
        rw [RemoveStock64_error _ _ _ _ _ _ hq2]
        simp
    · left
      simp [hact]

theorem abs64_wrapInt_add (p q : Int) (h0 : 0 < q) (hq : IsInt64 q) :
    q = abs64 (wrapInt (wrapInt (p + q) - p)) := by
  unfold IsInt64 minInt maxInt at hq
  have h1 : wrapInt (wrapInt (p + q) - p) = q := by
    unfold wrapInt minInt
    omega
  rw [h1]
  unfold abs64
  rw [if_neg (by omega)]

theorem abs64_wrapInt_sub (p q : Int) (h0 : 0 < q) (hq : IsInt64 q) :
    q = abs64 (wrapInt (wrapInt (p - q) - p)) := by
  unfold IsInt64 minInt maxInt at hq
  have h1 : wrapInt (wrapInt (p - q) - p) = -q := by
    unfold wrapInt minInt
    omega
  rw [h1]
  unfold abs64
  rw [if_pos (by omega), neg_neg]
  unfold wrapInt minInt
  omega

/-- What a movement appended by a call over 64-bit integers records about the
quantity. -/
theorem call64_movement_cases (i : Inventory) (op : Op) :
    ((i.call64 op).1.Quantity = i.Quantity ∧ (i.call64 op).1.Movements = i.Movements) ∨
    ∃ m : InventoryMovement,
      (i.call64 op).1.Movements = i.Movements ++ [m] ∧
      m.PreviousQty = i.Quantity ∧ m.NewQty = (i.call64 op).1.Quantity ∧
      (m.Type_ = MovementTypeInbound →
        0 < m.Quantity ∧ m.NewQty = wrapInt (m.PreviousQty + m.Quantity)) ∧
      (m.Type_ = MovementTypeOutbound →
        0 < m.Quantity ∧ m.NewQty = wrapInt (m.PreviousQty - m.Quantity)) ∧
      (IsInt64 m.Quantity → m.Quantity = abs64 (wrapInt (m.NewQty - m.PreviousQty))) := by
  cases op with
  | AddStock quantity reason reference now newID =>
    by_cases h : 0 < quantity ∧ i.Status = InventoryStatusActive
    · right
      simp only [Inventory.call64, AddStock64_ok i quantity reason reference now newID h.1 h.2]
      exact ⟨_, rfl, rfl, rfl, fun _ => ⟨h.1, rfl⟩, fun h0 => absurd h0 inbound_ne_outbound,
        fun hq => abs64_wrapInt_add _ _ h.1 hq⟩
    · left
      simp only [Inventory.call64, Inventory.AddStock64]
      split_ifs with h1 h2
      · exact ⟨rfl, rfl⟩
      · exact ⟨rfl, rfl⟩
      · exact absurd ⟨not_le.mp h1, not_not.mp h2⟩ h
  | RemoveStock quantity reason reference now newID =>
    by_cases h : 0 < quantity ∧ quantity ≤ i.AvailableQuantity
    · right
      simp only [Inventory.call64, RemoveStock64_ok i quantity reason reference now newID h.1 h.2]
      exact ⟨_, rfl, rfl, rfl, fun h0 => absurd h0 inbound_ne_outbound.symm,
        fun _ => ⟨h.1, rfl⟩, fun hq => abs64_wrapInt_sub _ _ h.1 hq⟩
    · left
      simp only [Inventory.call64,
        RemoveStock64_error i quantity reason reference now newID (by omega), and_self]
  | ReserveStock quantity orderID expiresAt now newID =>
    exact Or.inl (ReserveStock64_quantity i quantity orderID expiresAt now newID)
  | ReleaseReservation reservationID now =>
    exact Or.inl (ReleaseReservation64_quantity i reservationID now)
  | FulfillReservation reservationID now newID =>
    rcases FulfillReservation64_cases i reservationID now newID with h | ⟨r, hpos, hq, hm⟩
    · left
      simp only [Inventory.call64, h.2, and_self]
    · right
      simp only [Inventory.call64]
      rw [hq, hm]
      exact ⟨_, rfl, rfl, rfl, fun h0 => absurd h0 inbound_ne_outbound.symm,
        fun _ => ⟨hpos, rfl⟩, fun hr => abs64_wrapInt_sub _ _ hpos hr⟩
  | AdjustStock newQuantity reason now newID =>
    by_cases h : 0 ≤ newQuantity ∧ i.ReservedQuantity ≤ newQuantity
    · right
      simp only [Inventory.call64, AdjustStock64_ok i newQuantity reason now newID h.1 h.2]
      exact ⟨_, rfl, rfl, rfl, fun h0 => absurd h0 adjustment_ne_inbound,
        fun h0 => absurd h0 adjustment_ne_outbound, fun _ => rfl⟩
    · left
      simp only [Inventory.call64, AdjustStock64_error i newQuantity reason now newID (by omega),
        and_self]
  | SetThresholds lowStock reorderPoint maxStock now =>
    left
    by_cases h : 0 ≤ reorderPoint ∧ reorderPoint ≤ lowStock ∧ lowStock ≤ maxStock
    · simp only [Inventory.call64, SetThresholds_ok i _ _ _ now h.1 h.2.1 h.2.2, and_self]
    · simp only [Inventory.call64, (SetThresholds_error i _ _ _ now h).2, and_self]
  | SetLocation warehouseID location bin now => exact Or.inl ⟨rfl, rfl⟩
  | SetSupplierInfo supplierID supplierSKU leadTimeDays now => exact Or.inl ⟨rfl, rfl⟩
  | SetUnitCost cost now =>
    left
    simp only [Inventory.call64, Inventory.SetUnitCost]
    split_ifs <;> simp
  | SetStatus status now =>
    left
    simp only [Inventory.call64, Inventory.SetStatus]
    split_ifs <;> simp
  | SetNotes notes now => exact Or.inl ⟨rfl, rfl⟩
  | AddMetadata key value now => exact Or.inl ⟨rfl, rfl⟩

/-- C19 (as stated, refuted): on the new entry of 50, the call
`AddStock(math.MaxInt64)` succeeds and changes `Quantity`, and the one movement
it appends is inbound with `Quantity` 9223372036854775807, `PreviousQty` 50 and
`NewQty` -9223372036854775759: `NewQty` is not `PreviousQty + Quantity`, and
`Quantity` is not `|NewQty - PreviousQty|`. -/
theorem movement_overflow_counterexample :
    NewInventory "product-1" "SKU-1" 50 100 "inv-1" = .ok (scenarioEntry 50) ∧
      ((scenarioEntry 50).call64 (.AddStock maxInt "restock" none 101 "mov-1")).2 = none ∧
      ((scenarioEntry 50).call64 (.AddStock maxInt "restock" none 101 "mov-1")).1.Quantity ≠
        (scenarioEntry 50).Quantity ∧
      ((scenarioEntry 50).call64 (.AddStock maxInt "restock" none 101 "mov-1")).1.Movements.map
        (fun m => (m.Type_, m.Quantity, m.PreviousQty, m.NewQty)) =
        (scenarioEntry 50).Movements.map
          (fun m => (m.Type_, m.Quantity, m.PreviousQty, m.NewQty)) ++
        [(MovementTypeInbound, 9223372036854775807, 50, -9223372036854775759)] ∧
      (-9223372036854775759 : Int) ≠ 50 + 9223372036854775807 ∧
      (9223372036854775807 : Int) ≠ |(-9223372036854775759) - 50| :=
  ⟨rfl, by decide, by decide, by decide, by decide, by decide⟩

/-- C19 (amended): for every call of an `Inventory` method that changes
`Quantity`, exactly one movement `m` is appended to `Movements`, with
`m.PreviousQty` the `Quantity` before the call and `m.NewQty` the `Quantity`
after it; in 64-bit arithmetic `m.NewQty = m.PreviousQty + m.Quantity` when `m`
is inbound, `m.NewQty = m.PreviousQty - m.Quantity` when `m` is outbound, and
`m.Quantity` is what the helper `abs` returns on `m.NewQty - m.PreviousQty`;
whenever `m.NewQty - m.PreviousQty` is an `int` other than the smallest one
(the call did not overflow), these hold exactly: `m.Quantity =
|m.NewQty - m.PreviousQty|`, with `m.NewQty = m.PreviousQty + m.Quantity` for
inbound and `m.NewQty = m.PreviousQty - m.Quantity` for outbound. Every call
that appends no movement leaves `Quantity` unchanged. (`m.Quantity` being an
`int`, as every value a Go caller passes or the entry stores is, is a
hypothesis where it is needed.) -/
theorem movement_amended (i : Inventory) (op : Op) :
    ((i.call64 op).1.Quantity ≠ i.Quantity →
      ∃ m : InventoryMovement,
        (i.call64 op).1.Movements = i.Movements ++ [m] ∧
        m.PreviousQty = i.Quantity ∧ m.NewQty = (i.call64 op).1.Quantity ∧
        (m.Type_ = MovementTypeInbound → m.NewQty = wrapInt (m.PreviousQty + m.Quantity)) ∧
        (m.Type_ = MovementTypeOutbound → m.NewQty = wrapInt (m.PreviousQty - m.Quantity)) ∧
        (IsInt64 m.Quantity → m.Quantity = abs64 (wrapInt (m.NewQty - m.PreviousQty))) ∧
        (IsInt64 m.Quantity → minInt < m.NewQty - m.PreviousQty →
          m.NewQty - m.PreviousQty ≤ maxInt →
          m.Quantity = |m.NewQty - m.PreviousQty| ∧
          (m.Type_ = MovementTypeInbound → m.NewQty = m.PreviousQty + m.Quantity) ∧
          (m.Type_ = MovementTypeOutbound → m.NewQty = m.PreviousQty - m.Quantity))) ∧
    ((i.call64 op).1.Movements = i.Movements → (i.call64 op).1.Quantity = i.Quantity) := by
  rcases call64_movement_cases i op with h | ⟨m, hm, hprev, hnew, hin, hout, habs⟩
  · exact ⟨fun hne => absurd h.1 hne, fun _ => h.1⟩
  · refine ⟨fun _ => ⟨m, hm, hprev, hnew, fun h => (hin h).2, fun h => (hout h).2, habs,
      fun hq hlo hhi => ⟨?_, fun h => ?_, fun h => ?_⟩⟩, fun heq => ?_⟩
    · rw [habs hq]
      exact abs64_wrapInt _ hlo hhi
    · obtain ⟨hpos, hw⟩ := hin h
      unfold IsInt64 minInt maxInt at hq
      unfold minInt at hlo
      unfold maxInt at hhi
      unfold wrapInt minInt at hw
      omega
    · obtain ⟨hpos, hw⟩ := hout h
      unfold IsInt64 minInt maxInt at hq
      unfold minInt at hlo
      unfold maxInt at hhi
      unfold wrapInt minInt at hw
      omega
    · rw [hm] at heq
      have hlen := congrArg List.length heq
      simp at hlen

theorem movement_amended_witness :
    (scenarioReserved.call64 (.RemoveStock 5 "sale" none 102 "mov-1")).1.Quantity ≠
        scenarioReserved.Quantity ∧
      ∃ m : InventoryMovement,
        (scenarioReserved.call64 (.RemoveStock 5 "sale" none 102 "mov-1")).1.Movements =
          scenarioReserved.Movements ++ [m] ∧
        m.PreviousQty = 50 ∧ m.NewQty = 45 ∧ m.Type_ = MovementTypeOutbound ∧
        m.Quantity = |m.NewQty - m.PreviousQty| ∧ m.NewQty = m.PreviousQty - m.Quantity := by
  have hne : (scenarioReserved.call64 (.RemoveStock 5 "sale" none 102 "mov-1")).1.Quantity ≠
      scenarioReserved.Quantity := by decide
  refine ⟨hne, ?_⟩
  obtain ⟨m, hm, hprev, hnew, _, _, _, hexact⟩ :=
    (movement_amended scenarioReserved (.RemoveStock 5 "sale" none 102 "mov-1")).1 hne
  have hmov : (scenarioReserved.call64 (.RemoveStock 5 "sale" none 102 "mov-1")).1.Movements =
      scenarioReserved.Movements ++
        [{ ID := "mov-1", InventoryID := "inv-1", Type_ := MovementTypeOutbound, Quantity := 5,
           PreviousQty := 50, NewQty := 45, Reason := "sale", Reference := none,
           CreatedAt := 102 }] := by decide
  have hm2 := hm
  rw [hmov] at hm2
  have hmeq := (List.append_cancel_left hm2).symm
  rw [List.singleton_inj] at hmeq
  subst hmeq
  have hx := hexact ⟨by decide, by decide⟩ (by decide) (by decide)
  exact ⟨_, hm, rfl, rfl, rfl, hx.1, hx.2.2 rfl⟩

/-! ## C23: two reserves in flight on one entry -/

/-- Run one after the other on an entry with 10 available and coherent
counters, two `ReserveStock` calls of 8 give one success and one
insufficient-stock failure, in that order. -/
theorem serial_reserves (i : Inventory) (orderA orderB : UUID) (expA expB : Option Time)
    (nowA nowB : Time) (idA idB : UUID) (havail : i.AvailableQuantity = 10)
    (hcoh : i.AvailableQuantity = i.Quantity - i.ReservedQuantity) :
    (i.ReserveStock 8 orderA expA nowA idA).2 = none ∧
      ((i.ReserveStock 8 orderA expA nowA idA).1.ReserveStock 8 orderB expB nowB idB).2 =
        some "insufficient available stock for reservation" := by
  rw [ReserveStock_ok i 8 orderA expA nowA idA (by decide) (by omega)]
  refine ⟨rfl, ?_⟩
  rw [ReserveStock_error _ 8 orderB expB nowB idB
    (Or.inr (by show (8 : Int) > i.Quantity - (i.ReservedQuantity + 8); omega))]
  rfl

theorem ReserveStock64_error (i : Inventory) (quantity : Int) (orderID : UUID)
    (expiresAt : Option Time) (now : Time) (newID : UUID)
    (h : quantity ≤ 0 ∨ quantity > i.AvailableQuantity) :
    i.ReserveStock64 quantity orderID expiresAt now newID =
      (i, some (if quantity ≤ 0 then "quantity must be positive"
        else "insufficient available stock for reservation")) := by
  unfold Inventory.ReserveStock64
  by_cases h1 : quantity ≤ 0
  · simp [h1]
  · have h2 : quantity > i.AvailableQuantity := h.resolve_left h1
    simp [h1, h2]

theorem ReserveStock64_ok (i : Inventory) (quantity : Int) (orderID : UUID)
    (expiresAt : Option Time) (now : Time) (newID : UUID)
    (h1 : 0 < quantity) (h2 : quantity ≤ i.AvailableQuantity) :
    i.ReserveStock64 quantity orderID expiresAt now newID =
      ({ i with
          Reservations := i.Reservations ++
            [{ ID := newID, InventoryID := i.ID, OrderID := orderID, Quantity := quantity,
               Status := ReservationStatusActive, ExpiresAt := expiresAt, CreatedAt := now }]
          ReservedQuantity := wrapInt (i.ReservedQuantity + quantity)
          AvailableQuantity := wrapInt (i.Quantity - wrapInt (i.ReservedQuantity + quantity))
          UpdatedAt := now
          StockStatus := derivedStockStatus i.Status
            (wrapInt (i.Quantity - wrapInt (i.ReservedQuantity + quantity)))
            i.LowStockThreshold }, none) := by
  unfold Inventory.ReserveStock64
  have h1n : ¬ quantity ≤ 0 := by omega
  have h2n : ¬ quantity > i.AvailableQuantity := by omega
  simp only [h1n, h2n, if_false]
  rw [updateStockStatus_eq]

/-- The method `ReserveStock` is its guards followed by its writes. -/
theorem ReserveStock64_check_write (i : Inventory) (quantity : Int) (orderID : UUID)
    (expiresAt : Option Time) (now : Time) (newID : UUID) :
    i.ReserveStock64 quantity orderID expiresAt now newID =
      match i.reserveCheck quantity with
      | some err => (i, some err)
      | none => (i.reserveWrite64 quantity orderID expiresAt now newID, none) := by
  unfold Inventory.ReserveStock64 Inventory.reserveCheck Inventory.reserveWrite64
  split_ifs <;> rfl

theorem reserveCheck_none (i : Inventory) (quantity : Int) (h1 : 0 < quantity)
    (h2 : quantity ≤ i.AvailableQuantity) : i.reserveCheck quantity = none := by
  unfold Inventory.reserveCheck
  rw [if_neg (by omega), if_neg (by omega)]

theorem reserveWrite64_eq (i : Inventory) (quantity : Int) (orderID : UUID)
    (expiresAt : Option Time) (now : Time) (newID : UUID) :
    i.reserveWrite64 quantity orderID expiresAt now newID =
      { i with
          Reservations := i.Reservations ++
            [{ ID := newID, InventoryID := i.ID, OrderID := orderID, Quantity := quantity,
               Status := ReservationStatusActive, ExpiresAt := expiresAt, CreatedAt := now }]
          ReservedQuantity := wrapInt (i.ReservedQuantity + quantity)
          AvailableQuantity := wrapInt (i.Quantity - wrapInt (i.ReservedQuantity + quantity))
          UpdatedAt := now
          StockStatus := derivedStockStatus i.Status
            (wrapInt (i.Quantity - wrapInt (i.ReservedQuantity + quantity)))
            i.LowStockThreshold } := by
  unfold Inventory.reserveWrite64
  simp only
  rw [updateStockStatus_eq]

/-- A call that takes its two steps with nothing in between is the method
`ReserveStock`. -/
theorem ReserveCall.step_step (c : ReserveCall) (i : Inventory) :
    c.step (c.step i .ready).1 (c.step i .ready).2 =
      ((i.ReserveStock64 c.quantity c.orderID c.expiresAt c.now c.newID).1,
        .returned (i.ReserveStock64 c.quantity c.orderID c.expiresAt c.now c.newID).2) := by
  rw [ReserveStock64_check_write]
  unfold ReserveCall.step
  cases h : i.reserveCheck c.quantity with
  | none => rfl
  | some err => rfl

/-- Under a schedule that lets the first call return before the second starts,
the two calls are two calls of `ReserveStock`, one after the other. -/
theorem TwoReserves.run_serial (a b : ReserveCall) (i : Inventory) :
    TwoReserves.run a b i [.A, .A, .B, .B] =
      { entry :=
          ((i.ReserveStock64 a.quantity a.orderID a.expiresAt a.now a.newID).1.ReserveStock64
            b.quantity b.orderID b.expiresAt b.now b.newID).1
        phaseA := .returned (i.ReserveStock64 a.quantity a.orderID a.expiresAt a.now a.newID).2
        phaseB := .returned
          ((i.ReserveStock64 a.quantity a.orderID a.expiresAt a.now a.newID).1.ReserveStock64
            b.quantity b.orderID b.expiresAt b.now b.newID).2 } := by
  simp only [TwoReserves.run, List.foldl_cons, List.foldl_nil, TwoReserves.step]
  rw [ReserveCall.step_step a i, ReserveCall.step_step b]

/-- The same with the second caller first. -/
theorem TwoReserves.run_serial_rev (a b : ReserveCall) (i : Inventory) :
    TwoReserves.run a b i [.B, .B, .A, .A] =
      { entry :=
          ((i.ReserveStock64 b.quantity b.orderID b.expiresAt b.now b.newID).1.ReserveStock64
            a.quantity a.orderID a.expiresAt a.now a.newID).1
        phaseA := .returned
          ((i.ReserveStock64 b.quantity b.orderID b.expiresAt b.now b.newID).1.ReserveStock64
            a.quantity a.orderID a.expiresAt a.now a.newID).2
        phaseB :=
          .returned (i.ReserveStock64 b.quantity b.orderID b.expiresAt b.now b.newID).2 } := by
  simp only [TwoReserves.run, List.foldl_cons, List.foldl_nil, TwoReserves.step]
  rw [ReserveCall.step_step b i, ReserveCall.step_step a]

theorem ReserveCall.step_ready_of_none (c : ReserveCall) (i : Inventory)
    (h : i.reserveCheck c.quantity = none) : c.step i .ready = (i, .passed) := by
  unfold ReserveCall.step
  rw [h]

theorem ReserveCall.step_passed (c : ReserveCall) (i : Inventory) :
    c.step i .passed =
      (i.reserveWrite64 c.quantity c.orderID c.expiresAt c.now c.newID, .returned none) := rfl

/-- Run one after the other over 64-bit integers on an entry with 10 available
and coherent counters, two `ReserveStock` calls of 8 give one success and one
insufficient-stock failure, which leaves the entry as the first call left it. -/
theorem serial_reserves64 (i : Inventory) (x y : ReserveCall)
    (havail : i.AvailableQuantity = 10)
    (hcoh : i.AvailableQuantity = wrapInt (i.Quantity - i.ReservedQuantity))
    (hx : x.quantity = 8) (hy : y.quantity = 8) :
    (i.ReserveStock64 x.quantity x.orderID x.expiresAt x.now x.newID).2 = none ∧
      (i.ReserveStock64 x.quantity x.orderID x.expiresAt x.now x.newID).1.ReserveStock64
          y.quantity y.orderID y.expiresAt y.now y.newID =
        ((i.ReserveStock64 x.quantity x.orderID x.expiresAt x.now x.newID).1,
          some "insufficient available stock for reservation") := by
  rw [hx, hy, ReserveStock64_ok i 8 x.orderID x.expiresAt x.now x.newID (by decide) (by omega)]
  refine ⟨rfl, ?_⟩
  have h2 : wrapInt (i.Quantity - wrapInt (i.ReservedQuantity + 8)) = 2 := by
    rw [havail] at hcoh
    unfold wrapInt minInt at hcoh ⊢
    omega
  rw [ReserveStock64_error _ 8 y.orderID y.expiresAt y.now y.newID
    (Or.inr (by show (8 : Int) > wrapInt (i.Quantity - wrapInt (i.ReservedQuantity + 8)); omega))]
  rfl

/-- Where two calls of 8 leave an entry with 10 available when both have passed
the guards before either writes. -/
theorem reserveWrite64_twice (i : Inventory) (a b : ReserveCall)
    (havail : i.AvailableQuantity = 10)
    (hcoh : i.AvailableQuantity = wrapInt (i.Quantity - i.ReservedQuantity))
    (ha : a.quantity = 8) (hb : b.quantity = 8) :
    ((i.reserveWrite64 a.quantity a.orderID a.expiresAt a.now a.newID).reserveWrite64
        b.quantity b.orderID b.expiresAt b.now b.newID).ReservedQuantity =
      wrapInt (i.ReservedQuantity + 16) ∧
    ((i.reserveWrite64 a.quantity a.orderID a.expiresAt a.now a.newID).reserveWrite64
        b.quantity b.orderID b.expiresAt b.now b.newID).AvailableQuantity = -6 ∧
    ((i.reserveWrite64 a.quantity a.orderID a.expiresAt a.now a.newID).reserveWrite64
        b.quantity b.orderID b.expiresAt b.now b.newID).Quantity = i.Quantity := by
  rw [reserveWrite64_eq, reserveWrite64_eq, ha, hb]
  rw [havail] at hcoh
  refine ⟨?_, ?_, rfl⟩
  · show wrapInt (wrapInt (i.ReservedQuantity + 8) + 8) = wrapInt (i.ReservedQuantity + 16)
    unfold wrapInt minInt
    omega
  · show wrapInt (i.Quantity - wrapInt (wrapInt (i.ReservedQuantity + 8) + 8)) = -6
    unfold wrapInt minInt at hcoh ⊢
    omega

/-- C23 (as stated, refuted): on the new entry of 10, with 10 available, two
`ReserveStock` calls of 8 whose steps alternate (A passes the stock check, B
passes the stock check, A writes, B writes) both return no error; the entry is
left with two active reservations of 8, `ReservedQuantity` 16 and
`AvailableQuantity` -6, on `Quantity` 10. -/
theorem reserves_interleaved_counterexample :
    NewInventory "product-1" "SKU-1" 10 100 "inv-1" = .ok (scenarioEntry 10) ∧
      (scenarioEntry 10).AvailableQuantity = 10 ∧
      scenarioCallA.quantity = 8 ∧ scenarioCallB.quantity = 8 ∧
      (TwoReserves.run scenarioCallA scenarioCallB (scenarioEntry 10)
        [.A, .B, .A, .B]).phaseA = .returned none ∧
      (TwoReserves.run scenarioCallA scenarioCallB (scenarioEntry 10)
        [.A, .B, .A, .B]).phaseB = .returned none ∧
      (TwoReserves.run scenarioCallA scenarioCallB (scenarioEntry 10)
        [.A, .B, .A, .B]).entry.Quantity = 10 ∧
      (TwoReserves.run scenarioCallA scenarioCallB (scenarioEntry 10)
        [.A, .B, .A, .B]).entry.ReservedQuantity = 16 ∧
      (TwoReserves.run scenarioCallA scenarioCallB (scenarioEntry 10)
        [.A, .B, .A, .B]).entry.AvailableQuantity = -6 ∧
      (TwoReserves.run scenarioCallA scenarioCallB (scenarioEntry 10)
        [.A, .B, .A, .B]).entry.Reservations.map (fun r => (r.ID, r.Status, r.Quantity)) =
        [("res-A", ReservationStatusActive, 8), ("res-B", ReservationStatusActive, 8)] :=
  ⟨rfl, by decide, rfl, rfl, by decide, by decide, by decide, by decide, by decide, by decide⟩

/-- C23 (amended): on an entry with `AvailableQuantity = 10`, that being
`Quantity - ReservedQuantity` as an `int`, two `ReserveStock` calls of 8 give
exactly one success and one insufficient-stock failure when one call returns
before the other starts (the two calls are then two calls of the method, one
after the other, and the entry is the one the first call leaves).
`ReserveStock` holds no lock: under each of the four schedules in which both
calls pass the stock check before either writes, both succeed, and, the writes
of a call taken as one step, the entry is left with `ReservedQuantity`
increased by 16 (in 64-bit arithmetic, exactly so when the sum is an `int`)
and `AvailableQuantity = -6`. -/
theorem reserves_amended (i : Inventory) (a b : ReserveCall)
    (havail : i.AvailableQuantity = 10)
    (hcoh : i.AvailableQuantity = wrapInt (i.Quantity - i.ReservedQuantity))
    (ha : a.quantity = 8) (hb : b.quantity = 8) :
    ((TwoReserves.run a b i [.A, .A, .B, .B]).phaseA = .returned none ∧
      (TwoReserves.run a b i [.A, .A, .B, .B]).phaseB =
        .returned (some "insufficient available stock for reservation") ∧
      (TwoReserves.run a b i [.A, .A, .B, .B]).entry =
        (i.ReserveStock64 a.quantity a.orderID a.expiresAt a.now a.newID).1) ∧
    ((TwoReserves.run a b i [.B, .B, .A, .A]).phaseB = .returned none ∧
      (TwoReserves.run a b i [.B, .B, .A, .A]).phaseA =
        .returned (some "insufficient available stock for reservation") ∧
      (TwoReserves.run a b i [.B, .B, .A, .A]).entry =
        (i.ReserveStock64 b.quantity b.orderID b.expiresAt b.now b.newID).1) ∧
    (∀ schedule ∈ [[Turn.A, .B, .A, .B], [.A, .B, .B, .A], [.B, .A, .A, .B], [.B, .A, .B, .A]],
      (TwoReserves.run a b i schedule).phaseA = .returned none ∧
      (TwoReserves.run a b i schedule).phaseB = .returned none ∧
      (TwoReserves.run a b i schedule).entry.ReservedQuantity =
        wrapInt (i.ReservedQuantity + 16) ∧
      (IsInt64 (i.ReservedQuantity + 16) →
        (TwoReserves.run a b i schedule).entry.ReservedQuantity = i.ReservedQuantity + 16) ∧
      (TwoReserves.run a b i schedule).entry.AvailableQuantity = -6 ∧
      (TwoReserves.run a b i schedule).entry.Quantity = i.Quantity) := by
  have hA : i.reserveCheck a.quantity = none :=
    reserveCheck_none i a.quantity (by omega) (by omega)
  have hB : i.reserveCheck b.quantity = none :=
    reserveCheck_none i b.quantity (by omega) (by omega)
  have hab := reserveWrite64_twice i a b havail hcoh ha hb
  have hba := reserveWrite64_twice i b a havail hcoh hb ha
  refine ⟨?_, ?_, ?_⟩
  · rw [TwoReserves.run_serial]
    obtain ⟨h1, h2⟩ := serial_reserves64 i a b havail hcoh ha hb
    exact ⟨congrArg ReservePhase.returned h1, by rw [h2], by rw [h2]⟩
  · rw [TwoReserves.run_serial_rev]
    obtain ⟨h1, h2⟩ := serial_reserves64 i b a havail hcoh hb ha
    exact ⟨congrArg ReservePhase.returned h1, by rw [h2], by rw [h2]⟩
  · intro schedule hs
    simp only [List.mem_cons, List.mem_singleton, List.not_mem_nil, or_false] at hs
    rcases hs with rfl | rfl | rfl | rfl
    · simp only [TwoReserves.run, List.foldl_cons, List.foldl_nil, TwoReserves.step,
        ReserveCall.step_ready_of_none a i hA, ReserveCall.step_ready_of_none b i hB,
        ReserveCall.step_passed]
      exact ⟨trivial, trivial, hab.1, fun h => hab.1.trans (wrapInt_of_isInt64 _ h), hab.2⟩
    · simp only [TwoReserves.run, List.foldl_cons, List.foldl_nil, TwoReserves.step,
        ReserveCall.step_ready_of_none a i hA, ReserveCall.step_ready_of_none b i hB,
        ReserveCall.step_passed]
      exact ⟨trivial, trivial, hba.1, fun h => hba.1.trans (wrapInt_of_isInt64 _ h), hba.2⟩
    · simp only [TwoReserves.run, List.foldl_cons, List.foldl_nil, TwoReserves.step,
        ReserveCall.step_ready_of_none a i hA, ReserveCall.step_ready_of_none b i hB,
        ReserveCall.step_passed]
      exact ⟨trivial, trivial, hab.1, fun h => hab.1.trans (wrapInt_of_isInt64 _ h), hab.2⟩
    · simp only [TwoReserves.run, List.foldl_cons, List.foldl_nil, TwoReserves.step,
        ReserveCall.step_ready_of_none a i hA, ReserveCall.step_ready_of_none b i hB,
        ReserveCall.step_passed]
      exact ⟨trivial, trivial, hba.1, fun h => hba.1.trans (wrapInt_of_isInt64 _ h), hba.2⟩

theorem reserves_amended_witness :
    (scenarioEntry 10).AvailableQuantity = 10 ∧
      (scenarioEntry 10).AvailableQuantity =
        wrapInt ((scenarioEntry 10).Quantity - (scenarioEntry 10).ReservedQuantity) ∧
      (TwoReserves.run scenarioCallA scenarioCallB (scenarioEntry 10)
        [.A, .A, .B, .B]).phaseA = .returned none ∧
      (TwoReserves.run scenarioCallA scenarioCallB (scenarioEntry 10)
        [.A, .A, .B, .B]).phaseB =
        .returned (some "insufficient available stock for reservation") ∧
      (TwoReserves.run scenarioCallA scenarioCallB (scenarioEntry 10)
        [.B, .A, .A, .B]).phaseA = .returned none ∧
      (TwoReserves.run scenarioCallA scenarioCallB (scenarioEntry 10)
        [.B, .A, .A, .B]).phaseB = .returned none ∧
      (TwoReserves.run scenarioCallA scenarioCallB (scenarioEntry 10)
        [.B, .A, .A, .B]).entry.AvailableQuantity = -6 :=
  ⟨by decide, by decide,
    (reserves_amended (scenarioEntry 10) scenarioCallA scenarioCallB (by decide) (by decide)
      rfl rfl).1.1,
    (reserves_amended (scenarioEntry 10) scenarioCallA scenarioCallB (by decide) (by decide)
      rfl rfl).1.2.1,
    ((reserves_amended (scenarioEntry 10) scenarioCallA scenarioCallB (by decide) (by decide)
      rfl rfl).2.2 [.B, .A, .A, .B] (by decide)).1,
    ((reserves_amended (scenarioEntry 10) scenarioCallA scenarioCallB (by decide) (by decide)
      rfl rfl).2.2 [.B, .A, .A, .B] (by decide)).2.1,
    ((reserves_amended (scenarioEntry 10) scenarioCallA scenarioCallB (by decide) (by decide)
      rfl rfl).2.2 [.B, .A, .A, .B] (by decide)).2.2.2.2.1⟩

/-! ## The two readings of `int` agree inside the range -/

theorem AddStock64_eq_AddStock (i : Inventory) (quantity : Int) (reason : String)
    (reference : Option String) (now : Time) (newID : UUID)
    (h1 : IsInt64 (i.Quantity + quantity))
    (h2 : IsInt64 (i.Quantity + quantity - i.ReservedQuantity)) :
    i.AddStock64 quantity reason reference now newID =
      i.AddStock quantity reason reference now newID := by
  by_cases h : 0 < quantity ∧ i.Status = InventoryStatusActive
  · rw [AddStock64_ok _ _ _ _ _ _ h.1 h.2, AddStock_ok _ _ _ _ _ _ h.1 h.2,
      wrapInt_of_isInt64 _ h1, wrapInt_of_isInt64 _ h2]
  · unfold Inventory.AddStock64 Inventory.AddStock
    split_ifs with h3 h4
    · rfl
    · rfl
    · exact absurd ⟨not_le.mp h3, not_not.mp h4⟩ h

theorem RemoveStock64_eq_RemoveStock (i : Inventory) (quantity : Int) (reason : String)
    (reference : Option String) (now : Time) (newID : UUID)
    (h1 : IsInt64 (i.Quantity - quantity))
    (h2 : IsInt64 (i.Quantity - quantity - i.ReservedQuantity)) :
    i.RemoveStock64 quantity reason reference now newID =
      i.RemoveStock quantity reason reference now newID := by
  by_cases h : 0 < quantity ∧ quantity ≤ i.AvailableQuantity
  · rw [RemoveStock64_ok _ _ _ _ _ _ h.1 h.2, RemoveStock_ok _ _ _ _ _ _ h.1 h.2,
      wrapInt_of_isInt64 _ h1, wrapInt_of_isInt64 _ h2]
  · rw [RemoveStock64_error _ _ _ _ _ _ (by omega), RemoveStock_error _ _ _ _ _ _ (by omega)]

theorem ReserveStock64_eq_ReserveStock (i : Inventory) (quantity : Int) (orderID : UUID)
    (expiresAt : Option Time) (now : Time) (newID : UUID)
    (h1 : IsInt64 (i.ReservedQuantity + quantity))
    (h2 : IsInt64 (i.Quantity - (i.ReservedQuantity + quantity))) :
    i.ReserveStock64 quantity orderID expiresAt now newID =
      i.ReserveStock quantity orderID expiresAt now newID := by
  by_cases h : 0 < quantity ∧ quantity ≤ i.AvailableQuantity
  · rw [ReserveStock64_ok _ _ _ _ _ _ h.1 h.2, ReserveStock_ok _ _ _ _ _ _ h.1 h.2,
      wrapInt_of_isInt64 _ h1, wrapInt_of_isInt64 _ h2]
  · rw [ReserveStock64_error _ _ _ _ _ _ (by omega), ReserveStock_error _ _ _ _ _ _ (by omega)]

theorem AdjustStock64_eq_AdjustStock (i : Inventory) (newQuantity : Int) (reason : String)
    (now : Time) (newID : UUID)
    (h1 : minInt < newQuantity - i.Quantity) (h2 : newQuantity - i.Quantity ≤ maxInt)
    (h3 : IsInt64 (newQuantity - i.ReservedQuantity)) :
    i.AdjustStock64 newQuantity reason now newID =
      i.AdjustStock newQuantity reason now newID := by
  by_cases h : 0 ≤ newQuantity ∧ i.ReservedQuantity ≤ newQuantity
  · rw [AdjustStock64_ok _ _ _ _ _ h.1 h.2, AdjustStock_ok _ _ _ _ _ h.1 h.2,
      wrapInt_of_isInt64 _ h3, abs64_wrapInt _ h1 h2, abs_eq_abs]
  · rw [AdjustStock64_error _ _ _ _ _ (by omega), AdjustStock_error _ _ _ _ _ (by omega)]

end Entities
